import Mathlib

/-!
# Shallow embedding of the blake3-js core (src/blake3.ts, src/blake3-workers.ts)

Machine words are `Nat` reduced modulo `2^32` (`W`).  JavaScript's `| 0`
coercions (32-bit wraparound reads and stores) are modelled by `% W` at the
points where the source reads its inputs; bitwise `|`, `^`, `<<`, `>>>` become
`Nat.lor`, `Nat.xor`, `Nat.shiftLeft`, `Nat.shiftRight` (identical bit
patterns for in-range values).  A `Uint8Array` input is modelled by `Bytes`:
a length together with a byte function; the source only reads indices below
the length.  Arithmetic is written with the `Nat.` operation names and
intermediate words are sequenced through `sN` (semantically the identity,
see `sN_eq`) so that the kernel can evaluate concrete hashes call-by-value.

Each compression call of a run is additionally recorded as a `Call` value
(the arguments the source passes to `compress`), so that theorems can speak
about flag propagation; the digest components never depend on the recorded
trace.
-/

namespace Blake3

/-- The word modulus `2^32`. -/
def W : Nat := 4294967296

/-- Sequencing helper: forces a `Nat` to a literal before continuing.
Semantically `sN n k = k n` (`sN_eq`); it only makes kernel evaluation
of the compression chain call-by-value. -/
def sN : Nat → (Nat → α) → α
  | 0, k => k 0
  | n + 1, k => k (n + 1)

theorem sN_eq (n : Nat) (k : Nat → α) : sN n k = k n := by
  cases n <;> rfl

/-- Right rotation of a 32-bit word, from `(x >>> n) | (x << (32 - n))`
(src/blake3.ts round body; the shifted-left half is stored back into a
32-bit local, hence the `% W`). -/
def rotr (x n : Nat) : Nat :=
  Nat.lor (Nat.shiftRight x n) (Nat.mod (Nat.shiftLeft x (32 - n)) W)

/-- An 8-word chaining value (a length-8 `Uint32Array` in the source). -/
structure CV8 where
  x0 : Nat
  x1 : Nat
  x2 : Nat
  x3 : Nat
  x4 : Nat
  x5 : Nat
  x6 : Nat
  x7 : Nat
deriving DecidableEq, Repr

/-- A 16-word message block (a length-16 `Uint32Array` in the source). -/
structure Msg16 where
  y0 : Nat
  y1 : Nat
  y2 : Nat
  y3 : Nat
  y4 : Nat
  y5 : Nat
  y6 : Nat
  y7 : Nat
  y8 : Nat
  y9 : Nat
  y10 : Nat
  y11 : Nat
  y12 : Nat
  y13 : Nat
  y14 : Nat
  y15 : Nat
deriving DecidableEq, Repr

/-- The 16-word compression state `s_0 .. s_15` of src/blake3.ts `compress`. -/
structure St16 where
  s0 : Nat
  s1 : Nat
  s2 : Nat
  s3 : Nat
  s4 : Nat
  s5 : Nat
  s6 : Nat
  s7 : Nat
  s8 : Nat
  s9 : Nat
  s10 : Nat
  s11 : Nat
  s12 : Nat
  s13 : Nat
  s14 : Nat
  s15 : Nat
deriving DecidableEq, Repr

/-- The BLAKE3 IV (src/blake3.ts line 16). -/
def IV : CV8 :=
  ⟨0x6a09e667, 0xbb67ae85, 0x3c6ef372, 0xa54ff53a,
   0x510e527f, 0x9b05688c, 0x1f83d9ab, 0x5be0cd19⟩

def BLOCK_LEN : Nat := 64
def CHUNK_LEN : Nat := 1024
def CHUNK_START : Nat := 1
def CHUNK_END : Nat := 2
def PARENT : Nat := 4
def ROOT : Nat := 8
def KEYED_HASH : Nat := 16
def DERIVE_KEY_CONTEXT : Nat := 32
def DERIVE_KEY_MATERIAL : Nat := 64

/-- One 4-line group of the source round (e.g. src/blake3.ts lines 56-59):
```
a = ((a + b)|0 + mx)|0; d ^= a; d = (d >>> 16) | (d << 16)
c = (c + d)|0;          b ^= c; b = (b >>> 12) | (b << 20)
a = ((a + b)|0 + my)|0; d ^= a; d = (d >>> 8)  | (d << 24)
c = (c + d)|0;          b ^= c; b = (b >>> 7)  | (b << 25)
```
written in continuation style so every intermediate word is forced. -/
def g (a b c d mx my : Nat) (k : Nat → Nat → Nat → Nat → α) : α :=
  sN (Nat.mod (Nat.add (Nat.mod (Nat.add a b) W) mx) W) fun a1 =>
  sN (rotr (Nat.xor d a1) 16) fun d1 =>
  sN (Nat.mod (Nat.add c d1) W) fun c1 =>
  sN (rotr (Nat.xor b c1) 12) fun b1 =>
  sN (Nat.mod (Nat.add (Nat.mod (Nat.add a1 b1) W) my) W) fun a2 =>
  sN (rotr (Nat.xor d1 a2) 8) fun d2 =>
  sN (Nat.mod (Nat.add c1 d2) W) fun c2 =>
  sN (rotr (Nat.xor b1 c2) 7) fun b2 =>
  k a2 b2 c2 d2

/-- One round of src/blake3.ts `compress` (lines 54-96): the four column
groups followed by the four diagonal groups, in source order.  The
(state-index, message-index) wiring of each group is exactly that of the
corresponding 4-line block of the source. -/
def roundFn (s : St16) (m : Msg16) (k : St16 → α) : α :=
  g s.s0 s.s4 s.s8 s.s12 m.y0 m.y1 fun a0 e0 i0 m0 =>
  g s.s1 s.s5 s.s9 s.s13 m.y2 m.y3 fun a1 e1 i1 m1 =>
  g s.s2 s.s6 s.s10 s.s14 m.y4 m.y5 fun a2 e2 i2 m2 =>
  g s.s3 s.s7 s.s11 s.s15 m.y6 m.y7 fun a3 e3 i3 m3 =>
  g a0 e1 i2 m3 m.y8 m.y9 fun b0 f1 j2 n3 =>
  g a1 e2 i3 m0 m.y10 m.y11 fun b1 f2 j3 n0 =>
  g a2 e3 i0 m1 m.y12 m.y13 fun b2 f3 j0 n1 =>
  g a3 e0 i1 m2 m.y14 m.y15 fun b3 f0 j1 n2 =>
  k ⟨b0, b1, b2, b3, f0, f1, f2, f3, j0, j1, j2, j3, n0, n1, n2, n3⟩

/-- The in-place message permutation of src/blake3.ts lines 98-102
(`m_0 = m_2; m_2 = m_3; ...`), read as a function from the old message
to the new one. -/
def permuteMsg (m : Msg16) : Msg16 :=
  ⟨m.y2, m.y6, m.y3, m.y10, m.y7, m.y0, m.y4, m.y13,
   m.y1, m.y11, m.y12, m.y5, m.y9, m.y14, m.y15, m.y8⟩

/-- The `for (let i = 0; i < 7; ++i)` round loop of src/blake3.ts, by
recursion on the number of rounds remaining; the message is permuted between
rounds exactly when another round follows (the `if (i < 6)` guard). -/
def roundsLoop : Nat → St16 → Msg16 → St16
  | 0, s, _ => s
  | r + 1, s, m =>
      roundFn s m fun s' =>
        roundsLoop r s' (if r = 0 then m else permuteMsg m)

/-- src/blake3.ts `compress` (lines 37-109).  The `cv[i] | 0` and `m[i] | 0`
reads and the counter split
`s_12 = counter | 0; s_13 = (counter / 0x100000000) | 0` are modelled by
reduction modulo `W` (the values of interest are 32-bit words and a 64-bit
counter, for which `| 0` is exactly the mod-`2^32` bit pattern). -/
def compress (cv : CV8) (m : Msg16) (counter blockLen flags : Nat) : CV8 :=
  match cv, m with
  | ⟨c0, c1, c2, c3, c4, c5, c6, c7⟩,
    ⟨w0, w1, w2, w3, w4, w5, w6, w7, w8, w9, w10, w11, w12, w13, w14, w15⟩ =>
    sN (Nat.mod counter W) fun lo => sN (Nat.mod (Nat.div counter W) W) fun hi =>
    sN (Nat.mod blockLen W) fun bl => sN (Nat.mod flags W) fun fl =>
    sN (Nat.mod c0 W) fun c0 => sN (Nat.mod c1 W) fun c1 =>
    sN (Nat.mod c2 W) fun c2 => sN (Nat.mod c3 W) fun c3 =>
    sN (Nat.mod c4 W) fun c4 => sN (Nat.mod c5 W) fun c5 =>
    sN (Nat.mod c6 W) fun c6 => sN (Nat.mod c7 W) fun c7 =>
    sN (Nat.mod w0 W) fun w0 => sN (Nat.mod w1 W) fun w1 =>
    sN (Nat.mod w2 W) fun w2 => sN (Nat.mod w3 W) fun w3 =>
    sN (Nat.mod w4 W) fun w4 => sN (Nat.mod w5 W) fun w5 =>
    sN (Nat.mod w6 W) fun w6 => sN (Nat.mod w7 W) fun w7 =>
    sN (Nat.mod w8 W) fun w8 => sN (Nat.mod w9 W) fun w9 =>
    sN (Nat.mod w10 W) fun w10 => sN (Nat.mod w11 W) fun w11 =>
    sN (Nat.mod w12 W) fun w12 => sN (Nat.mod w13 W) fun w13 =>
    sN (Nat.mod w14 W) fun w14 => sN (Nat.mod w15 W) fun w15 =>
    let s := roundsLoop 7
      ⟨c0, c1, c2, c3, c4, c5, c6, c7,
       0x6a09e667, 0xbb67ae85, 0x3c6ef372, 0xa54ff53a, lo, hi, bl, fl⟩
      ⟨w0, w1, w2, w3, w4, w5, w6, w7, w8, w9, w10, w11, w12, w13, w14, w15⟩
    ⟨Nat.xor s.s0 s.s8, Nat.xor s.s1 s.s9, Nat.xor s.s2 s.s10,
     Nat.xor s.s3 s.s11, Nat.xor s.s4 s.s12, Nat.xor s.s5 s.s13,
     Nat.xor s.s6 s.s14, Nat.xor s.s7 s.s15⟩

/-- A byte-sequence input (`Uint8Array`): a length and the byte at each
index below the length. -/
structure Bytes where
  len : Nat
  byte : Nat → Nat

/-- One 32-bit little-endian word loaded by src/blake3.ts `readBlock`
(lines 111-126): bytes `i, i+1, i+2, i+3` at shifts `0, 8, 16, 24`, each
included only while the index is below `e` (the clamped end of the block),
missing bytes reading as the zero fill.  The store into the `Uint32Array`
output truncates modulo `2^32`. -/
def loadWord (b : Bytes) (i e : Nat) : Nat :=
  Nat.mod
    (Nat.lor
      (Nat.lor
        (Nat.lor (if i < e then b.byte i else 0)
          (if i + 1 < e then Nat.shiftLeft (b.byte (i + 1)) 8 else 0))
        (if i + 2 < e then Nat.shiftLeft (b.byte (i + 2)) 16 else 0))
      (if i + 3 < e then Nat.shiftLeft (b.byte (i + 3)) 24 else 0)) W

/-- src/blake3.ts `readBlock` (lines 111-126): sixteen little-endian words
from `input[offset ..]`, clamped at `min (offset + length) input.length` and
zero-padded.  (The aligned fast path `readBlockFastLE` loads the same
sixteen little-endian words whenever it applies, so it needs no separate
model.) -/
def readBlock (b : Bytes) (offset length : Nat) : Msg16 :=
  let e := min (offset + length) b.len
  ⟨loadWord b (offset + 0) e, loadWord b (offset + 4) e,
   loadWord b (offset + 8) e, loadWord b (offset + 12) e,
   loadWord b (offset + 16) e, loadWord b (offset + 20) e,
   loadWord b (offset + 24) e, loadWord b (offset + 28) e,
   loadWord b (offset + 32) e, loadWord b (offset + 36) e,
   loadWord b (offset + 40) e, loadWord b (offset + 44) e,
   loadWord b (offset + 48) e, loadWord b (offset + 52) e,
   loadWord b (offset + 56) e, loadWord b (offset + 60) e⟩

/-- src/blake3.ts `cvToBytes` (lines 138-148) written index-wise: byte `j`
of the result is byte `j % 4` of word `j / 4` whenever the loop over
`i < min(8, ceil(outputLen / 4))` reaches that word and the `base + k <
outputLen` guard allows the index (for `j < outputLen` the latter always
holds), and the `Uint8Array`'s zero fill otherwise. -/
def cvWord (cv : CV8) : Nat → Nat
  | 0 => cv.x0
  | 1 => cv.x1
  | 2 => cv.x2
  | 3 => cv.x3
  | 4 => cv.x4
  | 5 => cv.x5
  | 6 => cv.x6
  | 7 => cv.x7
  | _ => 0

def cvToBytes (cv : CV8) (outputLen : Nat) : List Nat :=
  (List.range outputLen).map fun j =>
    if j / 4 < min 8 ((outputLen + 3) / 4) then
      Nat.mod (Nat.shiftRight (cvWord cv (j / 4)) (8 * (j % 4))) 256
    else 0

/-- One recorded `compress` invocation: the chaining value, counter, block
length and flags the source passes. -/
structure Call where
  cv : CV8
  counter : Nat
  blockLen : Nat
  flags : Nat
deriving DecidableEq, Repr

/-- Forces the eight words of a chaining value before continuing;
semantically the identity (`forceCV_eq`). -/
def forceCV (c : CV8) (k : CV8 → α) : α :=
  match c with
  | ⟨a0, a1, a2, a3, a4, a5, a6, a7⟩ =>
    sN a0 fun a0 => sN a1 fun a1 => sN a2 fun a2 => sN a3 fun a3 =>
    sN a4 fun a4 => sN a5 fun a5 => sN a6 fun a6 => sN a7 fun a7 =>
    k ⟨a0, a1, a2, a3, a4, a5, a6, a7⟩

theorem forceCV_eq (c : CV8) (k : CV8 → α) : forceCV c k = k c := by
  cases c; simp [forceCV, sN_eq]

/-- The number of blocks of a chunk, `Math.ceil(len / BLOCK_LEN) || 1`
(at least one, also for the empty chunk). -/
def numBlocks (len : Nat) : Nat :=
  let n := (len + 63) / 64
  if n = 0 then 1 else n

/-- The per-block loop shared by every chunk-processing site of the source
(src/blake3.ts lines 161-181, 214-234, 294-309, 326-341, 382-397, 404-419;
src/blake3-workers.ts likewise): starting from `cv`, it compresses
consecutive 64-byte blocks of `input[start .. start+len)` with the given
counter, OR-ing `CHUNK_START` into the first block's flags and `lastExtra`
(either `CHUNK_END` or `CHUNK_END | ROOT`, per call site) into the last
block's.  Returns the final chaining value together with the recorded
compress calls in order. -/
def blockLoopT (b : Bytes) (start len counter flags lastExtra : Nat) :
    Nat → Nat → CV8 → CV8 × List Call
  | 0, _, cv => (cv, [])
  | br + 1, pos, cv =>
    let blockLen := min 64 (len - pos)
    let bf := Nat.lor (Nat.lor flags (if pos = 0 then CHUNK_START else 0))
      (if br = 0 then lastExtra else 0)
    forceCV (compress cv (readBlock b (start + pos) blockLen) counter blockLen bf)
      fun cv' =>
        let r := blockLoopT b start len counter flags lastExtra br (pos + 64) cv'
        (r.1, ⟨cv, counter, blockLen, bf⟩ :: r.2)

/-- src/blake3.ts `processChunk` (lines 150-184). -/
def processChunkT (b : Bytes) (chunkStart chunkLen chunkCounter flags : Nat) :
    CV8 × List Call :=
  blockLoopT b chunkStart chunkLen chunkCounter flags CHUNK_END
    (numBlocks chunkLen) 0 IV

/-- Parent compression from two child CVs (src/blake3.ts `mergeParents`,
lines 186-200, with base CV `IV`; the keyed path inlines the same
computation with the key words as base, lines 349-352 and 360-364). -/
def mergeCvT (base l r : CV8) (flags : Nat) (isRoot : Bool) : CV8 × Call :=
  let block : Msg16 :=
    ⟨l.x0, l.x1, l.x2, l.x3, l.x4, l.x5, l.x6, l.x7,
     r.x0, r.x1, r.x2, r.x3, r.x4, r.x5, r.x6, r.x7⟩
  let parentFlags := Nat.lor (Nat.lor flags PARENT) (if isRoot then ROOT else 0)
  (compress base block 0 BLOCK_LEN parentFlags,
   ⟨base, 0, BLOCK_LEN, parentFlags⟩)

/-- The stack is a `List CV8` whose head is the top (the end of the source's
`cvStack` array, where `push` and `pop` operate). -/
def cvZero : CV8 := ⟨0, 0, 0, 0, 0, 0, 0, 0⟩

def stackTop (s : List CV8) : CV8 := s.headD cvZero

/-- The eager pair-merging loop
`while ((totalChunks & 1) === 0 && cvStack.length >= 2)` (src/blake3.ts
lines 255-260 and 346-354).  `fuel` bounds the iterations; every call site
passes `fuel = t` with `t = c + 1 ≥ 1`, which dominates the at most
`log2 t` halvings the loop performs, so the bound is never hit. -/
def eagerMergeAuxT (base : CV8) (flags : Nat) :
    Nat → Nat → List CV8 → List CV8 × List Call
  | 0, _, stack => (stack, [])
  | fuel + 1, t, stack =>
    if t % 2 = 0 then
      match stack with
      | r :: l :: rest =>
        let m := mergeCvT base l r flags false
        forceCV m.1 fun mcv =>
          let res := eagerMergeAuxT base flags fuel (t / 2) (mcv :: rest)
          (res.1, m.2 :: res.2)
      | _ => (stack, [])
    else (stack, [])

/-- The final `while (cvStack.length > 1)` merge loop (src/blake3.ts lines
265-270 and 357-365): repeatedly merges the two top CVs, marking the merge
that empties the rest of the stack — the last one — as ROOT.  `fuel` bounds
the iterations; call sites pass the stack length, which dominates the
`length - 1` iterations performed. -/
def finalMergeAuxT (base : CV8) (flags : Nat) :
    Nat → List CV8 → List CV8 × List Call
  | 0, stack => (stack, [])
  | fuel + 1, stack =>
    match stack with
    | r :: l :: rest =>
      let m := mergeCvT base l r flags rest.isEmpty
      forceCV m.1 fun mcv =>
        let res := finalMergeAuxT base flags fuel (mcv :: rest)
        (res.1, m.2 :: res.2)
    | _ => (stack, [])

/-- The multi-chunk main loop of src/blake3.ts `hash` (lines 243-262):
process chunk `c`, push its CV, and eagerly merge pairs — but only when `c`
is not the last chunk. -/
def chunksLoopT (b : Bytes) (numChunks flags : Nat) :
    Nat → Nat → List CV8 → List CV8 × List Call
  | 0, _, stack => (stack, [])
  | fuel + 1, c, stack =>
    let chunkStart := c * CHUNK_LEN
    let chunkLen := min CHUNK_LEN (b.len - chunkStart)
    let pc := processChunkT b chunkStart chunkLen c flags
    let stack1 := pc.1 :: stack
    let em :=
      if c = numChunks - 1 then (stack1, ([] : List Call))
      else eagerMergeAuxT IV flags (c + 1) (c + 1) stack1
    let res := chunksLoopT b numChunks flags fuel (c + 1) em.1
    (res.1, pc.2 ++ em.2 ++ res.2)

/-- src/blake3.ts `hash` (lines 205-273) up to the digest extraction: the
root CV and the recorded compress calls.  The single-chunk fast path is the
inline block loop of lines 209-236 (last block flags `CHUNK_END | ROOT`);
the multi-chunk path is the chunk loop followed by the final merges. -/
def hashRootT (b : Bytes) : CV8 × List Call :=
  if b.len ≤ CHUNK_LEN then
    blockLoopT b 0 b.len 0 0 (Nat.lor CHUNK_END ROOT) (numBlocks b.len) 0 IV
  else
    let numChunks := (b.len + 1023) / 1024
    let cl := chunksLoopT b numChunks 0 numChunks 0 []
    let fm := finalMergeAuxT IV 0 cl.1.length cl.1
    (stackTop fm.1, cl.2 ++ fm.2)

def hashT (b : Bytes) (outputLen : Nat) : List Nat × List Call :=
  let r := hashRootT b
  (cvToBytes r.1 outputLen, r.2)

/-- The digest bytes returned by `hash(input, outputLen)`. -/
def hash (b : Bytes) (outputLen : Nat) : List Nat := (hashT b outputLen).1

/-- The eight little-endian key words of src/blake3.ts `keyedHash`
(lines 281-285). -/
def keyWordAt (key : Bytes) (i : Nat) : Nat :=
  Nat.mod
    (Nat.lor
      (Nat.lor (Nat.lor (key.byte (4 * i)) (Nat.shiftLeft (key.byte (4 * i + 1)) 8))
        (Nat.shiftLeft (key.byte (4 * i + 2)) 16))
      (Nat.shiftLeft (key.byte (4 * i + 3)) 24)) W

def keyWords (key : Bytes) : CV8 :=
  ⟨keyWordAt key 0, keyWordAt key 1, keyWordAt key 2, keyWordAt key 3,
   keyWordAt key 4, keyWordAt key 5, keyWordAt key 6, keyWordAt key 7⟩

/-- The multi-chunk main loop of src/blake3.ts `keyedHash` (lines 318-355).
Unlike `hash`, the eager pair-merge runs after every chunk, with no
last-chunk guard, and both the per-chunk loop and the parent compressions
start from the key words. -/
def keyedChunksLoopT (b : Bytes) (kw : CV8) :
    Nat → Nat → List CV8 → List CV8 × List Call
  | 0, _, stack => (stack, [])
  | fuel + 1, c, stack =>
    let chunkStart := c * CHUNK_LEN
    let chunkLen := min CHUNK_LEN (b.len - chunkStart)
    let pc := blockLoopT b chunkStart chunkLen c KEYED_HASH CHUNK_END
      (numBlocks chunkLen) 0 kw
    let stack1 := pc.1 :: stack
    let em := eagerMergeAuxT kw KEYED_HASH (c + 1) (c + 1) stack1
    let res := keyedChunksLoopT b kw fuel (c + 1) em.1
    (res.1, pc.2 ++ em.2 ++ res.2)

/-- src/blake3.ts `keyedHash` (lines 278-368): throws unless the key is
exactly 32 bytes; otherwise hashes with the key words as initial CV and
`KEYED_HASH` OR-ed into every compression. -/
def keyedHashT (key : Bytes) (b : Bytes) (outputLen : Nat) :
    Except String (List Nat × List Call) :=
  if key.len ≠ 32 then Except.error "Key must be 32 bytes"
  else
    let kw := keyWords key
    if b.len ≤ CHUNK_LEN then
      let r := blockLoopT b 0 b.len 0 KEYED_HASH (Nat.lor CHUNK_END ROOT)
        (numBlocks b.len) 0 kw
      Except.ok (cvToBytes r.1 outputLen, r.2)
    else
      let numChunks := (b.len + 1023) / 1024
      let cl := keyedChunksLoopT b kw numChunks 0 []
      let fm := finalMergeAuxT kw KEYED_HASH cl.1.length cl.1
      Except.ok (cvToBytes (stackTop fm.1) outputLen, cl.2 ++ fm.2)

/-- Step 1 of src/blake3.ts `deriveKey` (lines 377-397): the context bytes
are compressed by a single sequential block loop — counter 0 throughout,
`CHUNK_START` on the first block and `CHUNK_END | ROOT` on the last —
regardless of how many 1024-byte chunks the context spans. -/
def deriveCtxCvT (ctx : Bytes) : CV8 × List Call :=
  blockLoopT ctx 0 ctx.len 0 DERIVE_KEY_CONTEXT (Nat.lor CHUNK_END ROOT)
    (numBlocks ctx.len) 0 IV

/-- src/blake3.ts `deriveKey` (lines 373-422): hash the context in
DERIVE_KEY_CONTEXT mode, then hash the key material in DERIVE_KEY_MATERIAL
mode starting from the context CV.  (The JavaScript function receives the
context as a string and UTF-8 encodes it; the model receives the encoded
bytes.) -/
def deriveKeyT (ctx mat : Bytes) (outputLen : Nat) : List Nat × List Call :=
  let c := deriveCtxCvT ctx
  let m := blockLoopT mat 0 mat.len 0 DERIVE_KEY_MATERIAL (Nat.lor CHUNK_END ROOT)
    (numBlocks mat.len) 0 c.1
  (cvToBytes m.1 outputLen, c.2 ++ m.2)

def deriveKey (ctx mat : Bytes) (outputLen : Nat) : List Nat :=
  (deriveKeyT ctx mat outputLen).1

/-- The push-and-merge step for one chunk CV of the batched path
(src/blake3-workers.ts lines 1276-1297 for the group of four, lines
1326-1344 for the stragglers): push the CV, and eagerly merge pairs unless
this chunk is the last. -/
def simdPushT (numChunks currentChunk : Nat) (cv : CV8) (stack : List CV8) :
    List CV8 × List Call :=
  let stack1 := cv :: stack
  if currentChunk = numChunks - 1 then (stack1, [])
  else eagerMergeAuxT IV 0 (currentChunk + 1) (currentChunk + 1) stack1

/-- The `while (offset < input.length)` loop of src/blake3-workers.ts
`hashWasmSimd` (lines 1242-1349), modelled with the WASM batch kernel
available (`compress4x` non-null; its lanes compute the same `compressJS`
this file embeds as `compress`).  When at least four chunks remain, four
chunks are processed and then pushed in order; otherwise one chunk is
processed and pushed.  `fuel` bounds the loop iterations; call sites pass
the chunk count, which each iteration reduces by at least one. -/
def simdLoopT (b : Bytes) (numChunks : Nat) :
    Nat → Nat → Nat → List CV8 → List CV8 × List Call
  | 0, _, _, stack => (stack, [])
  | fuel + 1, chunkCounter, offset, stack =>
    if b.len ≤ offset then (stack, [])
    else
      let avail := min 4 ((b.len - offset + 1023) / 1024)
      if 4 ≤ avail then
        let p0 := blockLoopT b (offset + 0 * CHUNK_LEN)
          (min CHUNK_LEN (b.len - (offset + 0 * CHUNK_LEN))) (chunkCounter + 0)
          0 CHUNK_END (numBlocks (min CHUNK_LEN (b.len - (offset + 0 * CHUNK_LEN)))) 0 IV
        let p1 := blockLoopT b (offset + 1 * CHUNK_LEN)
          (min CHUNK_LEN (b.len - (offset + 1 * CHUNK_LEN))) (chunkCounter + 1)
          0 CHUNK_END (numBlocks (min CHUNK_LEN (b.len - (offset + 1 * CHUNK_LEN)))) 0 IV
        let p2 := blockLoopT b (offset + 2 * CHUNK_LEN)
          (min CHUNK_LEN (b.len - (offset + 2 * CHUNK_LEN))) (chunkCounter + 2)
          0 CHUNK_END (numBlocks (min CHUNK_LEN (b.len - (offset + 2 * CHUNK_LEN)))) 0 IV
        let p3 := blockLoopT b (offset + 3 * CHUNK_LEN)
          (min CHUNK_LEN (b.len - (offset + 3 * CHUNK_LEN))) (chunkCounter + 3)
          0 CHUNK_END (numBlocks (min CHUNK_LEN (b.len - (offset + 3 * CHUNK_LEN)))) 0 IV
        let s0 := simdPushT numChunks (chunkCounter + 0) p0.1 stack
        let s1 := simdPushT numChunks (chunkCounter + 1) p1.1 s0.1
        let s2 := simdPushT numChunks (chunkCounter + 2) p2.1 s1.1
        let s3 := simdPushT numChunks (chunkCounter + 3) p3.1 s2.1
        let res := simdLoopT b numChunks fuel (chunkCounter + 4)
          (offset + 4 * CHUNK_LEN) s3.1
        (res.1,
          p0.2 ++ p1.2 ++ p2.2 ++ p3.2 ++ s0.2 ++ s1.2 ++ s2.2 ++ s3.2 ++ res.2)
      else
        let pc := blockLoopT b offset (min CHUNK_LEN (b.len - offset)) chunkCounter
          0 CHUNK_END (numBlocks (min CHUNK_LEN (b.len - offset))) 0 IV
        let s0 := simdPushT numChunks chunkCounter pc.1 stack
        let res := simdLoopT b numChunks fuel (chunkCounter + 1)
          (offset + CHUNK_LEN) s0.1
        (res.1, pc.2 ++ s0.2 ++ res.2)

/-- src/blake3-workers.ts `hashWasmSimd` (lines 1197-1366) with the batch
kernel available: single-chunk inputs take the inline block loop (lines
1203-1226, identical to the scalar one); larger inputs run the batched
chunk loop followed by the final ROOT merges (lines 1352-1363, identical
to the scalar finalization). -/
def hashWasmSimdT (b : Bytes) (outputLen : Nat) : List Nat × List Call :=
  if b.len ≤ CHUNK_LEN then
    let r := blockLoopT b 0 b.len 0 0 (Nat.lor CHUNK_END ROOT) (numBlocks b.len) 0 IV
    (cvToBytes r.1 outputLen, r.2)
  else
    let numChunks := (b.len + 1023) / 1024
    let sl := simdLoopT b numChunks numChunks 0 0 []
    let fm := finalMergeAuxT IV 0 sl.1.length sl.1
    (cvToBytes (stackTop fm.1) outputLen, sl.2 ++ fm.2)

def hashWasmSimd (b : Bytes) (outputLen : Nat) : List Nat :=
  (hashWasmSimdT b outputLen).1

end Blake3

namespace Blake3

/-! ## Concrete test vectors (claim C1) -/

/-- The spec's vector input: the byte sequence `[i mod 251 for i in 0..len]`. -/
def tvInput (n : Nat) : Bytes := ⟨n, fun i => i % 251⟩

/-- Digest of the empty input (spec table row `len = 0`). -/
def digest0 : List Nat := [175, 19, 73, 185, 245, 249, 161, 166, 160, 64, 77, 234, 54, 220, 201, 73, 155, 203, 37, 201, 173, 193, 18, 183, 204, 154, 147, 202, 228, 31, 50, 98]

/-- Digest for `len = 1` (spec table row). -/
def digest1 : List Nat := [45, 58, 222, 223, 241, 27, 97, 241, 76, 136, 110, 53, 175, 160, 54, 115, 109, 205, 135, 167, 77, 39, 181, 193, 81, 2, 37, 208, 245, 146, 226, 19]

/-- Digest for `len = 64` (spec table row). -/
def digest64 : List Nat := [78, 237, 113, 65, 234, 74, 92, 212, 183, 136, 96, 107, 210, 63, 70, 226, 18, 175, 156, 172, 235, 172, 220, 125, 31, 76, 109, 199, 242, 81, 27, 152]

/-- Digest for `len = 1024` (spec table row). -/
def digest1024 : List Nat := [66, 33, 71, 57, 240, 149, 164, 6, 243, 252, 131, 222, 184, 137, 116, 74, 192, 13, 248, 49, 193, 13, 170, 85, 24, 155, 93, 18, 28, 133, 90, 247]

/-- Digest for `len = 1025` (spec table row). -/
def digest1025 : List Nat := [208, 2, 120, 174, 71, 235, 39, 179, 79, 174, 207, 103, 180, 254, 38, 63, 130, 213, 65, 41, 22, 193, 255, 217, 124, 140, 183, 251, 129, 75, 132, 68]

/-- The digest the code produces for `len = 65536` (hex
`68d647e619a930e7b1082f74f334b0c65a315725569bdc123f0ee11881717bfe`).
This is the true BLAKE3 digest of that input; it differs from the spec
table's row for 65536. -/
def digest65536 : List Nat := [104, 214, 71, 230, 25, 169, 48, 231, 177, 8, 47, 116, 243, 52, 176, 198, 90, 49, 87, 37, 86, 155, 220, 18, 63, 14, 225, 24, 129, 113, 123, 254]

/-- The digest the spec's table lists for `len = 65536` (hex
`de1e5fa0be70df6d2be8fffd0e99ceaa8eb6e8c93a63f2d8d1c30ecb6b263dee`). -/
def specDigest65536 : List Nat := [222, 30, 95, 160, 190, 112, 223, 109, 43, 232, 255, 253, 14, 153, 206, 170, 142, 182, 232, 201, 58, 99, 242, 216, 209, 195, 14, 203, 107, 38, 61, 238]

/-- One scalar step of the multi-chunk loop of `hash` (`flags = 0`),
expressed through the push-and-merge helper, whose body coincides with
the loop's push and guarded eager merge. -/
theorem chunksLoopT_fst_step (b : Bytes) (nc fuel c : Nat) (stack : List CV8) :
    (chunksLoopT b nc 0 (fuel + 1) c stack).1 =
      (chunksLoopT b nc 0 fuel (c + 1)
        (simdPushT nc c (processChunkT b (c * CHUNK_LEN)
          (min CHUNK_LEN (b.len - c * CHUNK_LEN)) c 0).1 stack).1).1 := rfl


/-! ## Chunk-by-chunk evaluation of the 65536-byte vector (claim C1).

Kernel evaluation of the full 64-chunk run in one proof is split into one
step lemma per chunk of the main loop (each provable by a small `decide`),
chained into `hash_tv65536` below. -/

set_option maxRecDepth 100000 in
set_option maxHeartbeats 1000000 in
theorem c1Step0 :
    (chunksLoopT (tvInput 65536) 64 0 64 0 ([] : List CV8)).1 =
      (chunksLoopT (tvInput 65536) 64 0 63 1 ([CV8.mk 1147510364 3516130065 281526004 1455216076 2098703209 3054373473 3925802129 2984817711] : List CV8)).1 := by
  rw [chunksLoopT_fst_step]
  exact congrArg
    (fun s => (chunksLoopT (tvInput 65536) 64 0 63 (0 + 1) s).1)
    (by decide :
      (simdPushT 64 0 (processChunkT (tvInput 65536) (0 * CHUNK_LEN)
        (min CHUNK_LEN ((tvInput 65536).len - 0 * CHUNK_LEN)) 0 0).1
        ([] : List CV8)).1 = ([CV8.mk 1147510364 3516130065 281526004 1455216076 2098703209 3054373473 3925802129 2984817711] : List CV8))

set_option maxRecDepth 100000 in
set_option maxHeartbeats 1000000 in
theorem c1Step1 :
    (chunksLoopT (tvInput 65536) 64 0 63 1 ([CV8.mk 1147510364 3516130065 281526004 1455216076 2098703209 3054373473 3925802129 2984817711] : List CV8)).1 =
      (chunksLoopT (tvInput 65536) 64 0 62 2 ([CV8.mk 1333600129 2384803095 2458633767 1249705748 1198360236 4058922487 3037235709 1333825507] : List CV8)).1 := by
  rw [chunksLoopT_fst_step]
  exact congrArg
    (fun s => (chunksLoopT (tvInput 65536) 64 0 62 (1 + 1) s).1)
    (by decide :
      (simdPushT 64 1 (processChunkT (tvInput 65536) (1 * CHUNK_LEN)
        (min CHUNK_LEN ((tvInput 65536).len - 1 * CHUNK_LEN)) 1 0).1
        ([CV8.mk 1147510364 3516130065 281526004 1455216076 2098703209 3054373473 3925802129 2984817711] : List CV8)).1 = ([CV8.mk 1333600129 2384803095 2458633767 1249705748 1198360236 4058922487 3037235709 1333825507] : List CV8))

set_option maxRecDepth 100000 in
set_option maxHeartbeats 1000000 in
theorem c1Step2 :
    (chunksLoopT (tvInput 65536) 64 0 62 2 ([CV8.mk 1333600129 2384803095 2458633767 1249705748 1198360236 4058922487 3037235709 1333825507] : List CV8)).1 =
      (chunksLoopT (tvInput 65536) 64 0 61 3 ([CV8.mk 3191123761 4156599190 727455631 1414001530 370737570 1480840121 1875932204 2822509831, CV8.mk 1333600129 2384803095 2458633767 1249705748 1198360236 4058922487 3037235709 1333825507] : List CV8)).1 := by
  rw [chunksLoopT_fst_step]
  exact congrArg
    (fun s => (chunksLoopT (tvInput 65536) 64 0 61 (2 + 1) s).1)
    (by decide :
      (simdPushT 64 2 (processChunkT (tvInput 65536) (2 * CHUNK_LEN)
        (min CHUNK_LEN ((tvInput 65536).len - 2 * CHUNK_LEN)) 2 0).1
        ([CV8.mk 1333600129 2384803095 2458633767 1249705748 1198360236 4058922487 3037235709 1333825507] : List CV8)).1 = ([CV8.mk 3191123761 4156599190 727455631 1414001530 370737570 1480840121 1875932204 2822509831, CV8.mk 1333600129 2384803095 2458633767 1249705748 1198360236 4058922487 3037235709 1333825507] : List CV8))

set_option maxRecDepth 100000 in
set_option maxHeartbeats 1000000 in
theorem c1Step3 :
    (chunksLoopT (tvInput 65536) 64 0 61 3 ([CV8.mk 3191123761 4156599190 727455631 1414001530 370737570 1480840121 1875932204 2822509831, CV8.mk 1333600129 2384803095 2458633767 1249705748 1198360236 4058922487 3037235709 1333825507] : List CV8)).1 =
      (chunksLoopT (tvInput 65536) 64 0 60 4 ([CV8.mk 941222013 178308220 2967027271 2821685495 411939795 4087342245 2010985712 1655658942] : List CV8)).1 := by
  rw [chunksLoopT_fst_step]
  exact congrArg
    (fun s => (chunksLoopT (tvInput 65536) 64 0 60 (3 + 1) s).1)
    (by decide :
      (simdPushT 64 3 (processChunkT (tvInput 65536) (3 * CHUNK_LEN)
        (min CHUNK_LEN ((tvInput 65536).len - 3 * CHUNK_LEN)) 3 0).1
        ([CV8.mk 3191123761 4156599190 727455631 1414001530 370737570 1480840121 1875932204 2822509831, CV8.mk 1333600129 2384803095 2458633767 1249705748 1198360236 4058922487 3037235709 1333825507] : List CV8)).1 = ([CV8.mk 941222013 178308220 2967027271 2821685495 411939795 4087342245 2010985712 1655658942] : List CV8))

set_option maxRecDepth 100000 in
set_option maxHeartbeats 1000000 in
theorem c1Step4 :
    (chunksLoopT (tvInput 65536) 64 0 60 4 ([CV8.mk 941222013 178308220 2967027271 2821685495 411939795 4087342245 2010985712 1655658942] : List CV8)).1 =
      (chunksLoopT (tvInput 65536) 64 0 59 5 ([CV8.mk 1922649698 993321765 1253358199 4187695065 3788015652 1655223478 677093114 1589103609, CV8.mk 941222013 178308220 2967027271 2821685495 411939795 4087342245 2010985712 1655658942] : List CV8)).1 := by
  rw [chunksLoopT_fst_step]
  exact congrArg
    (fun s => (chunksLoopT (tvInput 65536) 64 0 59 (4 + 1) s).1)
    (by decide :
      (simdPushT 64 4 (processChunkT (tvInput 65536) (4 * CHUNK_LEN)
        (min CHUNK_LEN ((tvInput 65536).len - 4 * CHUNK_LEN)) 4 0).1
        ([CV8.mk 941222013 178308220 2967027271 2821685495 411939795 4087342245 2010985712 1655658942] : List CV8)).1 = ([CV8.mk 1922649698 993321765 1253358199 4187695065 3788015652 1655223478 677093114 1589103609, CV8.mk 941222013 178308220 2967027271 2821685495 411939795 4087342245 2010985712 1655658942] : List CV8))

set_option maxRecDepth 100000 in
set_option maxHeartbeats 1000000 in
theorem c1Step5 :
    (chunksLoopT (tvInput 65536) 64 0 59 5 ([CV8.mk 1922649698 993321765 1253358199 4187695065 3788015652 1655223478 677093114 1589103609, CV8.mk 941222013 178308220 2967027271 2821685495 411939795 4087342245 2010985712 1655658942] : List CV8)).1 =
      (chunksLoopT (tvInput 65536) 64 0 58 6 ([CV8.mk 2023047293 3282128806 3212570036 2187713689 3649038891 1404470070 1893028792 3934398203, CV8.mk 941222013 178308220 2967027271 2821685495 411939795 4087342245 2010985712 1655658942] : List CV8)).1 := by
  rw [chunksLoopT_fst_step]
  exact congrArg
    (fun s => (chunksLoopT (tvInput 65536) 64 0 58 (5 + 1) s).1)
    (by decide :
      (simdPushT 64 5 (processChunkT (tvInput 65536) (5 * CHUNK_LEN)
        (min CHUNK_LEN ((tvInput 65536).len - 5 * CHUNK_LEN)) 5 0).1
        ([CV8.mk 1922649698 993321765 1253358199 4187695065 3788015652 1655223478 677093114 1589103609, CV8.mk 941222013 178308220 2967027271 2821685495 411939795 4087342245 2010985712 1655658942] : List CV8)).1 = ([CV8.mk 2023047293 3282128806 3212570036 2187713689 3649038891 1404470070 1893028792 3934398203, CV8.mk 941222013 178308220 2967027271 2821685495 411939795 4087342245 2010985712 1655658942] : List CV8))

set_option maxRecDepth 100000 in
set_option maxHeartbeats 1000000 in
theorem c1Step6 :
    (chunksLoopT (tvInput 65536) 64 0 58 6 ([CV8.mk 2023047293 3282128806 3212570036 2187713689 3649038891 1404470070 1893028792 3934398203, CV8.mk 941222013 178308220 2967027271 2821685495 411939795 4087342245 2010985712 1655658942] : List CV8)).1 =
      (chunksLoopT (tvInput 65536) 64 0 57 7 ([CV8.mk 1121571652 313526705 2599973927 2826560217 2359902516 1839225262 2655917017 4130489984, CV8.mk 2023047293 3282128806 3212570036 2187713689 3649038891 1404470070 1893028792 3934398203, CV8.mk 941222013 178308220 2967027271 2821685495 411939795 4087342245 2010985712 1655658942] : List CV8)).1 := by
  rw [chunksLoopT_fst_step]
  exact congrArg
    (fun s => (chunksLoopT (tvInput 65536) 64 0 57 (6 + 1) s).1)
    (by decide :
      (simdPushT 64 6 (processChunkT (tvInput 65536) (6 * CHUNK_LEN)
        (min CHUNK_LEN ((tvInput 65536).len - 6 * CHUNK_LEN)) 6 0).1
        ([CV8.mk 2023047293 3282128806 3212570036 2187713689 3649038891 1404470070 1893028792 3934398203, CV8.mk 941222013 178308220 2967027271 2821685495 411939795 4087342245 2010985712 1655658942] : List CV8)).1 = ([CV8.mk 1121571652 313526705 2599973927 2826560217 2359902516 1839225262 2655917017 4130489984, CV8.mk 2023047293 3282128806 3212570036 2187713689 3649038891 1404470070 1893028792 3934398203, CV8.mk 941222013 178308220 2967027271 2821685495 411939795 4087342245 2010985712 1655658942] : List CV8))

set_option maxRecDepth 100000 in
set_option maxHeartbeats 1000000 in
theorem c1Step7 :
    (chunksLoopT (tvInput 65536) 64 0 57 7 ([CV8.mk 1121571652 313526705 2599973927 2826560217 2359902516 1839225262 2655917017 4130489984, CV8.mk 2023047293 3282128806 3212570036 2187713689 3649038891 1404470070 1893028792 3934398203, CV8.mk 941222013 178308220 2967027271 2821685495 411939795 4087342245 2010985712 1655658942] : List CV8)).1 =
      (chunksLoopT (tvInput 65536) 64 0 56 8 ([CV8.mk 4099727768 2791075495 1562396796 2968181957 1267657117 3706217309 3118346654 1824399806] : List CV8)).1 := by
  rw [chunksLoopT_fst_step]
  exact congrArg
    (fun s => (chunksLoopT (tvInput 65536) 64 0 56 (7 + 1) s).1)
    (by decide :
      (simdPushT 64 7 (processChunkT (tvInput 65536) (7 * CHUNK_LEN)
        (min CHUNK_LEN ((tvInput 65536).len - 7 * CHUNK_LEN)) 7 0).1
        ([CV8.mk 1121571652 313526705 2599973927 2826560217 2359902516 1839225262 2655917017 4130489984, CV8.mk 2023047293 3282128806 3212570036 2187713689 3649038891 1404470070 1893028792 3934398203, CV8.mk 941222013 178308220 2967027271 2821685495 411939795 4087342245 2010985712 1655658942] : List CV8)).1 = ([CV8.mk 4099727768 2791075495 1562396796 2968181957 1267657117 3706217309 3118346654 1824399806] : List CV8))

set_option maxRecDepth 100000 in
set_option maxHeartbeats 1000000 in
theorem c1Step8 :
    (chunksLoopT (tvInput 65536) 64 0 56 8 ([CV8.mk 4099727768 2791075495 1562396796 2968181957 1267657117 3706217309 3118346654 1824399806] : List CV8)).1 =
      (chunksLoopT (tvInput 65536) 64 0 55 9 ([CV8.mk 1095267166 1768266021 4153776046 3798036097 2942313931 2715125343 4133071973 1913805616, CV8.mk 4099727768 2791075495 1562396796 2968181957 1267657117 3706217309 3118346654 1824399806] : List CV8)).1 := by
  rw [chunksLoopT_fst_step]
  exact congrArg
    (fun s => (chunksLoopT (tvInput 65536) 64 0 55 (8 + 1) s).1)
    (by decide :
      (simdPushT 64 8 (processChunkT (tvInput 65536) (8 * CHUNK_LEN)
        (min CHUNK_LEN ((tvInput 65536).len - 8 * CHUNK_LEN)) 8 0).1
        ([CV8.mk 4099727768 2791075495 1562396796 2968181957 1267657117 3706217309 3118346654 1824399806] : List CV8)).1 = ([CV8.mk 1095267166 1768266021 4153776046 3798036097 2942313931 2715125343 4133071973 1913805616, CV8.mk 4099727768 2791075495 1562396796 2968181957 1267657117 3706217309 3118346654 1824399806] : List CV8))

set_option maxRecDepth 100000 in
set_option maxHeartbeats 1000000 in
theorem c1Step9 :
    (chunksLoopT (tvInput 65536) 64 0 55 9 ([CV8.mk 1095267166 1768266021 4153776046 3798036097 2942313931 2715125343 4133071973 1913805616, CV8.mk 4099727768 2791075495 1562396796 2968181957 1267657117 3706217309 3118346654 1824399806] : List CV8)).1 =
      (chunksLoopT (tvInput 65536) 64 0 54 10 ([CV8.mk 394489886 1992190530 3083936466 3702155462 3451702445 3587424434 2327385770 351657711, CV8.mk 4099727768 2791075495 1562396796 2968181957 1267657117 3706217309 3118346654 1824399806] : List CV8)).1 := by
  rw [chunksLoopT_fst_step]
  exact congrArg
    (fun s => (chunksLoopT (tvInput 65536) 64 0 54 (9 + 1) s).1)
    (by decide :
      (simdPushT 64 9 (processChunkT (tvInput 65536) (9 * CHUNK_LEN)
        (min CHUNK_LEN ((tvInput 65536).len - 9 * CHUNK_LEN)) 9 0).1
        ([CV8.mk 1095267166 1768266021 4153776046 3798036097 2942313931 2715125343 4133071973 1913805616, CV8.mk 4099727768 2791075495 1562396796 2968181957 1267657117 3706217309 3118346654 1824399806] : List CV8)).1 = ([CV8.mk 394489886 1992190530 3083936466 3702155462 3451702445 3587424434 2327385770 351657711, CV8.mk 4099727768 2791075495 1562396796 2968181957 1267657117 3706217309 3118346654 1824399806] : List CV8))

set_option maxRecDepth 100000 in
set_option maxHeartbeats 1000000 in
theorem c1Step10 :
    (chunksLoopT (tvInput 65536) 64 0 54 10 ([CV8.mk 394489886 1992190530 3083936466 3702155462 3451702445 3587424434 2327385770 351657711, CV8.mk 4099727768 2791075495 1562396796 2968181957 1267657117 3706217309 3118346654 1824399806] : List CV8)).1 =
      (chunksLoopT (tvInput 65536) 64 0 53 11 ([CV8.mk 171199484 3665367031 3279372791 239333952 3463380089 3175484667 345747925 2423977194, CV8.mk 394489886 1992190530 3083936466 3702155462 3451702445 3587424434 2327385770 351657711, CV8.mk 4099727768 2791075495 1562396796 2968181957 1267657117 3706217309 3118346654 1824399806] : List CV8)).1 := by
  rw [chunksLoopT_fst_step]
  exact congrArg
    (fun s => (chunksLoopT (tvInput 65536) 64 0 53 (10 + 1) s).1)
    (by decide :
      (simdPushT 64 10 (processChunkT (tvInput 65536) (10 * CHUNK_LEN)
        (min CHUNK_LEN ((tvInput 65536).len - 10 * CHUNK_LEN)) 10 0).1
        ([CV8.mk 394489886 1992190530 3083936466 3702155462 3451702445 3587424434 2327385770 351657711, CV8.mk 4099727768 2791075495 1562396796 2968181957 1267657117 3706217309 3118346654 1824399806] : List CV8)).1 = ([CV8.mk 171199484 3665367031 3279372791 239333952 3463380089 3175484667 345747925 2423977194, CV8.mk 394489886 1992190530 3083936466 3702155462 3451702445 3587424434 2327385770 351657711, CV8.mk 4099727768 2791075495 1562396796 2968181957 1267657117 3706217309 3118346654 1824399806] : List CV8))

set_option maxRecDepth 100000 in
set_option maxHeartbeats 1000000 in
theorem c1Step11 :
    (chunksLoopT (tvInput 65536) 64 0 53 11 ([CV8.mk 171199484 3665367031 3279372791 239333952 3463380089 3175484667 345747925 2423977194, CV8.mk 394489886 1992190530 3083936466 3702155462 3451702445 3587424434 2327385770 351657711, CV8.mk 4099727768 2791075495 1562396796 2968181957 1267657117 3706217309 3118346654 1824399806] : List CV8)).1 =
      (chunksLoopT (tvInput 65536) 64 0 52 12 ([CV8.mk 1465107524 868667916 2717301147 3291970596 3044721035 438231318 2038577746 1432690484, CV8.mk 4099727768 2791075495 1562396796 2968181957 1267657117 3706217309 3118346654 1824399806] : List CV8)).1 := by
  rw [chunksLoopT_fst_step]
  exact congrArg
    (fun s => (chunksLoopT (tvInput 65536) 64 0 52 (11 + 1) s).1)
    (by decide :
      (simdPushT 64 11 (processChunkT (tvInput 65536) (11 * CHUNK_LEN)
        (min CHUNK_LEN ((tvInput 65536).len - 11 * CHUNK_LEN)) 11 0).1
        ([CV8.mk 171199484 3665367031 3279372791 239333952 3463380089 3175484667 345747925 2423977194, CV8.mk 394489886 1992190530 3083936466 3702155462 3451702445 3587424434 2327385770 351657711, CV8.mk 4099727768 2791075495 1562396796 2968181957 1267657117 3706217309 3118346654 1824399806] : List CV8)).1 = ([CV8.mk 1465107524 868667916 2717301147 3291970596 3044721035 438231318 2038577746 1432690484, CV8.mk 4099727768 2791075495 1562396796 2968181957 1267657117 3706217309 3118346654 1824399806] : List CV8))

set_option maxRecDepth 100000 in
set_option maxHeartbeats 1000000 in
theorem c1Step12 :
    (chunksLoopT (tvInput 65536) 64 0 52 12 ([CV8.mk 1465107524 868667916 2717301147 3291970596 3044721035 438231318 2038577746 1432690484, CV8.mk 4099727768 2791075495 1562396796 2968181957 1267657117 3706217309 3118346654 1824399806] : List CV8)).1 =
      (chunksLoopT (tvInput 65536) 64 0 51 13 ([CV8.mk 2598127044 315983007 2463662209 197896644 2298559012 433709941 2185567813 544369151, CV8.mk 1465107524 868667916 2717301147 3291970596 3044721035 438231318 2038577746 1432690484, CV8.mk 4099727768 2791075495 1562396796 2968181957 1267657117 3706217309 3118346654 1824399806] : List CV8)).1 := by
  rw [chunksLoopT_fst_step]
  exact congrArg
    (fun s => (chunksLoopT (tvInput 65536) 64 0 51 (12 + 1) s).1)
    (by decide :
      (simdPushT 64 12 (processChunkT (tvInput 65536) (12 * CHUNK_LEN)
        (min CHUNK_LEN ((tvInput 65536).len - 12 * CHUNK_LEN)) 12 0).1
        ([CV8.mk 1465107524 868667916 2717301147 3291970596 3044721035 438231318 2038577746 1432690484, CV8.mk 4099727768 2791075495 1562396796 2968181957 1267657117 3706217309 3118346654 1824399806] : List CV8)).1 = ([CV8.mk 2598127044 315983007 2463662209 197896644 2298559012 433709941 2185567813 544369151, CV8.mk 1465107524 868667916 2717301147 3291970596 3044721035 438231318 2038577746 1432690484, CV8.mk 4099727768 2791075495 1562396796 2968181957 1267657117 3706217309 3118346654 1824399806] : List CV8))

set_option maxRecDepth 100000 in
set_option maxHeartbeats 1000000 in
theorem c1Step13 :
    (chunksLoopT (tvInput 65536) 64 0 51 13 ([CV8.mk 2598127044 315983007 2463662209 197896644 2298559012 433709941 2185567813 544369151, CV8.mk 1465107524 868667916 2717301147 3291970596 3044721035 438231318 2038577746 1432690484, CV8.mk 4099727768 2791075495 1562396796 2968181957 1267657117 3706217309 3118346654 1824399806] : List CV8)).1 =
      (chunksLoopT (tvInput 65536) 64 0 50 14 ([CV8.mk 3316695386 394153010 3239040153 3843654109 1687368225 705667064 3872999387 1052319031, CV8.mk 1465107524 868667916 2717301147 3291970596 3044721035 438231318 2038577746 1432690484, CV8.mk 4099727768 2791075495 1562396796 2968181957 1267657117 3706217309 3118346654 1824399806] : List CV8)).1 := by
  rw [chunksLoopT_fst_step]
  exact congrArg
    (fun s => (chunksLoopT (tvInput 65536) 64 0 50 (13 + 1) s).1)
    (by decide :
      (simdPushT 64 13 (processChunkT (tvInput 65536) (13 * CHUNK_LEN)
        (min CHUNK_LEN ((tvInput 65536).len - 13 * CHUNK_LEN)) 13 0).1
        ([CV8.mk 2598127044 315983007 2463662209 197896644 2298559012 433709941 2185567813 544369151, CV8.mk 1465107524 868667916 2717301147 3291970596 3044721035 438231318 2038577746 1432690484, CV8.mk 4099727768 2791075495 1562396796 2968181957 1267657117 3706217309 3118346654 1824399806] : List CV8)).1 = ([CV8.mk 3316695386 394153010 3239040153 3843654109 1687368225 705667064 3872999387 1052319031, CV8.mk 1465107524 868667916 2717301147 3291970596 3044721035 438231318 2038577746 1432690484, CV8.mk 4099727768 2791075495 1562396796 2968181957 1267657117 3706217309 3118346654 1824399806] : List CV8))

set_option maxRecDepth 100000 in
set_option maxHeartbeats 1000000 in
theorem c1Step14 :
    (chunksLoopT (tvInput 65536) 64 0 50 14 ([CV8.mk 3316695386 394153010 3239040153 3843654109 1687368225 705667064 3872999387 1052319031, CV8.mk 1465107524 868667916 2717301147 3291970596 3044721035 438231318 2038577746 1432690484, CV8.mk 4099727768 2791075495 1562396796 2968181957 1267657117 3706217309 3118346654 1824399806] : List CV8)).1 =
      (chunksLoopT (tvInput 65536) 64 0 49 15 ([CV8.mk 2239104789 627845324 1917748863 3016622823 40237143 892347695 1492701106 132788413, CV8.mk 3316695386 394153010 3239040153 3843654109 1687368225 705667064 3872999387 1052319031, CV8.mk 1465107524 868667916 2717301147 3291970596 3044721035 438231318 2038577746 1432690484, CV8.mk 4099727768 2791075495 1562396796 2968181957 1267657117 3706217309 3118346654 1824399806] : List CV8)).1 := by
  rw [chunksLoopT_fst_step]
  exact congrArg
    (fun s => (chunksLoopT (tvInput 65536) 64 0 49 (14 + 1) s).1)
    (by decide :
      (simdPushT 64 14 (processChunkT (tvInput 65536) (14 * CHUNK_LEN)
        (min CHUNK_LEN ((tvInput 65536).len - 14 * CHUNK_LEN)) 14 0).1
        ([CV8.mk 3316695386 394153010 3239040153 3843654109 1687368225 705667064 3872999387 1052319031, CV8.mk 1465107524 868667916 2717301147 3291970596 3044721035 438231318 2038577746 1432690484, CV8.mk 4099727768 2791075495 1562396796 2968181957 1267657117 3706217309 3118346654 1824399806] : List CV8)).1 = ([CV8.mk 2239104789 627845324 1917748863 3016622823 40237143 892347695 1492701106 132788413, CV8.mk 3316695386 394153010 3239040153 3843654109 1687368225 705667064 3872999387 1052319031, CV8.mk 1465107524 868667916 2717301147 3291970596 3044721035 438231318 2038577746 1432690484, CV8.mk 4099727768 2791075495 1562396796 2968181957 1267657117 3706217309 3118346654 1824399806] : List CV8))

set_option maxRecDepth 100000 in
set_option maxHeartbeats 1000000 in
theorem c1Step15 :
    (chunksLoopT (tvInput 65536) 64 0 49 15 ([CV8.mk 2239104789 627845324 1917748863 3016622823 40237143 892347695 1492701106 132788413, CV8.mk 3316695386 394153010 3239040153 3843654109 1687368225 705667064 3872999387 1052319031, CV8.mk 1465107524 868667916 2717301147 3291970596 3044721035 438231318 2038577746 1432690484, CV8.mk 4099727768 2791075495 1562396796 2968181957 1267657117 3706217309 3118346654 1824399806] : List CV8)).1 =
      (chunksLoopT (tvInput 65536) 64 0 48 16 ([CV8.mk 3019474003 2261501506 3202145978 2551065446 3685250564 3241990935 840514545 531319191] : List CV8)).1 := by
  rw [chunksLoopT_fst_step]
  exact congrArg
    (fun s => (chunksLoopT (tvInput 65536) 64 0 48 (15 + 1) s).1)
    (by decide :
      (simdPushT 64 15 (processChunkT (tvInput 65536) (15 * CHUNK_LEN)
        (min CHUNK_LEN ((tvInput 65536).len - 15 * CHUNK_LEN)) 15 0).1
        ([CV8.mk 2239104789 627845324 1917748863 3016622823 40237143 892347695 1492701106 132788413, CV8.mk 3316695386 394153010 3239040153 3843654109 1687368225 705667064 3872999387 1052319031, CV8.mk 1465107524 868667916 2717301147 3291970596 3044721035 438231318 2038577746 1432690484, CV8.mk 4099727768 2791075495 1562396796 2968181957 1267657117 3706217309 3118346654 1824399806] : List CV8)).1 = ([CV8.mk 3019474003 2261501506 3202145978 2551065446 3685250564 3241990935 840514545 531319191] : List CV8))

set_option maxRecDepth 100000 in
set_option maxHeartbeats 1000000 in
theorem c1Step16 :
    (chunksLoopT (tvInput 65536) 64 0 48 16 ([CV8.mk 3019474003 2261501506 3202145978 2551065446 3685250564 3241990935 840514545 531319191] : List CV8)).1 =
      (chunksLoopT (tvInput 65536) 64 0 47 17 ([CV8.mk 475558755 3826984533 1120357216 1061241083 2225896341 2284150005 849187851 2367702042, CV8.mk 3019474003 2261501506 3202145978 2551065446 3685250564 3241990935 840514545 531319191] : List CV8)).1 := by
  rw [chunksLoopT_fst_step]
  exact congrArg
    (fun s => (chunksLoopT (tvInput 65536) 64 0 47 (16 + 1) s).1)
    (by decide :
      (simdPushT 64 16 (processChunkT (tvInput 65536) (16 * CHUNK_LEN)
        (min CHUNK_LEN ((tvInput 65536).len - 16 * CHUNK_LEN)) 16 0).1
        ([CV8.mk 3019474003 2261501506 3202145978 2551065446 3685250564 3241990935 840514545 531319191] : List CV8)).1 = ([CV8.mk 475558755 3826984533 1120357216 1061241083 2225896341 2284150005 849187851 2367702042, CV8.mk 3019474003 2261501506 3202145978 2551065446 3685250564 3241990935 840514545 531319191] : List CV8))

set_option maxRecDepth 100000 in
set_option maxHeartbeats 1000000 in
theorem c1Step17 :
    (chunksLoopT (tvInput 65536) 64 0 47 17 ([CV8.mk 475558755 3826984533 1120357216 1061241083 2225896341 2284150005 849187851 2367702042, CV8.mk 3019474003 2261501506 3202145978 2551065446 3685250564 3241990935 840514545 531319191] : List CV8)).1 =
      (chunksLoopT (tvInput 65536) 64 0 46 18 ([CV8.mk 3079605846 3294217674 1785886178 2643980377 4211505786 2362334598 3397187860 2347183595, CV8.mk 3019474003 2261501506 3202145978 2551065446 3685250564 3241990935 840514545 531319191] : List CV8)).1 := by
  rw [chunksLoopT_fst_step]
  exact congrArg
    (fun s => (chunksLoopT (tvInput 65536) 64 0 46 (17 + 1) s).1)
    (by decide :
      (simdPushT 64 17 (processChunkT (tvInput 65536) (17 * CHUNK_LEN)
        (min CHUNK_LEN ((tvInput 65536).len - 17 * CHUNK_LEN)) 17 0).1
        ([CV8.mk 475558755 3826984533 1120357216 1061241083 2225896341 2284150005 849187851 2367702042, CV8.mk 3019474003 2261501506 3202145978 2551065446 3685250564 3241990935 840514545 531319191] : List CV8)).1 = ([CV8.mk 3079605846 3294217674 1785886178 2643980377 4211505786 2362334598 3397187860 2347183595, CV8.mk 3019474003 2261501506 3202145978 2551065446 3685250564 3241990935 840514545 531319191] : List CV8))

set_option maxRecDepth 100000 in
set_option maxHeartbeats 1000000 in
theorem c1Step18 :
    (chunksLoopT (tvInput 65536) 64 0 46 18 ([CV8.mk 3079605846 3294217674 1785886178 2643980377 4211505786 2362334598 3397187860 2347183595, CV8.mk 3019474003 2261501506 3202145978 2551065446 3685250564 3241990935 840514545 531319191] : List CV8)).1 =
      (chunksLoopT (tvInput 65536) 64 0 45 19 ([CV8.mk 2255292206 1000542589 2135460707 3853606213 2427452628 2333217437 3129828660 2995438201, CV8.mk 3079605846 3294217674 1785886178 2643980377 4211505786 2362334598 3397187860 2347183595, CV8.mk 3019474003 2261501506 3202145978 2551065446 3685250564 3241990935 840514545 531319191] : List CV8)).1 := by
  rw [chunksLoopT_fst_step]
  exact congrArg
    (fun s => (chunksLoopT (tvInput 65536) 64 0 45 (18 + 1) s).1)
    (by decide :
      (simdPushT 64 18 (processChunkT (tvInput 65536) (18 * CHUNK_LEN)
        (min CHUNK_LEN ((tvInput 65536).len - 18 * CHUNK_LEN)) 18 0).1
        ([CV8.mk 3079605846 3294217674 1785886178 2643980377 4211505786 2362334598 3397187860 2347183595, CV8.mk 3019474003 2261501506 3202145978 2551065446 3685250564 3241990935 840514545 531319191] : List CV8)).1 = ([CV8.mk 2255292206 1000542589 2135460707 3853606213 2427452628 2333217437 3129828660 2995438201, CV8.mk 3079605846 3294217674 1785886178 2643980377 4211505786 2362334598 3397187860 2347183595, CV8.mk 3019474003 2261501506 3202145978 2551065446 3685250564 3241990935 840514545 531319191] : List CV8))

set_option maxRecDepth 100000 in
set_option maxHeartbeats 1000000 in
theorem c1Step19 :
    (chunksLoopT (tvInput 65536) 64 0 45 19 ([CV8.mk 2255292206 1000542589 2135460707 3853606213 2427452628 2333217437 3129828660 2995438201, CV8.mk 3079605846 3294217674 1785886178 2643980377 4211505786 2362334598 3397187860 2347183595, CV8.mk 3019474003 2261501506 3202145978 2551065446 3685250564 3241990935 840514545 531319191] : List CV8)).1 =
      (chunksLoopT (tvInput 65536) 64 0 44 20 ([CV8.mk 2372771008 3640315801 670179742 702272281 1484806855 4028094344 3838946425 1203242583, CV8.mk 3019474003 2261501506 3202145978 2551065446 3685250564 3241990935 840514545 531319191] : List CV8)).1 := by
  rw [chunksLoopT_fst_step]
  exact congrArg
    (fun s => (chunksLoopT (tvInput 65536) 64 0 44 (19 + 1) s).1)
    (by decide :
      (simdPushT 64 19 (processChunkT (tvInput 65536) (19 * CHUNK_LEN)
        (min CHUNK_LEN ((tvInput 65536).len - 19 * CHUNK_LEN)) 19 0).1
        ([CV8.mk 2255292206 1000542589 2135460707 3853606213 2427452628 2333217437 3129828660 2995438201, CV8.mk 3079605846 3294217674 1785886178 2643980377 4211505786 2362334598 3397187860 2347183595, CV8.mk 3019474003 2261501506 3202145978 2551065446 3685250564 3241990935 840514545 531319191] : List CV8)).1 = ([CV8.mk 2372771008 3640315801 670179742 702272281 1484806855 4028094344 3838946425 1203242583, CV8.mk 3019474003 2261501506 3202145978 2551065446 3685250564 3241990935 840514545 531319191] : List CV8))

set_option maxRecDepth 100000 in
set_option maxHeartbeats 1000000 in
theorem c1Step20 :
    (chunksLoopT (tvInput 65536) 64 0 44 20 ([CV8.mk 2372771008 3640315801 670179742 702272281 1484806855 4028094344 3838946425 1203242583, CV8.mk 3019474003 2261501506 3202145978 2551065446 3685250564 3241990935 840514545 531319191] : List CV8)).1 =
      (chunksLoopT (tvInput 65536) 64 0 43 21 ([CV8.mk 1179604132 2672846689 1880301028 1064552357 4077344151 206651669 3997604111 431701992, CV8.mk 2372771008 3640315801 670179742 702272281 1484806855 4028094344 3838946425 1203242583, CV8.mk 3019474003 2261501506 3202145978 2551065446 3685250564 3241990935 840514545 531319191] : List CV8)).1 := by
  rw [chunksLoopT_fst_step]
  exact congrArg
    (fun s => (chunksLoopT (tvInput 65536) 64 0 43 (20 + 1) s).1)
    (by decide :
      (simdPushT 64 20 (processChunkT (tvInput 65536) (20 * CHUNK_LEN)
        (min CHUNK_LEN ((tvInput 65536).len - 20 * CHUNK_LEN)) 20 0).1
        ([CV8.mk 2372771008 3640315801 670179742 702272281 1484806855 4028094344 3838946425 1203242583, CV8.mk 3019474003 2261501506 3202145978 2551065446 3685250564 3241990935 840514545 531319191] : List CV8)).1 = ([CV8.mk 1179604132 2672846689 1880301028 1064552357 4077344151 206651669 3997604111 431701992, CV8.mk 2372771008 3640315801 670179742 702272281 1484806855 4028094344 3838946425 1203242583, CV8.mk 3019474003 2261501506 3202145978 2551065446 3685250564 3241990935 840514545 531319191] : List CV8))

set_option maxRecDepth 100000 in
set_option maxHeartbeats 1000000 in
theorem c1Step21 :
    (chunksLoopT (tvInput 65536) 64 0 43 21 ([CV8.mk 1179604132 2672846689 1880301028 1064552357 4077344151 206651669 3997604111 431701992, CV8.mk 2372771008 3640315801 670179742 702272281 1484806855 4028094344 3838946425 1203242583, CV8.mk 3019474003 2261501506 3202145978 2551065446 3685250564 3241990935 840514545 531319191] : List CV8)).1 =
      (chunksLoopT (tvInput 65536) 64 0 42 22 ([CV8.mk 144837890 3510043989 1257525433 3766919227 204291655 3371370921 1733011252 593805456, CV8.mk 2372771008 3640315801 670179742 702272281 1484806855 4028094344 3838946425 1203242583, CV8.mk 3019474003 2261501506 3202145978 2551065446 3685250564 3241990935 840514545 531319191] : List CV8)).1 := by
  rw [chunksLoopT_fst_step]
  exact congrArg
    (fun s => (chunksLoopT (tvInput 65536) 64 0 42 (21 + 1) s).1)
    (by decide :
      (simdPushT 64 21 (processChunkT (tvInput 65536) (21 * CHUNK_LEN)
        (min CHUNK_LEN ((tvInput 65536).len - 21 * CHUNK_LEN)) 21 0).1
        ([CV8.mk 1179604132 2672846689 1880301028 1064552357 4077344151 206651669 3997604111 431701992, CV8.mk 2372771008 3640315801 670179742 702272281 1484806855 4028094344 3838946425 1203242583, CV8.mk 3019474003 2261501506 3202145978 2551065446 3685250564 3241990935 840514545 531319191] : List CV8)).1 = ([CV8.mk 144837890 3510043989 1257525433 3766919227 204291655 3371370921 1733011252 593805456, CV8.mk 2372771008 3640315801 670179742 702272281 1484806855 4028094344 3838946425 1203242583, CV8.mk 3019474003 2261501506 3202145978 2551065446 3685250564 3241990935 840514545 531319191] : List CV8))

set_option maxRecDepth 100000 in
set_option maxHeartbeats 1000000 in
theorem c1Step22 :
    (chunksLoopT (tvInput 65536) 64 0 42 22 ([CV8.mk 144837890 3510043989 1257525433 3766919227 204291655 3371370921 1733011252 593805456, CV8.mk 2372771008 3640315801 670179742 702272281 1484806855 4028094344 3838946425 1203242583, CV8.mk 3019474003 2261501506 3202145978 2551065446 3685250564 3241990935 840514545 531319191] : List CV8)).1 =
      (chunksLoopT (tvInput 65536) 64 0 41 23 ([CV8.mk 4013046811 3840847677 3741490963 4231462072 2015119086 1444823202 1283356017 359916828, CV8.mk 144837890 3510043989 1257525433 3766919227 204291655 3371370921 1733011252 593805456, CV8.mk 2372771008 3640315801 670179742 702272281 1484806855 4028094344 3838946425 1203242583, CV8.mk 3019474003 2261501506 3202145978 2551065446 3685250564 3241990935 840514545 531319191] : List CV8)).1 := by
  rw [chunksLoopT_fst_step]
  exact congrArg
    (fun s => (chunksLoopT (tvInput 65536) 64 0 41 (22 + 1) s).1)
    (by decide :
      (simdPushT 64 22 (processChunkT (tvInput 65536) (22 * CHUNK_LEN)
        (min CHUNK_LEN ((tvInput 65536).len - 22 * CHUNK_LEN)) 22 0).1
        ([CV8.mk 144837890 3510043989 1257525433 3766919227 204291655 3371370921 1733011252 593805456, CV8.mk 2372771008 3640315801 670179742 702272281 1484806855 4028094344 3838946425 1203242583, CV8.mk 3019474003 2261501506 3202145978 2551065446 3685250564 3241990935 840514545 531319191] : List CV8)).1 = ([CV8.mk 4013046811 3840847677 3741490963 4231462072 2015119086 1444823202 1283356017 359916828, CV8.mk 144837890 3510043989 1257525433 3766919227 204291655 3371370921 1733011252 593805456, CV8.mk 2372771008 3640315801 670179742 702272281 1484806855 4028094344 3838946425 1203242583, CV8.mk 3019474003 2261501506 3202145978 2551065446 3685250564 3241990935 840514545 531319191] : List CV8))

set_option maxRecDepth 100000 in
set_option maxHeartbeats 1000000 in
theorem c1Step23 :
    (chunksLoopT (tvInput 65536) 64 0 41 23 ([CV8.mk 4013046811 3840847677 3741490963 4231462072 2015119086 1444823202 1283356017 359916828, CV8.mk 144837890 3510043989 1257525433 3766919227 204291655 3371370921 1733011252 593805456, CV8.mk 2372771008 3640315801 670179742 702272281 1484806855 4028094344 3838946425 1203242583, CV8.mk 3019474003 2261501506 3202145978 2551065446 3685250564 3241990935 840514545 531319191] : List CV8)).1 =
      (chunksLoopT (tvInput 65536) 64 0 40 24 ([CV8.mk 2249883056 951793298 2532449058 1986400003 3723864198 1631903844 4147090742 405484281, CV8.mk 3019474003 2261501506 3202145978 2551065446 3685250564 3241990935 840514545 531319191] : List CV8)).1 := by
  rw [chunksLoopT_fst_step]
  exact congrArg
    (fun s => (chunksLoopT (tvInput 65536) 64 0 40 (23 + 1) s).1)
    (by decide :
      (simdPushT 64 23 (processChunkT (tvInput 65536) (23 * CHUNK_LEN)
        (min CHUNK_LEN ((tvInput 65536).len - 23 * CHUNK_LEN)) 23 0).1
        ([CV8.mk 4013046811 3840847677 3741490963 4231462072 2015119086 1444823202 1283356017 359916828, CV8.mk 144837890 3510043989 1257525433 3766919227 204291655 3371370921 1733011252 593805456, CV8.mk 2372771008 3640315801 670179742 702272281 1484806855 4028094344 3838946425 1203242583, CV8.mk 3019474003 2261501506 3202145978 2551065446 3685250564 3241990935 840514545 531319191] : List CV8)).1 = ([CV8.mk 2249883056 951793298 2532449058 1986400003 3723864198 1631903844 4147090742 405484281, CV8.mk 3019474003 2261501506 3202145978 2551065446 3685250564 3241990935 840514545 531319191] : List CV8))

set_option maxRecDepth 100000 in
set_option maxHeartbeats 1000000 in
theorem c1Step24 :
    (chunksLoopT (tvInput 65536) 64 0 40 24 ([CV8.mk 2249883056 951793298 2532449058 1986400003 3723864198 1631903844 4147090742 405484281, CV8.mk 3019474003 2261501506 3202145978 2551065446 3685250564 3241990935 840514545 531319191] : List CV8)).1 =
      (chunksLoopT (tvInput 65536) 64 0 39 25 ([CV8.mk 709710159 1004427134 3568409010 3894563473 2381357183 761323714 233291959 3752453429, CV8.mk 2249883056 951793298 2532449058 1986400003 3723864198 1631903844 4147090742 405484281, CV8.mk 3019474003 2261501506 3202145978 2551065446 3685250564 3241990935 840514545 531319191] : List CV8)).1 := by
  rw [chunksLoopT_fst_step]
  exact congrArg
    (fun s => (chunksLoopT (tvInput 65536) 64 0 39 (24 + 1) s).1)
    (by decide :
      (simdPushT 64 24 (processChunkT (tvInput 65536) (24 * CHUNK_LEN)
        (min CHUNK_LEN ((tvInput 65536).len - 24 * CHUNK_LEN)) 24 0).1
        ([CV8.mk 2249883056 951793298 2532449058 1986400003 3723864198 1631903844 4147090742 405484281, CV8.mk 3019474003 2261501506 3202145978 2551065446 3685250564 3241990935 840514545 531319191] : List CV8)).1 = ([CV8.mk 709710159 1004427134 3568409010 3894563473 2381357183 761323714 233291959 3752453429, CV8.mk 2249883056 951793298 2532449058 1986400003 3723864198 1631903844 4147090742 405484281, CV8.mk 3019474003 2261501506 3202145978 2551065446 3685250564 3241990935 840514545 531319191] : List CV8))

set_option maxRecDepth 100000 in
set_option maxHeartbeats 1000000 in
theorem c1Step25 :
    (chunksLoopT (tvInput 65536) 64 0 39 25 ([CV8.mk 709710159 1004427134 3568409010 3894563473 2381357183 761323714 233291959 3752453429, CV8.mk 2249883056 951793298 2532449058 1986400003 3723864198 1631903844 4147090742 405484281, CV8.mk 3019474003 2261501506 3202145978 2551065446 3685250564 3241990935 840514545 531319191] : List CV8)).1 =
      (chunksLoopT (tvInput 65536) 64 0 38 26 ([CV8.mk 3845131481 1250128884 130318288 2900424222 3731915418 1349844865 3056340265 1732601601, CV8.mk 2249883056 951793298 2532449058 1986400003 3723864198 1631903844 4147090742 405484281, CV8.mk 3019474003 2261501506 3202145978 2551065446 3685250564 3241990935 840514545 531319191] : List CV8)).1 := by
  rw [chunksLoopT_fst_step]
  exact congrArg
    (fun s => (chunksLoopT (tvInput 65536) 64 0 38 (25 + 1) s).1)
    (by decide :
      (simdPushT 64 25 (processChunkT (tvInput 65536) (25 * CHUNK_LEN)
        (min CHUNK_LEN ((tvInput 65536).len - 25 * CHUNK_LEN)) 25 0).1
        ([CV8.mk 709710159 1004427134 3568409010 3894563473 2381357183 761323714 233291959 3752453429, CV8.mk 2249883056 951793298 2532449058 1986400003 3723864198 1631903844 4147090742 405484281, CV8.mk 3019474003 2261501506 3202145978 2551065446 3685250564 3241990935 840514545 531319191] : List CV8)).1 = ([CV8.mk 3845131481 1250128884 130318288 2900424222 3731915418 1349844865 3056340265 1732601601, CV8.mk 2249883056 951793298 2532449058 1986400003 3723864198 1631903844 4147090742 405484281, CV8.mk 3019474003 2261501506 3202145978 2551065446 3685250564 3241990935 840514545 531319191] : List CV8))

set_option maxRecDepth 100000 in
set_option maxHeartbeats 1000000 in
theorem c1Step26 :
    (chunksLoopT (tvInput 65536) 64 0 38 26 ([CV8.mk 3845131481 1250128884 130318288 2900424222 3731915418 1349844865 3056340265 1732601601, CV8.mk 2249883056 951793298 2532449058 1986400003 3723864198 1631903844 4147090742 405484281, CV8.mk 3019474003 2261501506 3202145978 2551065446 3685250564 3241990935 840514545 531319191] : List CV8)).1 =
      (chunksLoopT (tvInput 65536) 64 0 37 27 ([CV8.mk 1804749300 64507273 3078623705 2979413949 2525932933 1495461779 3135592183 1684477386, CV8.mk 3845131481 1250128884 130318288 2900424222 3731915418 1349844865 3056340265 1732601601, CV8.mk 2249883056 951793298 2532449058 1986400003 3723864198 1631903844 4147090742 405484281, CV8.mk 3019474003 2261501506 3202145978 2551065446 3685250564 3241990935 840514545 531319191] : List CV8)).1 := by
  rw [chunksLoopT_fst_step]
  exact congrArg
    (fun s => (chunksLoopT (tvInput 65536) 64 0 37 (26 + 1) s).1)
    (by decide :
      (simdPushT 64 26 (processChunkT (tvInput 65536) (26 * CHUNK_LEN)
        (min CHUNK_LEN ((tvInput 65536).len - 26 * CHUNK_LEN)) 26 0).1
        ([CV8.mk 3845131481 1250128884 130318288 2900424222 3731915418 1349844865 3056340265 1732601601, CV8.mk 2249883056 951793298 2532449058 1986400003 3723864198 1631903844 4147090742 405484281, CV8.mk 3019474003 2261501506 3202145978 2551065446 3685250564 3241990935 840514545 531319191] : List CV8)).1 = ([CV8.mk 1804749300 64507273 3078623705 2979413949 2525932933 1495461779 3135592183 1684477386, CV8.mk 3845131481 1250128884 130318288 2900424222 3731915418 1349844865 3056340265 1732601601, CV8.mk 2249883056 951793298 2532449058 1986400003 3723864198 1631903844 4147090742 405484281, CV8.mk 3019474003 2261501506 3202145978 2551065446 3685250564 3241990935 840514545 531319191] : List CV8))

set_option maxRecDepth 100000 in
set_option maxHeartbeats 1000000 in
theorem c1Step27 :
    (chunksLoopT (tvInput 65536) 64 0 37 27 ([CV8.mk 1804749300 64507273 3078623705 2979413949 2525932933 1495461779 3135592183 1684477386, CV8.mk 3845131481 1250128884 130318288 2900424222 3731915418 1349844865 3056340265 1732601601, CV8.mk 2249883056 951793298 2532449058 1986400003 3723864198 1631903844 4147090742 405484281, CV8.mk 3019474003 2261501506 3202145978 2551065446 3685250564 3241990935 840514545 531319191] : List CV8)).1 =
      (chunksLoopT (tvInput 65536) 64 0 36 28 ([CV8.mk 3492388206 3638471952 2590939520 2070120073 2943204739 4065379887 4225517185 1797640661, CV8.mk 2249883056 951793298 2532449058 1986400003 3723864198 1631903844 4147090742 405484281, CV8.mk 3019474003 2261501506 3202145978 2551065446 3685250564 3241990935 840514545 531319191] : List CV8)).1 := by
  rw [chunksLoopT_fst_step]
  exact congrArg
    (fun s => (chunksLoopT (tvInput 65536) 64 0 36 (27 + 1) s).1)
    (by decide :
      (simdPushT 64 27 (processChunkT (tvInput 65536) (27 * CHUNK_LEN)
        (min CHUNK_LEN ((tvInput 65536).len - 27 * CHUNK_LEN)) 27 0).1
        ([CV8.mk 1804749300 64507273 3078623705 2979413949 2525932933 1495461779 3135592183 1684477386, CV8.mk 3845131481 1250128884 130318288 2900424222 3731915418 1349844865 3056340265 1732601601, CV8.mk 2249883056 951793298 2532449058 1986400003 3723864198 1631903844 4147090742 405484281, CV8.mk 3019474003 2261501506 3202145978 2551065446 3685250564 3241990935 840514545 531319191] : List CV8)).1 = ([CV8.mk 3492388206 3638471952 2590939520 2070120073 2943204739 4065379887 4225517185 1797640661, CV8.mk 2249883056 951793298 2532449058 1986400003 3723864198 1631903844 4147090742 405484281, CV8.mk 3019474003 2261501506 3202145978 2551065446 3685250564 3241990935 840514545 531319191] : List CV8))

set_option maxRecDepth 100000 in
set_option maxHeartbeats 1000000 in
theorem c1Step28 :
    (chunksLoopT (tvInput 65536) 64 0 36 28 ([CV8.mk 3492388206 3638471952 2590939520 2070120073 2943204739 4065379887 4225517185 1797640661, CV8.mk 2249883056 951793298 2532449058 1986400003 3723864198 1631903844 4147090742 405484281, CV8.mk 3019474003 2261501506 3202145978 2551065446 3685250564 3241990935 840514545 531319191] : List CV8)).1 =
      (chunksLoopT (tvInput 65536) 64 0 35 29 ([CV8.mk 2370666217 3765109836 1548532632 26255055 3111215407 1947317138 4257122505 211542224, CV8.mk 3492388206 3638471952 2590939520 2070120073 2943204739 4065379887 4225517185 1797640661, CV8.mk 2249883056 951793298 2532449058 1986400003 3723864198 1631903844 4147090742 405484281, CV8.mk 3019474003 2261501506 3202145978 2551065446 3685250564 3241990935 840514545 531319191] : List CV8)).1 := by
  rw [chunksLoopT_fst_step]
  exact congrArg
    (fun s => (chunksLoopT (tvInput 65536) 64 0 35 (28 + 1) s).1)
    (by decide :
      (simdPushT 64 28 (processChunkT (tvInput 65536) (28 * CHUNK_LEN)
        (min CHUNK_LEN ((tvInput 65536).len - 28 * CHUNK_LEN)) 28 0).1
        ([CV8.mk 3492388206 3638471952 2590939520 2070120073 2943204739 4065379887 4225517185 1797640661, CV8.mk 2249883056 951793298 2532449058 1986400003 3723864198 1631903844 4147090742 405484281, CV8.mk 3019474003 2261501506 3202145978 2551065446 3685250564 3241990935 840514545 531319191] : List CV8)).1 = ([CV8.mk 2370666217 3765109836 1548532632 26255055 3111215407 1947317138 4257122505 211542224, CV8.mk 3492388206 3638471952 2590939520 2070120073 2943204739 4065379887 4225517185 1797640661, CV8.mk 2249883056 951793298 2532449058 1986400003 3723864198 1631903844 4147090742 405484281, CV8.mk 3019474003 2261501506 3202145978 2551065446 3685250564 3241990935 840514545 531319191] : List CV8))

set_option maxRecDepth 100000 in
set_option maxHeartbeats 1000000 in
theorem c1Step29 :
    (chunksLoopT (tvInput 65536) 64 0 35 29 ([CV8.mk 2370666217 3765109836 1548532632 26255055 3111215407 1947317138 4257122505 211542224, CV8.mk 3492388206 3638471952 2590939520 2070120073 2943204739 4065379887 4225517185 1797640661, CV8.mk 2249883056 951793298 2532449058 1986400003 3723864198 1631903844 4147090742 405484281, CV8.mk 3019474003 2261501506 3202145978 2551065446 3685250564 3241990935 840514545 531319191] : List CV8)).1 =
      (chunksLoopT (tvInput 65536) 64 0 34 30 ([CV8.mk 2497833772 1113588573 1889491792 3670450667 582727772 1699485569 270074689 4222581388, CV8.mk 3492388206 3638471952 2590939520 2070120073 2943204739 4065379887 4225517185 1797640661, CV8.mk 2249883056 951793298 2532449058 1986400003 3723864198 1631903844 4147090742 405484281, CV8.mk 3019474003 2261501506 3202145978 2551065446 3685250564 3241990935 840514545 531319191] : List CV8)).1 := by
  rw [chunksLoopT_fst_step]
  exact congrArg
    (fun s => (chunksLoopT (tvInput 65536) 64 0 34 (29 + 1) s).1)
    (by decide :
      (simdPushT 64 29 (processChunkT (tvInput 65536) (29 * CHUNK_LEN)
        (min CHUNK_LEN ((tvInput 65536).len - 29 * CHUNK_LEN)) 29 0).1
        ([CV8.mk 2370666217 3765109836 1548532632 26255055 3111215407 1947317138 4257122505 211542224, CV8.mk 3492388206 3638471952 2590939520 2070120073 2943204739 4065379887 4225517185 1797640661, CV8.mk 2249883056 951793298 2532449058 1986400003 3723864198 1631903844 4147090742 405484281, CV8.mk 3019474003 2261501506 3202145978 2551065446 3685250564 3241990935 840514545 531319191] : List CV8)).1 = ([CV8.mk 2497833772 1113588573 1889491792 3670450667 582727772 1699485569 270074689 4222581388, CV8.mk 3492388206 3638471952 2590939520 2070120073 2943204739 4065379887 4225517185 1797640661, CV8.mk 2249883056 951793298 2532449058 1986400003 3723864198 1631903844 4147090742 405484281, CV8.mk 3019474003 2261501506 3202145978 2551065446 3685250564 3241990935 840514545 531319191] : List CV8))

set_option maxRecDepth 100000 in
set_option maxHeartbeats 1000000 in
theorem c1Step30 :
    (chunksLoopT (tvInput 65536) 64 0 34 30 ([CV8.mk 2497833772 1113588573 1889491792 3670450667 582727772 1699485569 270074689 4222581388, CV8.mk 3492388206 3638471952 2590939520 2070120073 2943204739 4065379887 4225517185 1797640661, CV8.mk 2249883056 951793298 2532449058 1986400003 3723864198 1631903844 4147090742 405484281, CV8.mk 3019474003 2261501506 3202145978 2551065446 3685250564 3241990935 840514545 531319191] : List CV8)).1 =
      (chunksLoopT (tvInput 65536) 64 0 33 31 ([CV8.mk 2876225446 1455649757 3632047584 1657099086 531765688 35980308 1472300435 4152748367, CV8.mk 2497833772 1113588573 1889491792 3670450667 582727772 1699485569 270074689 4222581388, CV8.mk 3492388206 3638471952 2590939520 2070120073 2943204739 4065379887 4225517185 1797640661, CV8.mk 2249883056 951793298 2532449058 1986400003 3723864198 1631903844 4147090742 405484281, CV8.mk 3019474003 2261501506 3202145978 2551065446 3685250564 3241990935 840514545 531319191] : List CV8)).1 := by
  rw [chunksLoopT_fst_step]
  exact congrArg
    (fun s => (chunksLoopT (tvInput 65536) 64 0 33 (30 + 1) s).1)
    (by decide :
      (simdPushT 64 30 (processChunkT (tvInput 65536) (30 * CHUNK_LEN)
        (min CHUNK_LEN ((tvInput 65536).len - 30 * CHUNK_LEN)) 30 0).1
        ([CV8.mk 2497833772 1113588573 1889491792 3670450667 582727772 1699485569 270074689 4222581388, CV8.mk 3492388206 3638471952 2590939520 2070120073 2943204739 4065379887 4225517185 1797640661, CV8.mk 2249883056 951793298 2532449058 1986400003 3723864198 1631903844 4147090742 405484281, CV8.mk 3019474003 2261501506 3202145978 2551065446 3685250564 3241990935 840514545 531319191] : List CV8)).1 = ([CV8.mk 2876225446 1455649757 3632047584 1657099086 531765688 35980308 1472300435 4152748367, CV8.mk 2497833772 1113588573 1889491792 3670450667 582727772 1699485569 270074689 4222581388, CV8.mk 3492388206 3638471952 2590939520 2070120073 2943204739 4065379887 4225517185 1797640661, CV8.mk 2249883056 951793298 2532449058 1986400003 3723864198 1631903844 4147090742 405484281, CV8.mk 3019474003 2261501506 3202145978 2551065446 3685250564 3241990935 840514545 531319191] : List CV8))

set_option maxRecDepth 100000 in
set_option maxHeartbeats 1000000 in
theorem c1Step31 :
    (chunksLoopT (tvInput 65536) 64 0 33 31 ([CV8.mk 2876225446 1455649757 3632047584 1657099086 531765688 35980308 1472300435 4152748367, CV8.mk 2497833772 1113588573 1889491792 3670450667 582727772 1699485569 270074689 4222581388, CV8.mk 3492388206 3638471952 2590939520 2070120073 2943204739 4065379887 4225517185 1797640661, CV8.mk 2249883056 951793298 2532449058 1986400003 3723864198 1631903844 4147090742 405484281, CV8.mk 3019474003 2261501506 3202145978 2551065446 3685250564 3241990935 840514545 531319191] : List CV8)).1 =
      (chunksLoopT (tvInput 65536) 64 0 32 32 ([CV8.mk 918487838 1711785303 564069667 3324915673 1797774644 108454663 372557605 1473790963] : List CV8)).1 := by
  rw [chunksLoopT_fst_step]
  exact congrArg
    (fun s => (chunksLoopT (tvInput 65536) 64 0 32 (31 + 1) s).1)
    (by decide :
      (simdPushT 64 31 (processChunkT (tvInput 65536) (31 * CHUNK_LEN)
        (min CHUNK_LEN ((tvInput 65536).len - 31 * CHUNK_LEN)) 31 0).1
        ([CV8.mk 2876225446 1455649757 3632047584 1657099086 531765688 35980308 1472300435 4152748367, CV8.mk 2497833772 1113588573 1889491792 3670450667 582727772 1699485569 270074689 4222581388, CV8.mk 3492388206 3638471952 2590939520 2070120073 2943204739 4065379887 4225517185 1797640661, CV8.mk 2249883056 951793298 2532449058 1986400003 3723864198 1631903844 4147090742 405484281, CV8.mk 3019474003 2261501506 3202145978 2551065446 3685250564 3241990935 840514545 531319191] : List CV8)).1 = ([CV8.mk 918487838 1711785303 564069667 3324915673 1797774644 108454663 372557605 1473790963] : List CV8))

set_option maxRecDepth 100000 in
set_option maxHeartbeats 1000000 in
theorem c1Step32 :
    (chunksLoopT (tvInput 65536) 64 0 32 32 ([CV8.mk 918487838 1711785303 564069667 3324915673 1797774644 108454663 372557605 1473790963] : List CV8)).1 =
      (chunksLoopT (tvInput 65536) 64 0 31 33 ([CV8.mk 2613501480 2736196456 3563209328 2421702850 1108258314 2187004554 3524284915 1049228941, CV8.mk 918487838 1711785303 564069667 3324915673 1797774644 108454663 372557605 1473790963] : List CV8)).1 := by
  rw [chunksLoopT_fst_step]
  exact congrArg
    (fun s => (chunksLoopT (tvInput 65536) 64 0 31 (32 + 1) s).1)
    (by decide :
      (simdPushT 64 32 (processChunkT (tvInput 65536) (32 * CHUNK_LEN)
        (min CHUNK_LEN ((tvInput 65536).len - 32 * CHUNK_LEN)) 32 0).1
        ([CV8.mk 918487838 1711785303 564069667 3324915673 1797774644 108454663 372557605 1473790963] : List CV8)).1 = ([CV8.mk 2613501480 2736196456 3563209328 2421702850 1108258314 2187004554 3524284915 1049228941, CV8.mk 918487838 1711785303 564069667 3324915673 1797774644 108454663 372557605 1473790963] : List CV8))

set_option maxRecDepth 100000 in
set_option maxHeartbeats 1000000 in
theorem c1Step33 :
    (chunksLoopT (tvInput 65536) 64 0 31 33 ([CV8.mk 2613501480 2736196456 3563209328 2421702850 1108258314 2187004554 3524284915 1049228941, CV8.mk 918487838 1711785303 564069667 3324915673 1797774644 108454663 372557605 1473790963] : List CV8)).1 =
      (chunksLoopT (tvInput 65536) 64 0 30 34 ([CV8.mk 2189905488 2219196758 2791307802 71940004 3679871252 2585496376 120910461 802108198, CV8.mk 918487838 1711785303 564069667 3324915673 1797774644 108454663 372557605 1473790963] : List CV8)).1 := by
  rw [chunksLoopT_fst_step]
  exact congrArg
    (fun s => (chunksLoopT (tvInput 65536) 64 0 30 (33 + 1) s).1)
    (by decide :
      (simdPushT 64 33 (processChunkT (tvInput 65536) (33 * CHUNK_LEN)
        (min CHUNK_LEN ((tvInput 65536).len - 33 * CHUNK_LEN)) 33 0).1
        ([CV8.mk 2613501480 2736196456 3563209328 2421702850 1108258314 2187004554 3524284915 1049228941, CV8.mk 918487838 1711785303 564069667 3324915673 1797774644 108454663 372557605 1473790963] : List CV8)).1 = ([CV8.mk 2189905488 2219196758 2791307802 71940004 3679871252 2585496376 120910461 802108198, CV8.mk 918487838 1711785303 564069667 3324915673 1797774644 108454663 372557605 1473790963] : List CV8))

set_option maxRecDepth 100000 in
set_option maxHeartbeats 1000000 in
theorem c1Step34 :
    (chunksLoopT (tvInput 65536) 64 0 30 34 ([CV8.mk 2189905488 2219196758 2791307802 71940004 3679871252 2585496376 120910461 802108198, CV8.mk 918487838 1711785303 564069667 3324915673 1797774644 108454663 372557605 1473790963] : List CV8)).1 =
      (chunksLoopT (tvInput 65536) 64 0 29 35 ([CV8.mk 1170588646 759364925 259033922 4018919336 2241287446 2402593449 5304777 2979283013, CV8.mk 2189905488 2219196758 2791307802 71940004 3679871252 2585496376 120910461 802108198, CV8.mk 918487838 1711785303 564069667 3324915673 1797774644 108454663 372557605 1473790963] : List CV8)).1 := by
  rw [chunksLoopT_fst_step]
  exact congrArg
    (fun s => (chunksLoopT (tvInput 65536) 64 0 29 (34 + 1) s).1)
    (by decide :
      (simdPushT 64 34 (processChunkT (tvInput 65536) (34 * CHUNK_LEN)
        (min CHUNK_LEN ((tvInput 65536).len - 34 * CHUNK_LEN)) 34 0).1
        ([CV8.mk 2189905488 2219196758 2791307802 71940004 3679871252 2585496376 120910461 802108198, CV8.mk 918487838 1711785303 564069667 3324915673 1797774644 108454663 372557605 1473790963] : List CV8)).1 = ([CV8.mk 1170588646 759364925 259033922 4018919336 2241287446 2402593449 5304777 2979283013, CV8.mk 2189905488 2219196758 2791307802 71940004 3679871252 2585496376 120910461 802108198, CV8.mk 918487838 1711785303 564069667 3324915673 1797774644 108454663 372557605 1473790963] : List CV8))

set_option maxRecDepth 100000 in
set_option maxHeartbeats 1000000 in
theorem c1Step35 :
    (chunksLoopT (tvInput 65536) 64 0 29 35 ([CV8.mk 1170588646 759364925 259033922 4018919336 2241287446 2402593449 5304777 2979283013, CV8.mk 2189905488 2219196758 2791307802 71940004 3679871252 2585496376 120910461 802108198, CV8.mk 918487838 1711785303 564069667 3324915673 1797774644 108454663 372557605 1473790963] : List CV8)).1 =
      (chunksLoopT (tvInput 65536) 64 0 28 36 ([CV8.mk 3768635716 3182933472 1546347376 1417509089 1194444827 926098536 3155174912 1760526512, CV8.mk 918487838 1711785303 564069667 3324915673 1797774644 108454663 372557605 1473790963] : List CV8)).1 := by
  rw [chunksLoopT_fst_step]
  exact congrArg
    (fun s => (chunksLoopT (tvInput 65536) 64 0 28 (35 + 1) s).1)
    (by decide :
      (simdPushT 64 35 (processChunkT (tvInput 65536) (35 * CHUNK_LEN)
        (min CHUNK_LEN ((tvInput 65536).len - 35 * CHUNK_LEN)) 35 0).1
        ([CV8.mk 1170588646 759364925 259033922 4018919336 2241287446 2402593449 5304777 2979283013, CV8.mk 2189905488 2219196758 2791307802 71940004 3679871252 2585496376 120910461 802108198, CV8.mk 918487838 1711785303 564069667 3324915673 1797774644 108454663 372557605 1473790963] : List CV8)).1 = ([CV8.mk 3768635716 3182933472 1546347376 1417509089 1194444827 926098536 3155174912 1760526512, CV8.mk 918487838 1711785303 564069667 3324915673 1797774644 108454663 372557605 1473790963] : List CV8))

set_option maxRecDepth 100000 in
set_option maxHeartbeats 1000000 in
theorem c1Step36 :
    (chunksLoopT (tvInput 65536) 64 0 28 36 ([CV8.mk 3768635716 3182933472 1546347376 1417509089 1194444827 926098536 3155174912 1760526512, CV8.mk 918487838 1711785303 564069667 3324915673 1797774644 108454663 372557605 1473790963] : List CV8)).1 =
      (chunksLoopT (tvInput 65536) 64 0 27 37 ([CV8.mk 232024657 3352899276 81729118 2721563813 2212142402 729804199 2633294825 1869149466, CV8.mk 3768635716 3182933472 1546347376 1417509089 1194444827 926098536 3155174912 1760526512, CV8.mk 918487838 1711785303 564069667 3324915673 1797774644 108454663 372557605 1473790963] : List CV8)).1 := by
  rw [chunksLoopT_fst_step]
  exact congrArg
    (fun s => (chunksLoopT (tvInput 65536) 64 0 27 (36 + 1) s).1)
    (by decide :
      (simdPushT 64 36 (processChunkT (tvInput 65536) (36 * CHUNK_LEN)
        (min CHUNK_LEN ((tvInput 65536).len - 36 * CHUNK_LEN)) 36 0).1
        ([CV8.mk 3768635716 3182933472 1546347376 1417509089 1194444827 926098536 3155174912 1760526512, CV8.mk 918487838 1711785303 564069667 3324915673 1797774644 108454663 372557605 1473790963] : List CV8)).1 = ([CV8.mk 232024657 3352899276 81729118 2721563813 2212142402 729804199 2633294825 1869149466, CV8.mk 3768635716 3182933472 1546347376 1417509089 1194444827 926098536 3155174912 1760526512, CV8.mk 918487838 1711785303 564069667 3324915673 1797774644 108454663 372557605 1473790963] : List CV8))

set_option maxRecDepth 100000 in
set_option maxHeartbeats 1000000 in
theorem c1Step37 :
    (chunksLoopT (tvInput 65536) 64 0 27 37 ([CV8.mk 232024657 3352899276 81729118 2721563813 2212142402 729804199 2633294825 1869149466, CV8.mk 3768635716 3182933472 1546347376 1417509089 1194444827 926098536 3155174912 1760526512, CV8.mk 918487838 1711785303 564069667 3324915673 1797774644 108454663 372557605 1473790963] : List CV8)).1 =
      (chunksLoopT (tvInput 65536) 64 0 26 38 ([CV8.mk 332928902 2420739911 1717217072 3628985299 958947499 1197063966 2290542970 1173099103, CV8.mk 3768635716 3182933472 1546347376 1417509089 1194444827 926098536 3155174912 1760526512, CV8.mk 918487838 1711785303 564069667 3324915673 1797774644 108454663 372557605 1473790963] : List CV8)).1 := by
  rw [chunksLoopT_fst_step]
  exact congrArg
    (fun s => (chunksLoopT (tvInput 65536) 64 0 26 (37 + 1) s).1)
    (by decide :
      (simdPushT 64 37 (processChunkT (tvInput 65536) (37 * CHUNK_LEN)
        (min CHUNK_LEN ((tvInput 65536).len - 37 * CHUNK_LEN)) 37 0).1
        ([CV8.mk 232024657 3352899276 81729118 2721563813 2212142402 729804199 2633294825 1869149466, CV8.mk 3768635716 3182933472 1546347376 1417509089 1194444827 926098536 3155174912 1760526512, CV8.mk 918487838 1711785303 564069667 3324915673 1797774644 108454663 372557605 1473790963] : List CV8)).1 = ([CV8.mk 332928902 2420739911 1717217072 3628985299 958947499 1197063966 2290542970 1173099103, CV8.mk 3768635716 3182933472 1546347376 1417509089 1194444827 926098536 3155174912 1760526512, CV8.mk 918487838 1711785303 564069667 3324915673 1797774644 108454663 372557605 1473790963] : List CV8))

set_option maxRecDepth 100000 in
set_option maxHeartbeats 1000000 in
theorem c1Step38 :
    (chunksLoopT (tvInput 65536) 64 0 26 38 ([CV8.mk 332928902 2420739911 1717217072 3628985299 958947499 1197063966 2290542970 1173099103, CV8.mk 3768635716 3182933472 1546347376 1417509089 1194444827 926098536 3155174912 1760526512, CV8.mk 918487838 1711785303 564069667 3324915673 1797774644 108454663 372557605 1473790963] : List CV8)).1 =
      (chunksLoopT (tvInput 65536) 64 0 25 39 ([CV8.mk 1801311263 3191806826 1299144780 1411073562 2235534660 3880451688 1116732775 3843596006, CV8.mk 332928902 2420739911 1717217072 3628985299 958947499 1197063966 2290542970 1173099103, CV8.mk 3768635716 3182933472 1546347376 1417509089 1194444827 926098536 3155174912 1760526512, CV8.mk 918487838 1711785303 564069667 3324915673 1797774644 108454663 372557605 1473790963] : List CV8)).1 := by
  rw [chunksLoopT_fst_step]
  exact congrArg
    (fun s => (chunksLoopT (tvInput 65536) 64 0 25 (38 + 1) s).1)
    (by decide :
      (simdPushT 64 38 (processChunkT (tvInput 65536) (38 * CHUNK_LEN)
        (min CHUNK_LEN ((tvInput 65536).len - 38 * CHUNK_LEN)) 38 0).1
        ([CV8.mk 332928902 2420739911 1717217072 3628985299 958947499 1197063966 2290542970 1173099103, CV8.mk 3768635716 3182933472 1546347376 1417509089 1194444827 926098536 3155174912 1760526512, CV8.mk 918487838 1711785303 564069667 3324915673 1797774644 108454663 372557605 1473790963] : List CV8)).1 = ([CV8.mk 1801311263 3191806826 1299144780 1411073562 2235534660 3880451688 1116732775 3843596006, CV8.mk 332928902 2420739911 1717217072 3628985299 958947499 1197063966 2290542970 1173099103, CV8.mk 3768635716 3182933472 1546347376 1417509089 1194444827 926098536 3155174912 1760526512, CV8.mk 918487838 1711785303 564069667 3324915673 1797774644 108454663 372557605 1473790963] : List CV8))

set_option maxRecDepth 100000 in
set_option maxHeartbeats 1000000 in
theorem c1Step39 :
    (chunksLoopT (tvInput 65536) 64 0 25 39 ([CV8.mk 1801311263 3191806826 1299144780 1411073562 2235534660 3880451688 1116732775 3843596006, CV8.mk 332928902 2420739911 1717217072 3628985299 958947499 1197063966 2290542970 1173099103, CV8.mk 3768635716 3182933472 1546347376 1417509089 1194444827 926098536 3155174912 1760526512, CV8.mk 918487838 1711785303 564069667 3324915673 1797774644 108454663 372557605 1473790963] : List CV8)).1 =
      (chunksLoopT (tvInput 65536) 64 0 24 40 ([CV8.mk 2125894174 4065998248 316501475 292399235 1530159568 1965247953 2845852931 4225640073, CV8.mk 918487838 1711785303 564069667 3324915673 1797774644 108454663 372557605 1473790963] : List CV8)).1 := by
  rw [chunksLoopT_fst_step]
  exact congrArg
    (fun s => (chunksLoopT (tvInput 65536) 64 0 24 (39 + 1) s).1)
    (by decide :
      (simdPushT 64 39 (processChunkT (tvInput 65536) (39 * CHUNK_LEN)
        (min CHUNK_LEN ((tvInput 65536).len - 39 * CHUNK_LEN)) 39 0).1
        ([CV8.mk 1801311263 3191806826 1299144780 1411073562 2235534660 3880451688 1116732775 3843596006, CV8.mk 332928902 2420739911 1717217072 3628985299 958947499 1197063966 2290542970 1173099103, CV8.mk 3768635716 3182933472 1546347376 1417509089 1194444827 926098536 3155174912 1760526512, CV8.mk 918487838 1711785303 564069667 3324915673 1797774644 108454663 372557605 1473790963] : List CV8)).1 = ([CV8.mk 2125894174 4065998248 316501475 292399235 1530159568 1965247953 2845852931 4225640073, CV8.mk 918487838 1711785303 564069667 3324915673 1797774644 108454663 372557605 1473790963] : List CV8))

set_option maxRecDepth 100000 in
set_option maxHeartbeats 1000000 in
theorem c1Step40 :
    (chunksLoopT (tvInput 65536) 64 0 24 40 ([CV8.mk 2125894174 4065998248 316501475 292399235 1530159568 1965247953 2845852931 4225640073, CV8.mk 918487838 1711785303 564069667 3324915673 1797774644 108454663 372557605 1473790963] : List CV8)).1 =
      (chunksLoopT (tvInput 65536) 64 0 23 41 ([CV8.mk 1204044310 591639670 3931903285 2698637819 687497778 3588941061 1469691636 3445630639, CV8.mk 2125894174 4065998248 316501475 292399235 1530159568 1965247953 2845852931 4225640073, CV8.mk 918487838 1711785303 564069667 3324915673 1797774644 108454663 372557605 1473790963] : List CV8)).1 := by
  rw [chunksLoopT_fst_step]
  exact congrArg
    (fun s => (chunksLoopT (tvInput 65536) 64 0 23 (40 + 1) s).1)
    (by decide :
      (simdPushT 64 40 (processChunkT (tvInput 65536) (40 * CHUNK_LEN)
        (min CHUNK_LEN ((tvInput 65536).len - 40 * CHUNK_LEN)) 40 0).1
        ([CV8.mk 2125894174 4065998248 316501475 292399235 1530159568 1965247953 2845852931 4225640073, CV8.mk 918487838 1711785303 564069667 3324915673 1797774644 108454663 372557605 1473790963] : List CV8)).1 = ([CV8.mk 1204044310 591639670 3931903285 2698637819 687497778 3588941061 1469691636 3445630639, CV8.mk 2125894174 4065998248 316501475 292399235 1530159568 1965247953 2845852931 4225640073, CV8.mk 918487838 1711785303 564069667 3324915673 1797774644 108454663 372557605 1473790963] : List CV8))

set_option maxRecDepth 100000 in
set_option maxHeartbeats 1000000 in
theorem c1Step41 :
    (chunksLoopT (tvInput 65536) 64 0 23 41 ([CV8.mk 1204044310 591639670 3931903285 2698637819 687497778 3588941061 1469691636 3445630639, CV8.mk 2125894174 4065998248 316501475 292399235 1530159568 1965247953 2845852931 4225640073, CV8.mk 918487838 1711785303 564069667 3324915673 1797774644 108454663 372557605 1473790963] : List CV8)).1 =
      (chunksLoopT (tvInput 65536) 64 0 22 42 ([CV8.mk 277085404 421273579 762595115 4075009850 1561450691 3151748609 3577511631 2770370538, CV8.mk 2125894174 4065998248 316501475 292399235 1530159568 1965247953 2845852931 4225640073, CV8.mk 918487838 1711785303 564069667 3324915673 1797774644 108454663 372557605 1473790963] : List CV8)).1 := by
  rw [chunksLoopT_fst_step]
  exact congrArg
    (fun s => (chunksLoopT (tvInput 65536) 64 0 22 (41 + 1) s).1)
    (by decide :
      (simdPushT 64 41 (processChunkT (tvInput 65536) (41 * CHUNK_LEN)
        (min CHUNK_LEN ((tvInput 65536).len - 41 * CHUNK_LEN)) 41 0).1
        ([CV8.mk 1204044310 591639670 3931903285 2698637819 687497778 3588941061 1469691636 3445630639, CV8.mk 2125894174 4065998248 316501475 292399235 1530159568 1965247953 2845852931 4225640073, CV8.mk 918487838 1711785303 564069667 3324915673 1797774644 108454663 372557605 1473790963] : List CV8)).1 = ([CV8.mk 277085404 421273579 762595115 4075009850 1561450691 3151748609 3577511631 2770370538, CV8.mk 2125894174 4065998248 316501475 292399235 1530159568 1965247953 2845852931 4225640073, CV8.mk 918487838 1711785303 564069667 3324915673 1797774644 108454663 372557605 1473790963] : List CV8))

set_option maxRecDepth 100000 in
set_option maxHeartbeats 1000000 in
theorem c1Step42 :
    (chunksLoopT (tvInput 65536) 64 0 22 42 ([CV8.mk 277085404 421273579 762595115 4075009850 1561450691 3151748609 3577511631 2770370538, CV8.mk 2125894174 4065998248 316501475 292399235 1530159568 1965247953 2845852931 4225640073, CV8.mk 918487838 1711785303 564069667 3324915673 1797774644 108454663 372557605 1473790963] : List CV8)).1 =
      (chunksLoopT (tvInput 65536) 64 0 21 43 ([CV8.mk 402477725 3662068493 1801510842 2416895604 1494743828 2814661602 735001571 784452110, CV8.mk 277085404 421273579 762595115 4075009850 1561450691 3151748609 3577511631 2770370538, CV8.mk 2125894174 4065998248 316501475 292399235 1530159568 1965247953 2845852931 4225640073, CV8.mk 918487838 1711785303 564069667 3324915673 1797774644 108454663 372557605 1473790963] : List CV8)).1 := by
  rw [chunksLoopT_fst_step]
  exact congrArg
    (fun s => (chunksLoopT (tvInput 65536) 64 0 21 (42 + 1) s).1)
    (by decide :
      (simdPushT 64 42 (processChunkT (tvInput 65536) (42 * CHUNK_LEN)
        (min CHUNK_LEN ((tvInput 65536).len - 42 * CHUNK_LEN)) 42 0).1
        ([CV8.mk 277085404 421273579 762595115 4075009850 1561450691 3151748609 3577511631 2770370538, CV8.mk 2125894174 4065998248 316501475 292399235 1530159568 1965247953 2845852931 4225640073, CV8.mk 918487838 1711785303 564069667 3324915673 1797774644 108454663 372557605 1473790963] : List CV8)).1 = ([CV8.mk 402477725 3662068493 1801510842 2416895604 1494743828 2814661602 735001571 784452110, CV8.mk 277085404 421273579 762595115 4075009850 1561450691 3151748609 3577511631 2770370538, CV8.mk 2125894174 4065998248 316501475 292399235 1530159568 1965247953 2845852931 4225640073, CV8.mk 918487838 1711785303 564069667 3324915673 1797774644 108454663 372557605 1473790963] : List CV8))

set_option maxRecDepth 100000 in
set_option maxHeartbeats 1000000 in
theorem c1Step43 :
    (chunksLoopT (tvInput 65536) 64 0 21 43 ([CV8.mk 402477725 3662068493 1801510842 2416895604 1494743828 2814661602 735001571 784452110, CV8.mk 277085404 421273579 762595115 4075009850 1561450691 3151748609 3577511631 2770370538, CV8.mk 2125894174 4065998248 316501475 292399235 1530159568 1965247953 2845852931 4225640073, CV8.mk 918487838 1711785303 564069667 3324915673 1797774644 108454663 372557605 1473790963] : List CV8)).1 =
      (chunksLoopT (tvInput 65536) 64 0 20 44 ([CV8.mk 1071548802 2571078430 662100594 3763288693 2428224238 2926228648 415516088 1001880495, CV8.mk 2125894174 4065998248 316501475 292399235 1530159568 1965247953 2845852931 4225640073, CV8.mk 918487838 1711785303 564069667 3324915673 1797774644 108454663 372557605 1473790963] : List CV8)).1 := by
  rw [chunksLoopT_fst_step]
  exact congrArg
    (fun s => (chunksLoopT (tvInput 65536) 64 0 20 (43 + 1) s).1)
    (by decide :
      (simdPushT 64 43 (processChunkT (tvInput 65536) (43 * CHUNK_LEN)
        (min CHUNK_LEN ((tvInput 65536).len - 43 * CHUNK_LEN)) 43 0).1
        ([CV8.mk 402477725 3662068493 1801510842 2416895604 1494743828 2814661602 735001571 784452110, CV8.mk 277085404 421273579 762595115 4075009850 1561450691 3151748609 3577511631 2770370538, CV8.mk 2125894174 4065998248 316501475 292399235 1530159568 1965247953 2845852931 4225640073, CV8.mk 918487838 1711785303 564069667 3324915673 1797774644 108454663 372557605 1473790963] : List CV8)).1 = ([CV8.mk 1071548802 2571078430 662100594 3763288693 2428224238 2926228648 415516088 1001880495, CV8.mk 2125894174 4065998248 316501475 292399235 1530159568 1965247953 2845852931 4225640073, CV8.mk 918487838 1711785303 564069667 3324915673 1797774644 108454663 372557605 1473790963] : List CV8))

set_option maxRecDepth 100000 in
set_option maxHeartbeats 1000000 in
theorem c1Step44 :
    (chunksLoopT (tvInput 65536) 64 0 20 44 ([CV8.mk 1071548802 2571078430 662100594 3763288693 2428224238 2926228648 415516088 1001880495, CV8.mk 2125894174 4065998248 316501475 292399235 1530159568 1965247953 2845852931 4225640073, CV8.mk 918487838 1711785303 564069667 3324915673 1797774644 108454663 372557605 1473790963] : List CV8)).1 =
      (chunksLoopT (tvInput 65536) 64 0 19 45 ([CV8.mk 2793153041 2362087871 2474437941 3281472832 2700594363 3049793045 155006136 1983177112, CV8.mk 1071548802 2571078430 662100594 3763288693 2428224238 2926228648 415516088 1001880495, CV8.mk 2125894174 4065998248 316501475 292399235 1530159568 1965247953 2845852931 4225640073, CV8.mk 918487838 1711785303 564069667 3324915673 1797774644 108454663 372557605 1473790963] : List CV8)).1 := by
  rw [chunksLoopT_fst_step]
  exact congrArg
    (fun s => (chunksLoopT (tvInput 65536) 64 0 19 (44 + 1) s).1)
    (by decide :
      (simdPushT 64 44 (processChunkT (tvInput 65536) (44 * CHUNK_LEN)
        (min CHUNK_LEN ((tvInput 65536).len - 44 * CHUNK_LEN)) 44 0).1
        ([CV8.mk 1071548802 2571078430 662100594 3763288693 2428224238 2926228648 415516088 1001880495, CV8.mk 2125894174 4065998248 316501475 292399235 1530159568 1965247953 2845852931 4225640073, CV8.mk 918487838 1711785303 564069667 3324915673 1797774644 108454663 372557605 1473790963] : List CV8)).1 = ([CV8.mk 2793153041 2362087871 2474437941 3281472832 2700594363 3049793045 155006136 1983177112, CV8.mk 1071548802 2571078430 662100594 3763288693 2428224238 2926228648 415516088 1001880495, CV8.mk 2125894174 4065998248 316501475 292399235 1530159568 1965247953 2845852931 4225640073, CV8.mk 918487838 1711785303 564069667 3324915673 1797774644 108454663 372557605 1473790963] : List CV8))

set_option maxRecDepth 100000 in
set_option maxHeartbeats 1000000 in
theorem c1Step45 :
    (chunksLoopT (tvInput 65536) 64 0 19 45 ([CV8.mk 2793153041 2362087871 2474437941 3281472832 2700594363 3049793045 155006136 1983177112, CV8.mk 1071548802 2571078430 662100594 3763288693 2428224238 2926228648 415516088 1001880495, CV8.mk 2125894174 4065998248 316501475 292399235 1530159568 1965247953 2845852931 4225640073, CV8.mk 918487838 1711785303 564069667 3324915673 1797774644 108454663 372557605 1473790963] : List CV8)).1 =
      (chunksLoopT (tvInput 65536) 64 0 18 46 ([CV8.mk 3281663040 2651455413 1479061724 847206626 4282546000 243710243 1805693565 2640761754, CV8.mk 1071548802 2571078430 662100594 3763288693 2428224238 2926228648 415516088 1001880495, CV8.mk 2125894174 4065998248 316501475 292399235 1530159568 1965247953 2845852931 4225640073, CV8.mk 918487838 1711785303 564069667 3324915673 1797774644 108454663 372557605 1473790963] : List CV8)).1 := by
  rw [chunksLoopT_fst_step]
  exact congrArg
    (fun s => (chunksLoopT (tvInput 65536) 64 0 18 (45 + 1) s).1)
    (by decide :
      (simdPushT 64 45 (processChunkT (tvInput 65536) (45 * CHUNK_LEN)
        (min CHUNK_LEN ((tvInput 65536).len - 45 * CHUNK_LEN)) 45 0).1
        ([CV8.mk 2793153041 2362087871 2474437941 3281472832 2700594363 3049793045 155006136 1983177112, CV8.mk 1071548802 2571078430 662100594 3763288693 2428224238 2926228648 415516088 1001880495, CV8.mk 2125894174 4065998248 316501475 292399235 1530159568 1965247953 2845852931 4225640073, CV8.mk 918487838 1711785303 564069667 3324915673 1797774644 108454663 372557605 1473790963] : List CV8)).1 = ([CV8.mk 3281663040 2651455413 1479061724 847206626 4282546000 243710243 1805693565 2640761754, CV8.mk 1071548802 2571078430 662100594 3763288693 2428224238 2926228648 415516088 1001880495, CV8.mk 2125894174 4065998248 316501475 292399235 1530159568 1965247953 2845852931 4225640073, CV8.mk 918487838 1711785303 564069667 3324915673 1797774644 108454663 372557605 1473790963] : List CV8))

set_option maxRecDepth 100000 in
set_option maxHeartbeats 1000000 in
theorem c1Step46 :
    (chunksLoopT (tvInput 65536) 64 0 18 46 ([CV8.mk 3281663040 2651455413 1479061724 847206626 4282546000 243710243 1805693565 2640761754, CV8.mk 1071548802 2571078430 662100594 3763288693 2428224238 2926228648 415516088 1001880495, CV8.mk 2125894174 4065998248 316501475 292399235 1530159568 1965247953 2845852931 4225640073, CV8.mk 918487838 1711785303 564069667 3324915673 1797774644 108454663 372557605 1473790963] : List CV8)).1 =
      (chunksLoopT (tvInput 65536) 64 0 17 47 ([CV8.mk 1939896780 1691516199 624972565 2203457301 911363049 3526087654 2831011773 90425543, CV8.mk 3281663040 2651455413 1479061724 847206626 4282546000 243710243 1805693565 2640761754, CV8.mk 1071548802 2571078430 662100594 3763288693 2428224238 2926228648 415516088 1001880495, CV8.mk 2125894174 4065998248 316501475 292399235 1530159568 1965247953 2845852931 4225640073, CV8.mk 918487838 1711785303 564069667 3324915673 1797774644 108454663 372557605 1473790963] : List CV8)).1 := by
  rw [chunksLoopT_fst_step]
  exact congrArg
    (fun s => (chunksLoopT (tvInput 65536) 64 0 17 (46 + 1) s).1)
    (by decide :
      (simdPushT 64 46 (processChunkT (tvInput 65536) (46 * CHUNK_LEN)
        (min CHUNK_LEN ((tvInput 65536).len - 46 * CHUNK_LEN)) 46 0).1
        ([CV8.mk 3281663040 2651455413 1479061724 847206626 4282546000 243710243 1805693565 2640761754, CV8.mk 1071548802 2571078430 662100594 3763288693 2428224238 2926228648 415516088 1001880495, CV8.mk 2125894174 4065998248 316501475 292399235 1530159568 1965247953 2845852931 4225640073, CV8.mk 918487838 1711785303 564069667 3324915673 1797774644 108454663 372557605 1473790963] : List CV8)).1 = ([CV8.mk 1939896780 1691516199 624972565 2203457301 911363049 3526087654 2831011773 90425543, CV8.mk 3281663040 2651455413 1479061724 847206626 4282546000 243710243 1805693565 2640761754, CV8.mk 1071548802 2571078430 662100594 3763288693 2428224238 2926228648 415516088 1001880495, CV8.mk 2125894174 4065998248 316501475 292399235 1530159568 1965247953 2845852931 4225640073, CV8.mk 918487838 1711785303 564069667 3324915673 1797774644 108454663 372557605 1473790963] : List CV8))

set_option maxRecDepth 100000 in
set_option maxHeartbeats 1000000 in
theorem c1Step47 :
    (chunksLoopT (tvInput 65536) 64 0 17 47 ([CV8.mk 1939896780 1691516199 624972565 2203457301 911363049 3526087654 2831011773 90425543, CV8.mk 3281663040 2651455413 1479061724 847206626 4282546000 243710243 1805693565 2640761754, CV8.mk 1071548802 2571078430 662100594 3763288693 2428224238 2926228648 415516088 1001880495, CV8.mk 2125894174 4065998248 316501475 292399235 1530159568 1965247953 2845852931 4225640073, CV8.mk 918487838 1711785303 564069667 3324915673 1797774644 108454663 372557605 1473790963] : List CV8)).1 =
      (chunksLoopT (tvInput 65536) 64 0 16 48 ([CV8.mk 1824181180 755066897 448934855 8768645 1210609239 2224951706 41355139 2143859552, CV8.mk 918487838 1711785303 564069667 3324915673 1797774644 108454663 372557605 1473790963] : List CV8)).1 := by
  rw [chunksLoopT_fst_step]
  exact congrArg
    (fun s => (chunksLoopT (tvInput 65536) 64 0 16 (47 + 1) s).1)
    (by decide :
      (simdPushT 64 47 (processChunkT (tvInput 65536) (47 * CHUNK_LEN)
        (min CHUNK_LEN ((tvInput 65536).len - 47 * CHUNK_LEN)) 47 0).1
        ([CV8.mk 1939896780 1691516199 624972565 2203457301 911363049 3526087654 2831011773 90425543, CV8.mk 3281663040 2651455413 1479061724 847206626 4282546000 243710243 1805693565 2640761754, CV8.mk 1071548802 2571078430 662100594 3763288693 2428224238 2926228648 415516088 1001880495, CV8.mk 2125894174 4065998248 316501475 292399235 1530159568 1965247953 2845852931 4225640073, CV8.mk 918487838 1711785303 564069667 3324915673 1797774644 108454663 372557605 1473790963] : List CV8)).1 = ([CV8.mk 1824181180 755066897 448934855 8768645 1210609239 2224951706 41355139 2143859552, CV8.mk 918487838 1711785303 564069667 3324915673 1797774644 108454663 372557605 1473790963] : List CV8))

set_option maxRecDepth 100000 in
set_option maxHeartbeats 1000000 in
theorem c1Step48 :
    (chunksLoopT (tvInput 65536) 64 0 16 48 ([CV8.mk 1824181180 755066897 448934855 8768645 1210609239 2224951706 41355139 2143859552, CV8.mk 918487838 1711785303 564069667 3324915673 1797774644 108454663 372557605 1473790963] : List CV8)).1 =
      (chunksLoopT (tvInput 65536) 64 0 15 49 ([CV8.mk 3949864095 219906330 2503706162 1267200806 4136641926 545902909 808292654 2318183645, CV8.mk 1824181180 755066897 448934855 8768645 1210609239 2224951706 41355139 2143859552, CV8.mk 918487838 1711785303 564069667 3324915673 1797774644 108454663 372557605 1473790963] : List CV8)).1 := by
  rw [chunksLoopT_fst_step]
  exact congrArg
    (fun s => (chunksLoopT (tvInput 65536) 64 0 15 (48 + 1) s).1)
    (by decide :
      (simdPushT 64 48 (processChunkT (tvInput 65536) (48 * CHUNK_LEN)
        (min CHUNK_LEN ((tvInput 65536).len - 48 * CHUNK_LEN)) 48 0).1
        ([CV8.mk 1824181180 755066897 448934855 8768645 1210609239 2224951706 41355139 2143859552, CV8.mk 918487838 1711785303 564069667 3324915673 1797774644 108454663 372557605 1473790963] : List CV8)).1 = ([CV8.mk 3949864095 219906330 2503706162 1267200806 4136641926 545902909 808292654 2318183645, CV8.mk 1824181180 755066897 448934855 8768645 1210609239 2224951706 41355139 2143859552, CV8.mk 918487838 1711785303 564069667 3324915673 1797774644 108454663 372557605 1473790963] : List CV8))

set_option maxRecDepth 100000 in
set_option maxHeartbeats 1000000 in
theorem c1Step49 :
    (chunksLoopT (tvInput 65536) 64 0 15 49 ([CV8.mk 3949864095 219906330 2503706162 1267200806 4136641926 545902909 808292654 2318183645, CV8.mk 1824181180 755066897 448934855 8768645 1210609239 2224951706 41355139 2143859552, CV8.mk 918487838 1711785303 564069667 3324915673 1797774644 108454663 372557605 1473790963] : List CV8)).1 =
      (chunksLoopT (tvInput 65536) 64 0 14 50 ([CV8.mk 1554181010 3673439023 1434467347 2437713104 1800061438 1923031413 944746147 3563798558, CV8.mk 1824181180 755066897 448934855 8768645 1210609239 2224951706 41355139 2143859552, CV8.mk 918487838 1711785303 564069667 3324915673 1797774644 108454663 372557605 1473790963] : List CV8)).1 := by
  rw [chunksLoopT_fst_step]
  exact congrArg
    (fun s => (chunksLoopT (tvInput 65536) 64 0 14 (49 + 1) s).1)
    (by decide :
      (simdPushT 64 49 (processChunkT (tvInput 65536) (49 * CHUNK_LEN)
        (min CHUNK_LEN ((tvInput 65536).len - 49 * CHUNK_LEN)) 49 0).1
        ([CV8.mk 3949864095 219906330 2503706162 1267200806 4136641926 545902909 808292654 2318183645, CV8.mk 1824181180 755066897 448934855 8768645 1210609239 2224951706 41355139 2143859552, CV8.mk 918487838 1711785303 564069667 3324915673 1797774644 108454663 372557605 1473790963] : List CV8)).1 = ([CV8.mk 1554181010 3673439023 1434467347 2437713104 1800061438 1923031413 944746147 3563798558, CV8.mk 1824181180 755066897 448934855 8768645 1210609239 2224951706 41355139 2143859552, CV8.mk 918487838 1711785303 564069667 3324915673 1797774644 108454663 372557605 1473790963] : List CV8))

set_option maxRecDepth 100000 in
set_option maxHeartbeats 1000000 in
theorem c1Step50 :
    (chunksLoopT (tvInput 65536) 64 0 14 50 ([CV8.mk 1554181010 3673439023 1434467347 2437713104 1800061438 1923031413 944746147 3563798558, CV8.mk 1824181180 755066897 448934855 8768645 1210609239 2224951706 41355139 2143859552, CV8.mk 918487838 1711785303 564069667 3324915673 1797774644 108454663 372557605 1473790963] : List CV8)).1 =
      (chunksLoopT (tvInput 65536) 64 0 13 51 ([CV8.mk 1248399930 1900037451 3676118973 2253150964 2759523573 2962492280 4186703496 4040017394, CV8.mk 1554181010 3673439023 1434467347 2437713104 1800061438 1923031413 944746147 3563798558, CV8.mk 1824181180 755066897 448934855 8768645 1210609239 2224951706 41355139 2143859552, CV8.mk 918487838 1711785303 564069667 3324915673 1797774644 108454663 372557605 1473790963] : List CV8)).1 := by
  rw [chunksLoopT_fst_step]
  exact congrArg
    (fun s => (chunksLoopT (tvInput 65536) 64 0 13 (50 + 1) s).1)
    (by decide :
      (simdPushT 64 50 (processChunkT (tvInput 65536) (50 * CHUNK_LEN)
        (min CHUNK_LEN ((tvInput 65536).len - 50 * CHUNK_LEN)) 50 0).1
        ([CV8.mk 1554181010 3673439023 1434467347 2437713104 1800061438 1923031413 944746147 3563798558, CV8.mk 1824181180 755066897 448934855 8768645 1210609239 2224951706 41355139 2143859552, CV8.mk 918487838 1711785303 564069667 3324915673 1797774644 108454663 372557605 1473790963] : List CV8)).1 = ([CV8.mk 1248399930 1900037451 3676118973 2253150964 2759523573 2962492280 4186703496 4040017394, CV8.mk 1554181010 3673439023 1434467347 2437713104 1800061438 1923031413 944746147 3563798558, CV8.mk 1824181180 755066897 448934855 8768645 1210609239 2224951706 41355139 2143859552, CV8.mk 918487838 1711785303 564069667 3324915673 1797774644 108454663 372557605 1473790963] : List CV8))

set_option maxRecDepth 100000 in
set_option maxHeartbeats 1000000 in
theorem c1Step51 :
    (chunksLoopT (tvInput 65536) 64 0 13 51 ([CV8.mk 1248399930 1900037451 3676118973 2253150964 2759523573 2962492280 4186703496 4040017394, CV8.mk 1554181010 3673439023 1434467347 2437713104 1800061438 1923031413 944746147 3563798558, CV8.mk 1824181180 755066897 448934855 8768645 1210609239 2224951706 41355139 2143859552, CV8.mk 918487838 1711785303 564069667 3324915673 1797774644 108454663 372557605 1473790963] : List CV8)).1 =
      (chunksLoopT (tvInput 65536) 64 0 12 52 ([CV8.mk 1717828225 4276536756 2979577082 90718230 608372416 4273842841 2360839084 1015640072, CV8.mk 1824181180 755066897 448934855 8768645 1210609239 2224951706 41355139 2143859552, CV8.mk 918487838 1711785303 564069667 3324915673 1797774644 108454663 372557605 1473790963] : List CV8)).1 := by
  rw [chunksLoopT_fst_step]
  exact congrArg
    (fun s => (chunksLoopT (tvInput 65536) 64 0 12 (51 + 1) s).1)
    (by decide :
      (simdPushT 64 51 (processChunkT (tvInput 65536) (51 * CHUNK_LEN)
        (min CHUNK_LEN ((tvInput 65536).len - 51 * CHUNK_LEN)) 51 0).1
        ([CV8.mk 1248399930 1900037451 3676118973 2253150964 2759523573 2962492280 4186703496 4040017394, CV8.mk 1554181010 3673439023 1434467347 2437713104 1800061438 1923031413 944746147 3563798558, CV8.mk 1824181180 755066897 448934855 8768645 1210609239 2224951706 41355139 2143859552, CV8.mk 918487838 1711785303 564069667 3324915673 1797774644 108454663 372557605 1473790963] : List CV8)).1 = ([CV8.mk 1717828225 4276536756 2979577082 90718230 608372416 4273842841 2360839084 1015640072, CV8.mk 1824181180 755066897 448934855 8768645 1210609239 2224951706 41355139 2143859552, CV8.mk 918487838 1711785303 564069667 3324915673 1797774644 108454663 372557605 1473790963] : List CV8))

set_option maxRecDepth 100000 in
set_option maxHeartbeats 1000000 in
theorem c1Step52 :
    (chunksLoopT (tvInput 65536) 64 0 12 52 ([CV8.mk 1717828225 4276536756 2979577082 90718230 608372416 4273842841 2360839084 1015640072, CV8.mk 1824181180 755066897 448934855 8768645 1210609239 2224951706 41355139 2143859552, CV8.mk 918487838 1711785303 564069667 3324915673 1797774644 108454663 372557605 1473790963] : List CV8)).1 =
      (chunksLoopT (tvInput 65536) 64 0 11 53 ([CV8.mk 2211213380 1852193683 2098069895 415441039 25102169 2631391799 552057242 524631818, CV8.mk 1717828225 4276536756 2979577082 90718230 608372416 4273842841 2360839084 1015640072, CV8.mk 1824181180 755066897 448934855 8768645 1210609239 2224951706 41355139 2143859552, CV8.mk 918487838 1711785303 564069667 3324915673 1797774644 108454663 372557605 1473790963] : List CV8)).1 := by
  rw [chunksLoopT_fst_step]
  exact congrArg
    (fun s => (chunksLoopT (tvInput 65536) 64 0 11 (52 + 1) s).1)
    (by decide :
      (simdPushT 64 52 (processChunkT (tvInput 65536) (52 * CHUNK_LEN)
        (min CHUNK_LEN ((tvInput 65536).len - 52 * CHUNK_LEN)) 52 0).1
        ([CV8.mk 1717828225 4276536756 2979577082 90718230 608372416 4273842841 2360839084 1015640072, CV8.mk 1824181180 755066897 448934855 8768645 1210609239 2224951706 41355139 2143859552, CV8.mk 918487838 1711785303 564069667 3324915673 1797774644 108454663 372557605 1473790963] : List CV8)).1 = ([CV8.mk 2211213380 1852193683 2098069895 415441039 25102169 2631391799 552057242 524631818, CV8.mk 1717828225 4276536756 2979577082 90718230 608372416 4273842841 2360839084 1015640072, CV8.mk 1824181180 755066897 448934855 8768645 1210609239 2224951706 41355139 2143859552, CV8.mk 918487838 1711785303 564069667 3324915673 1797774644 108454663 372557605 1473790963] : List CV8))

set_option maxRecDepth 100000 in
set_option maxHeartbeats 1000000 in
theorem c1Step53 :
    (chunksLoopT (tvInput 65536) 64 0 11 53 ([CV8.mk 2211213380 1852193683 2098069895 415441039 25102169 2631391799 552057242 524631818, CV8.mk 1717828225 4276536756 2979577082 90718230 608372416 4273842841 2360839084 1015640072, CV8.mk 1824181180 755066897 448934855 8768645 1210609239 2224951706 41355139 2143859552, CV8.mk 918487838 1711785303 564069667 3324915673 1797774644 108454663 372557605 1473790963] : List CV8)).1 =
      (chunksLoopT (tvInput 65536) 64 0 10 54 ([CV8.mk 2713164148 2483733540 616982889 1941044300 1233485445 1814109830 2197575491 3153893381, CV8.mk 1717828225 4276536756 2979577082 90718230 608372416 4273842841 2360839084 1015640072, CV8.mk 1824181180 755066897 448934855 8768645 1210609239 2224951706 41355139 2143859552, CV8.mk 918487838 1711785303 564069667 3324915673 1797774644 108454663 372557605 1473790963] : List CV8)).1 := by
  rw [chunksLoopT_fst_step]
  exact congrArg
    (fun s => (chunksLoopT (tvInput 65536) 64 0 10 (53 + 1) s).1)
    (by decide :
      (simdPushT 64 53 (processChunkT (tvInput 65536) (53 * CHUNK_LEN)
        (min CHUNK_LEN ((tvInput 65536).len - 53 * CHUNK_LEN)) 53 0).1
        ([CV8.mk 2211213380 1852193683 2098069895 415441039 25102169 2631391799 552057242 524631818, CV8.mk 1717828225 4276536756 2979577082 90718230 608372416 4273842841 2360839084 1015640072, CV8.mk 1824181180 755066897 448934855 8768645 1210609239 2224951706 41355139 2143859552, CV8.mk 918487838 1711785303 564069667 3324915673 1797774644 108454663 372557605 1473790963] : List CV8)).1 = ([CV8.mk 2713164148 2483733540 616982889 1941044300 1233485445 1814109830 2197575491 3153893381, CV8.mk 1717828225 4276536756 2979577082 90718230 608372416 4273842841 2360839084 1015640072, CV8.mk 1824181180 755066897 448934855 8768645 1210609239 2224951706 41355139 2143859552, CV8.mk 918487838 1711785303 564069667 3324915673 1797774644 108454663 372557605 1473790963] : List CV8))

set_option maxRecDepth 100000 in
set_option maxHeartbeats 1000000 in
theorem c1Step54 :
    (chunksLoopT (tvInput 65536) 64 0 10 54 ([CV8.mk 2713164148 2483733540 616982889 1941044300 1233485445 1814109830 2197575491 3153893381, CV8.mk 1717828225 4276536756 2979577082 90718230 608372416 4273842841 2360839084 1015640072, CV8.mk 1824181180 755066897 448934855 8768645 1210609239 2224951706 41355139 2143859552, CV8.mk 918487838 1711785303 564069667 3324915673 1797774644 108454663 372557605 1473790963] : List CV8)).1 =
      (chunksLoopT (tvInput 65536) 64 0 9 55 ([CV8.mk 2955413567 2079222187 106057956 2719756736 61820029 3609604405 3301856122 2969332813, CV8.mk 2713164148 2483733540 616982889 1941044300 1233485445 1814109830 2197575491 3153893381, CV8.mk 1717828225 4276536756 2979577082 90718230 608372416 4273842841 2360839084 1015640072, CV8.mk 1824181180 755066897 448934855 8768645 1210609239 2224951706 41355139 2143859552, CV8.mk 918487838 1711785303 564069667 3324915673 1797774644 108454663 372557605 1473790963] : List CV8)).1 := by
  rw [chunksLoopT_fst_step]
  exact congrArg
    (fun s => (chunksLoopT (tvInput 65536) 64 0 9 (54 + 1) s).1)
    (by decide :
      (simdPushT 64 54 (processChunkT (tvInput 65536) (54 * CHUNK_LEN)
        (min CHUNK_LEN ((tvInput 65536).len - 54 * CHUNK_LEN)) 54 0).1
        ([CV8.mk 2713164148 2483733540 616982889 1941044300 1233485445 1814109830 2197575491 3153893381, CV8.mk 1717828225 4276536756 2979577082 90718230 608372416 4273842841 2360839084 1015640072, CV8.mk 1824181180 755066897 448934855 8768645 1210609239 2224951706 41355139 2143859552, CV8.mk 918487838 1711785303 564069667 3324915673 1797774644 108454663 372557605 1473790963] : List CV8)).1 = ([CV8.mk 2955413567 2079222187 106057956 2719756736 61820029 3609604405 3301856122 2969332813, CV8.mk 2713164148 2483733540 616982889 1941044300 1233485445 1814109830 2197575491 3153893381, CV8.mk 1717828225 4276536756 2979577082 90718230 608372416 4273842841 2360839084 1015640072, CV8.mk 1824181180 755066897 448934855 8768645 1210609239 2224951706 41355139 2143859552, CV8.mk 918487838 1711785303 564069667 3324915673 1797774644 108454663 372557605 1473790963] : List CV8))

set_option maxRecDepth 100000 in
set_option maxHeartbeats 1000000 in
theorem c1Step55 :
    (chunksLoopT (tvInput 65536) 64 0 9 55 ([CV8.mk 2955413567 2079222187 106057956 2719756736 61820029 3609604405 3301856122 2969332813, CV8.mk 2713164148 2483733540 616982889 1941044300 1233485445 1814109830 2197575491 3153893381, CV8.mk 1717828225 4276536756 2979577082 90718230 608372416 4273842841 2360839084 1015640072, CV8.mk 1824181180 755066897 448934855 8768645 1210609239 2224951706 41355139 2143859552, CV8.mk 918487838 1711785303 564069667 3324915673 1797774644 108454663 372557605 1473790963] : List CV8)).1 =
      (chunksLoopT (tvInput 65536) 64 0 8 56 ([CV8.mk 3565972246 2886471024 873976111 503093484 4145839056 375091526 2702197304 70755737, CV8.mk 1824181180 755066897 448934855 8768645 1210609239 2224951706 41355139 2143859552, CV8.mk 918487838 1711785303 564069667 3324915673 1797774644 108454663 372557605 1473790963] : List CV8)).1 := by
  rw [chunksLoopT_fst_step]
  exact congrArg
    (fun s => (chunksLoopT (tvInput 65536) 64 0 8 (55 + 1) s).1)
    (by decide :
      (simdPushT 64 55 (processChunkT (tvInput 65536) (55 * CHUNK_LEN)
        (min CHUNK_LEN ((tvInput 65536).len - 55 * CHUNK_LEN)) 55 0).1
        ([CV8.mk 2955413567 2079222187 106057956 2719756736 61820029 3609604405 3301856122 2969332813, CV8.mk 2713164148 2483733540 616982889 1941044300 1233485445 1814109830 2197575491 3153893381, CV8.mk 1717828225 4276536756 2979577082 90718230 608372416 4273842841 2360839084 1015640072, CV8.mk 1824181180 755066897 448934855 8768645 1210609239 2224951706 41355139 2143859552, CV8.mk 918487838 1711785303 564069667 3324915673 1797774644 108454663 372557605 1473790963] : List CV8)).1 = ([CV8.mk 3565972246 2886471024 873976111 503093484 4145839056 375091526 2702197304 70755737, CV8.mk 1824181180 755066897 448934855 8768645 1210609239 2224951706 41355139 2143859552, CV8.mk 918487838 1711785303 564069667 3324915673 1797774644 108454663 372557605 1473790963] : List CV8))

set_option maxRecDepth 100000 in
set_option maxHeartbeats 1000000 in
theorem c1Step56 :
    (chunksLoopT (tvInput 65536) 64 0 8 56 ([CV8.mk 3565972246 2886471024 873976111 503093484 4145839056 375091526 2702197304 70755737, CV8.mk 1824181180 755066897 448934855 8768645 1210609239 2224951706 41355139 2143859552, CV8.mk 918487838 1711785303 564069667 3324915673 1797774644 108454663 372557605 1473790963] : List CV8)).1 =
      (chunksLoopT (tvInput 65536) 64 0 7 57 ([CV8.mk 80365718 116403831 1380248435 236259691 1354993434 915939916 1606794925 2022703749, CV8.mk 3565972246 2886471024 873976111 503093484 4145839056 375091526 2702197304 70755737, CV8.mk 1824181180 755066897 448934855 8768645 1210609239 2224951706 41355139 2143859552, CV8.mk 918487838 1711785303 564069667 3324915673 1797774644 108454663 372557605 1473790963] : List CV8)).1 := by
  rw [chunksLoopT_fst_step]
  exact congrArg
    (fun s => (chunksLoopT (tvInput 65536) 64 0 7 (56 + 1) s).1)
    (by decide :
      (simdPushT 64 56 (processChunkT (tvInput 65536) (56 * CHUNK_LEN)
        (min CHUNK_LEN ((tvInput 65536).len - 56 * CHUNK_LEN)) 56 0).1
        ([CV8.mk 3565972246 2886471024 873976111 503093484 4145839056 375091526 2702197304 70755737, CV8.mk 1824181180 755066897 448934855 8768645 1210609239 2224951706 41355139 2143859552, CV8.mk 918487838 1711785303 564069667 3324915673 1797774644 108454663 372557605 1473790963] : List CV8)).1 = ([CV8.mk 80365718 116403831 1380248435 236259691 1354993434 915939916 1606794925 2022703749, CV8.mk 3565972246 2886471024 873976111 503093484 4145839056 375091526 2702197304 70755737, CV8.mk 1824181180 755066897 448934855 8768645 1210609239 2224951706 41355139 2143859552, CV8.mk 918487838 1711785303 564069667 3324915673 1797774644 108454663 372557605 1473790963] : List CV8))

set_option maxRecDepth 100000 in
set_option maxHeartbeats 1000000 in
theorem c1Step57 :
    (chunksLoopT (tvInput 65536) 64 0 7 57 ([CV8.mk 80365718 116403831 1380248435 236259691 1354993434 915939916 1606794925 2022703749, CV8.mk 3565972246 2886471024 873976111 503093484 4145839056 375091526 2702197304 70755737, CV8.mk 1824181180 755066897 448934855 8768645 1210609239 2224951706 41355139 2143859552, CV8.mk 918487838 1711785303 564069667 3324915673 1797774644 108454663 372557605 1473790963] : List CV8)).1 =
      (chunksLoopT (tvInput 65536) 64 0 6 58 ([CV8.mk 3075846884 2233630391 1530509970 3056224836 2211205561 2180774142 1286622342 455822965, CV8.mk 3565972246 2886471024 873976111 503093484 4145839056 375091526 2702197304 70755737, CV8.mk 1824181180 755066897 448934855 8768645 1210609239 2224951706 41355139 2143859552, CV8.mk 918487838 1711785303 564069667 3324915673 1797774644 108454663 372557605 1473790963] : List CV8)).1 := by
  rw [chunksLoopT_fst_step]
  exact congrArg
    (fun s => (chunksLoopT (tvInput 65536) 64 0 6 (57 + 1) s).1)
    (by decide :
      (simdPushT 64 57 (processChunkT (tvInput 65536) (57 * CHUNK_LEN)
        (min CHUNK_LEN ((tvInput 65536).len - 57 * CHUNK_LEN)) 57 0).1
        ([CV8.mk 80365718 116403831 1380248435 236259691 1354993434 915939916 1606794925 2022703749, CV8.mk 3565972246 2886471024 873976111 503093484 4145839056 375091526 2702197304 70755737, CV8.mk 1824181180 755066897 448934855 8768645 1210609239 2224951706 41355139 2143859552, CV8.mk 918487838 1711785303 564069667 3324915673 1797774644 108454663 372557605 1473790963] : List CV8)).1 = ([CV8.mk 3075846884 2233630391 1530509970 3056224836 2211205561 2180774142 1286622342 455822965, CV8.mk 3565972246 2886471024 873976111 503093484 4145839056 375091526 2702197304 70755737, CV8.mk 1824181180 755066897 448934855 8768645 1210609239 2224951706 41355139 2143859552, CV8.mk 918487838 1711785303 564069667 3324915673 1797774644 108454663 372557605 1473790963] : List CV8))

set_option maxRecDepth 100000 in
set_option maxHeartbeats 1000000 in
theorem c1Step58 :
    (chunksLoopT (tvInput 65536) 64 0 6 58 ([CV8.mk 3075846884 2233630391 1530509970 3056224836 2211205561 2180774142 1286622342 455822965, CV8.mk 3565972246 2886471024 873976111 503093484 4145839056 375091526 2702197304 70755737, CV8.mk 1824181180 755066897 448934855 8768645 1210609239 2224951706 41355139 2143859552, CV8.mk 918487838 1711785303 564069667 3324915673 1797774644 108454663 372557605 1473790963] : List CV8)).1 =
      (chunksLoopT (tvInput 65536) 64 0 5 59 ([CV8.mk 1841124383 729034510 3268493848 94539340 1356933290 1349613112 3272180682 3695571056, CV8.mk 3075846884 2233630391 1530509970 3056224836 2211205561 2180774142 1286622342 455822965, CV8.mk 3565972246 2886471024 873976111 503093484 4145839056 375091526 2702197304 70755737, CV8.mk 1824181180 755066897 448934855 8768645 1210609239 2224951706 41355139 2143859552, CV8.mk 918487838 1711785303 564069667 3324915673 1797774644 108454663 372557605 1473790963] : List CV8)).1 := by
  rw [chunksLoopT_fst_step]
  exact congrArg
    (fun s => (chunksLoopT (tvInput 65536) 64 0 5 (58 + 1) s).1)
    (by decide :
      (simdPushT 64 58 (processChunkT (tvInput 65536) (58 * CHUNK_LEN)
        (min CHUNK_LEN ((tvInput 65536).len - 58 * CHUNK_LEN)) 58 0).1
        ([CV8.mk 3075846884 2233630391 1530509970 3056224836 2211205561 2180774142 1286622342 455822965, CV8.mk 3565972246 2886471024 873976111 503093484 4145839056 375091526 2702197304 70755737, CV8.mk 1824181180 755066897 448934855 8768645 1210609239 2224951706 41355139 2143859552, CV8.mk 918487838 1711785303 564069667 3324915673 1797774644 108454663 372557605 1473790963] : List CV8)).1 = ([CV8.mk 1841124383 729034510 3268493848 94539340 1356933290 1349613112 3272180682 3695571056, CV8.mk 3075846884 2233630391 1530509970 3056224836 2211205561 2180774142 1286622342 455822965, CV8.mk 3565972246 2886471024 873976111 503093484 4145839056 375091526 2702197304 70755737, CV8.mk 1824181180 755066897 448934855 8768645 1210609239 2224951706 41355139 2143859552, CV8.mk 918487838 1711785303 564069667 3324915673 1797774644 108454663 372557605 1473790963] : List CV8))

set_option maxRecDepth 100000 in
set_option maxHeartbeats 1000000 in
theorem c1Step59 :
    (chunksLoopT (tvInput 65536) 64 0 5 59 ([CV8.mk 1841124383 729034510 3268493848 94539340 1356933290 1349613112 3272180682 3695571056, CV8.mk 3075846884 2233630391 1530509970 3056224836 2211205561 2180774142 1286622342 455822965, CV8.mk 3565972246 2886471024 873976111 503093484 4145839056 375091526 2702197304 70755737, CV8.mk 1824181180 755066897 448934855 8768645 1210609239 2224951706 41355139 2143859552, CV8.mk 918487838 1711785303 564069667 3324915673 1797774644 108454663 372557605 1473790963] : List CV8)).1 =
      (chunksLoopT (tvInput 65536) 64 0 4 60 ([CV8.mk 1036729674 729181096 1158845081 2452974130 3372377150 3416052189 288338907 1049652714, CV8.mk 3565972246 2886471024 873976111 503093484 4145839056 375091526 2702197304 70755737, CV8.mk 1824181180 755066897 448934855 8768645 1210609239 2224951706 41355139 2143859552, CV8.mk 918487838 1711785303 564069667 3324915673 1797774644 108454663 372557605 1473790963] : List CV8)).1 := by
  rw [chunksLoopT_fst_step]
  exact congrArg
    (fun s => (chunksLoopT (tvInput 65536) 64 0 4 (59 + 1) s).1)
    (by decide :
      (simdPushT 64 59 (processChunkT (tvInput 65536) (59 * CHUNK_LEN)
        (min CHUNK_LEN ((tvInput 65536).len - 59 * CHUNK_LEN)) 59 0).1
        ([CV8.mk 1841124383 729034510 3268493848 94539340 1356933290 1349613112 3272180682 3695571056, CV8.mk 3075846884 2233630391 1530509970 3056224836 2211205561 2180774142 1286622342 455822965, CV8.mk 3565972246 2886471024 873976111 503093484 4145839056 375091526 2702197304 70755737, CV8.mk 1824181180 755066897 448934855 8768645 1210609239 2224951706 41355139 2143859552, CV8.mk 918487838 1711785303 564069667 3324915673 1797774644 108454663 372557605 1473790963] : List CV8)).1 = ([CV8.mk 1036729674 729181096 1158845081 2452974130 3372377150 3416052189 288338907 1049652714, CV8.mk 3565972246 2886471024 873976111 503093484 4145839056 375091526 2702197304 70755737, CV8.mk 1824181180 755066897 448934855 8768645 1210609239 2224951706 41355139 2143859552, CV8.mk 918487838 1711785303 564069667 3324915673 1797774644 108454663 372557605 1473790963] : List CV8))

set_option maxRecDepth 100000 in
set_option maxHeartbeats 1000000 in
theorem c1Step60 :
    (chunksLoopT (tvInput 65536) 64 0 4 60 ([CV8.mk 1036729674 729181096 1158845081 2452974130 3372377150 3416052189 288338907 1049652714, CV8.mk 3565972246 2886471024 873976111 503093484 4145839056 375091526 2702197304 70755737, CV8.mk 1824181180 755066897 448934855 8768645 1210609239 2224951706 41355139 2143859552, CV8.mk 918487838 1711785303 564069667 3324915673 1797774644 108454663 372557605 1473790963] : List CV8)).1 =
      (chunksLoopT (tvInput 65536) 64 0 3 61 ([CV8.mk 4114867235 2580594309 2858501716 1138201739 2981255130 1752402357 471671748 612367208, CV8.mk 1036729674 729181096 1158845081 2452974130 3372377150 3416052189 288338907 1049652714, CV8.mk 3565972246 2886471024 873976111 503093484 4145839056 375091526 2702197304 70755737, CV8.mk 1824181180 755066897 448934855 8768645 1210609239 2224951706 41355139 2143859552, CV8.mk 918487838 1711785303 564069667 3324915673 1797774644 108454663 372557605 1473790963] : List CV8)).1 := by
  rw [chunksLoopT_fst_step]
  exact congrArg
    (fun s => (chunksLoopT (tvInput 65536) 64 0 3 (60 + 1) s).1)
    (by decide :
      (simdPushT 64 60 (processChunkT (tvInput 65536) (60 * CHUNK_LEN)
        (min CHUNK_LEN ((tvInput 65536).len - 60 * CHUNK_LEN)) 60 0).1
        ([CV8.mk 1036729674 729181096 1158845081 2452974130 3372377150 3416052189 288338907 1049652714, CV8.mk 3565972246 2886471024 873976111 503093484 4145839056 375091526 2702197304 70755737, CV8.mk 1824181180 755066897 448934855 8768645 1210609239 2224951706 41355139 2143859552, CV8.mk 918487838 1711785303 564069667 3324915673 1797774644 108454663 372557605 1473790963] : List CV8)).1 = ([CV8.mk 4114867235 2580594309 2858501716 1138201739 2981255130 1752402357 471671748 612367208, CV8.mk 1036729674 729181096 1158845081 2452974130 3372377150 3416052189 288338907 1049652714, CV8.mk 3565972246 2886471024 873976111 503093484 4145839056 375091526 2702197304 70755737, CV8.mk 1824181180 755066897 448934855 8768645 1210609239 2224951706 41355139 2143859552, CV8.mk 918487838 1711785303 564069667 3324915673 1797774644 108454663 372557605 1473790963] : List CV8))

set_option maxRecDepth 100000 in
set_option maxHeartbeats 1000000 in
theorem c1Step61 :
    (chunksLoopT (tvInput 65536) 64 0 3 61 ([CV8.mk 4114867235 2580594309 2858501716 1138201739 2981255130 1752402357 471671748 612367208, CV8.mk 1036729674 729181096 1158845081 2452974130 3372377150 3416052189 288338907 1049652714, CV8.mk 3565972246 2886471024 873976111 503093484 4145839056 375091526 2702197304 70755737, CV8.mk 1824181180 755066897 448934855 8768645 1210609239 2224951706 41355139 2143859552, CV8.mk 918487838 1711785303 564069667 3324915673 1797774644 108454663 372557605 1473790963] : List CV8)).1 =
      (chunksLoopT (tvInput 65536) 64 0 2 62 ([CV8.mk 1563624783 156598691 1761089664 3060187234 142614682 1020746202 2869032979 2129785798, CV8.mk 1036729674 729181096 1158845081 2452974130 3372377150 3416052189 288338907 1049652714, CV8.mk 3565972246 2886471024 873976111 503093484 4145839056 375091526 2702197304 70755737, CV8.mk 1824181180 755066897 448934855 8768645 1210609239 2224951706 41355139 2143859552, CV8.mk 918487838 1711785303 564069667 3324915673 1797774644 108454663 372557605 1473790963] : List CV8)).1 := by
  rw [chunksLoopT_fst_step]
  exact congrArg
    (fun s => (chunksLoopT (tvInput 65536) 64 0 2 (61 + 1) s).1)
    (by decide :
      (simdPushT 64 61 (processChunkT (tvInput 65536) (61 * CHUNK_LEN)
        (min CHUNK_LEN ((tvInput 65536).len - 61 * CHUNK_LEN)) 61 0).1
        ([CV8.mk 4114867235 2580594309 2858501716 1138201739 2981255130 1752402357 471671748 612367208, CV8.mk 1036729674 729181096 1158845081 2452974130 3372377150 3416052189 288338907 1049652714, CV8.mk 3565972246 2886471024 873976111 503093484 4145839056 375091526 2702197304 70755737, CV8.mk 1824181180 755066897 448934855 8768645 1210609239 2224951706 41355139 2143859552, CV8.mk 918487838 1711785303 564069667 3324915673 1797774644 108454663 372557605 1473790963] : List CV8)).1 = ([CV8.mk 1563624783 156598691 1761089664 3060187234 142614682 1020746202 2869032979 2129785798, CV8.mk 1036729674 729181096 1158845081 2452974130 3372377150 3416052189 288338907 1049652714, CV8.mk 3565972246 2886471024 873976111 503093484 4145839056 375091526 2702197304 70755737, CV8.mk 1824181180 755066897 448934855 8768645 1210609239 2224951706 41355139 2143859552, CV8.mk 918487838 1711785303 564069667 3324915673 1797774644 108454663 372557605 1473790963] : List CV8))

set_option maxRecDepth 100000 in
set_option maxHeartbeats 1000000 in
theorem c1Step62 :
    (chunksLoopT (tvInput 65536) 64 0 2 62 ([CV8.mk 1563624783 156598691 1761089664 3060187234 142614682 1020746202 2869032979 2129785798, CV8.mk 1036729674 729181096 1158845081 2452974130 3372377150 3416052189 288338907 1049652714, CV8.mk 3565972246 2886471024 873976111 503093484 4145839056 375091526 2702197304 70755737, CV8.mk 1824181180 755066897 448934855 8768645 1210609239 2224951706 41355139 2143859552, CV8.mk 918487838 1711785303 564069667 3324915673 1797774644 108454663 372557605 1473790963] : List CV8)).1 =
      (chunksLoopT (tvInput 65536) 64 0 1 63 ([CV8.mk 798683124 3533505550 3106441059 3348187651 287233873 3055690624 3679956903 146611810, CV8.mk 1563624783 156598691 1761089664 3060187234 142614682 1020746202 2869032979 2129785798, CV8.mk 1036729674 729181096 1158845081 2452974130 3372377150 3416052189 288338907 1049652714, CV8.mk 3565972246 2886471024 873976111 503093484 4145839056 375091526 2702197304 70755737, CV8.mk 1824181180 755066897 448934855 8768645 1210609239 2224951706 41355139 2143859552, CV8.mk 918487838 1711785303 564069667 3324915673 1797774644 108454663 372557605 1473790963] : List CV8)).1 := by
  rw [chunksLoopT_fst_step]
  exact congrArg
    (fun s => (chunksLoopT (tvInput 65536) 64 0 1 (62 + 1) s).1)
    (by decide :
      (simdPushT 64 62 (processChunkT (tvInput 65536) (62 * CHUNK_LEN)
        (min CHUNK_LEN ((tvInput 65536).len - 62 * CHUNK_LEN)) 62 0).1
        ([CV8.mk 1563624783 156598691 1761089664 3060187234 142614682 1020746202 2869032979 2129785798, CV8.mk 1036729674 729181096 1158845081 2452974130 3372377150 3416052189 288338907 1049652714, CV8.mk 3565972246 2886471024 873976111 503093484 4145839056 375091526 2702197304 70755737, CV8.mk 1824181180 755066897 448934855 8768645 1210609239 2224951706 41355139 2143859552, CV8.mk 918487838 1711785303 564069667 3324915673 1797774644 108454663 372557605 1473790963] : List CV8)).1 = ([CV8.mk 798683124 3533505550 3106441059 3348187651 287233873 3055690624 3679956903 146611810, CV8.mk 1563624783 156598691 1761089664 3060187234 142614682 1020746202 2869032979 2129785798, CV8.mk 1036729674 729181096 1158845081 2452974130 3372377150 3416052189 288338907 1049652714, CV8.mk 3565972246 2886471024 873976111 503093484 4145839056 375091526 2702197304 70755737, CV8.mk 1824181180 755066897 448934855 8768645 1210609239 2224951706 41355139 2143859552, CV8.mk 918487838 1711785303 564069667 3324915673 1797774644 108454663 372557605 1473790963] : List CV8))

set_option maxRecDepth 100000 in
set_option maxHeartbeats 1000000 in
theorem c1Step63 :
    (chunksLoopT (tvInput 65536) 64 0 1 63 ([CV8.mk 798683124 3533505550 3106441059 3348187651 287233873 3055690624 3679956903 146611810, CV8.mk 1563624783 156598691 1761089664 3060187234 142614682 1020746202 2869032979 2129785798, CV8.mk 1036729674 729181096 1158845081 2452974130 3372377150 3416052189 288338907 1049652714, CV8.mk 3565972246 2886471024 873976111 503093484 4145839056 375091526 2702197304 70755737, CV8.mk 1824181180 755066897 448934855 8768645 1210609239 2224951706 41355139 2143859552, CV8.mk 918487838 1711785303 564069667 3324915673 1797774644 108454663 372557605 1473790963] : List CV8)).1 =
      (chunksLoopT (tvInput 65536) 64 0 0 64 ([CV8.mk 690548304 2663819510 2366559487 3536203835 1100532107 2361162334 4156029438 3309683825, CV8.mk 798683124 3533505550 3106441059 3348187651 287233873 3055690624 3679956903 146611810, CV8.mk 1563624783 156598691 1761089664 3060187234 142614682 1020746202 2869032979 2129785798, CV8.mk 1036729674 729181096 1158845081 2452974130 3372377150 3416052189 288338907 1049652714, CV8.mk 3565972246 2886471024 873976111 503093484 4145839056 375091526 2702197304 70755737, CV8.mk 1824181180 755066897 448934855 8768645 1210609239 2224951706 41355139 2143859552, CV8.mk 918487838 1711785303 564069667 3324915673 1797774644 108454663 372557605 1473790963] : List CV8)).1 := by
  rw [chunksLoopT_fst_step]
  exact congrArg
    (fun s => (chunksLoopT (tvInput 65536) 64 0 0 (63 + 1) s).1)
    (by decide :
      (simdPushT 64 63 (processChunkT (tvInput 65536) (63 * CHUNK_LEN)
        (min CHUNK_LEN ((tvInput 65536).len - 63 * CHUNK_LEN)) 63 0).1
        ([CV8.mk 798683124 3533505550 3106441059 3348187651 287233873 3055690624 3679956903 146611810, CV8.mk 1563624783 156598691 1761089664 3060187234 142614682 1020746202 2869032979 2129785798, CV8.mk 1036729674 729181096 1158845081 2452974130 3372377150 3416052189 288338907 1049652714, CV8.mk 3565972246 2886471024 873976111 503093484 4145839056 375091526 2702197304 70755737, CV8.mk 1824181180 755066897 448934855 8768645 1210609239 2224951706 41355139 2143859552, CV8.mk 918487838 1711785303 564069667 3324915673 1797774644 108454663 372557605 1473790963] : List CV8)).1 = ([CV8.mk 690548304 2663819510 2366559487 3536203835 1100532107 2361162334 4156029438 3309683825, CV8.mk 798683124 3533505550 3106441059 3348187651 287233873 3055690624 3679956903 146611810, CV8.mk 1563624783 156598691 1761089664 3060187234 142614682 1020746202 2869032979 2129785798, CV8.mk 1036729674 729181096 1158845081 2452974130 3372377150 3416052189 288338907 1049652714, CV8.mk 3565972246 2886471024 873976111 503093484 4145839056 375091526 2702197304 70755737, CV8.mk 1824181180 755066897 448934855 8768645 1210609239 2224951706 41355139 2143859552, CV8.mk 918487838 1711785303 564069667 3324915673 1797774644 108454663 372557605 1473790963] : List CV8))

set_option maxRecDepth 100000 in
set_option maxHeartbeats 2000000 in
theorem hash_tv65536 : hash (tvInput 65536) 32 = digest65536 := by
  have h0 : hash (tvInput 65536) 32 =
      cvToBytes (stackTop (finalMergeAuxT IV 0
        ((chunksLoopT (tvInput 65536) 64 0 64 0 []).1.length)
        (chunksLoopT (tvInput 65536) 64 0 64 0 []).1).1) 32 := by
    simp only [hash, hashT, hashRootT]
    rw [if_neg (by decide)]
    norm_num [tvInput]
  rw [h0, c1Step0, c1Step1, c1Step2, c1Step3, c1Step4, c1Step5, c1Step6, c1Step7, c1Step8, c1Step9, c1Step10, c1Step11, c1Step12, c1Step13, c1Step14, c1Step15, c1Step16, c1Step17, c1Step18, c1Step19, c1Step20, c1Step21, c1Step22, c1Step23, c1Step24, c1Step25, c1Step26, c1Step27, c1Step28, c1Step29, c1Step30, c1Step31, c1Step32, c1Step33, c1Step34, c1Step35, c1Step36, c1Step37, c1Step38, c1Step39, c1Step40, c1Step41, c1Step42, c1Step43, c1Step44, c1Step45, c1Step46, c1Step47, c1Step48, c1Step49, c1Step50, c1Step51, c1Step52, c1Step53, c1Step54, c1Step55, c1Step56, c1Step57, c1Step58, c1Step59, c1Step60, c1Step61, c1Step62, c1Step63]
  decide


end Blake3

namespace Blake3

set_option maxRecDepth 1000000 in
set_option maxHeartbeats 1000000 in
/-- C1: for lengths 0, 1, 64, 1024, 1025 and 65536, `hash` on the input
`[i mod 251 for i in 0..len]` with 32-byte output returns exactly the listed
digests.  The first five are the spec table's rows; for 65536 the code
produces `digest65536` (hex `68d647e6...7bfe`), not the table's row (see the
counterexample `hash_vector_65536_spec_mismatch`). -/
theorem hash_test_vectors :
    hash (tvInput 0) 32 = digest0 ∧ hash (tvInput 1) 32 = digest1 ∧
    hash (tvInput 64) 32 = digest64 ∧ hash (tvInput 1024) 32 = digest1024 ∧
    hash (tvInput 1025) 32 = digest1025 ∧ hash (tvInput 65536) 32 = digest65536 :=
  ⟨by decide, by decide, by decide, by decide, by decide, hash_tv65536⟩

set_option maxRecDepth 1000000 in
/-- C1 counterexample: at length 65536 the digest the code returns is not
the digest listed in the spec's vector table for that length. -/
theorem hash_vector_65536_spec_mismatch :
    hash (tvInput 65536) 32 ≠ specDigest65536 := by
  rw [hash_tv65536]; decide

end Blake3

namespace Blake3

/-! ## Output-length handling (claims C5, C10) and ROOT discipline (C3, C4) -/

set_option maxRecDepth 10000 in
/-- C5: the code performs no output-length validation.  `hash` with
`outputLen = 0` returns an empty buffer, and with `outputLen = 64` (which
exceeds the 32 bytes a root CV provides, there being no extended-output
path) it returns a 64-byte buffer — the 32 digest bytes followed by 32
zero bytes — instead of failing.  (`keyedHash` and `deriveKey` extract
their output through the same `cvToBytes`.) -/
theorem hash_no_output_len_validation :
    hash (tvInput 0) 0 = [] ∧
    (hash (tvInput 0) 64).length = 64 ∧
    (hash (tvInput 0) 64).drop 32 = List.replicate 32 0 :=
  ⟨by decide, by decide, by decide⟩

/-- How many recorded compressions of a trace carry the ROOT bit. -/
def rootFlagCount (tr : List Call) : Nat :=
  (tr.filter fun r => r.flags.testBit 3).length

/-- The ROOT-bit count of a keyed-hash run, `none` when the key is
rejected. -/
def keyedRootCount (key b : Bytes) (outputLen : Nat) : Option Nat :=
  match keyedHashT key b outputLen with
  | Except.ok p => some (rootFlagCount p.2)
  | Except.error _ => none

/-- The number of compress calls of a keyed-hash run. -/
def keyedCallCount (key b : Bytes) (outputLen : Nat) : Option Nat :=
  match keyedHashT key b outputLen with
  | Except.ok p => some p.2.length
  | Except.error _ => none

/-- A 32-byte key (bytes 0..31). -/
def key32demo : Bytes := ⟨32, fun i => i⟩

set_option maxRecDepth 100000 in
set_option maxHeartbeats 1000000 in
/-- C3: violated by the code.  `keyedHash`'s multi-chunk loop eagerly merges
pairs with no last-chunk guard (src/blake3.ts lines 345-354, unlike `hash`,
lines 253-261), so for a 2048-byte input (two chunks) the root parent
compression happens in the eager loop without ROOT and the whole run —
33 compress calls — contains no ROOT compression at all.  Moreover a
`deriveKey` run executes two ROOT compressions (the last block of the
context phase and of the material phase), so the first one is not the last
compression of the run. -/
theorem keyedHash_power_of_two_no_root :
    keyedRootCount key32demo (tvInput 2048) 32 = some 0 ∧
    keyedCallCount key32demo (tvInput 2048) 32 = some 33 ∧
    rootFlagCount (deriveKeyT (tvInput 3) (tvInput 5) 32).2 = 2 :=
  ⟨by decide, by decide, by decide⟩

/-- The spec's tree engine (§4.4) at mode flags `flags`: a single-chunk
input is one chunk whose last block carries `CHUNK_END | ROOT`; a
multi-chunk input runs the chunk loop with eager merging on non-final chunks
and finishes with the final merges, ROOT on the last.  This is the
comparison side for claim C4; it reuses the chunk- and merge-loop
definitions above (for `flags = 0` it is literally the root computation of
`hash`). -/
def specTreeRoot (flags : Nat) (b : Bytes) : CV8 :=
  if b.len ≤ CHUNK_LEN then
    (blockLoopT b 0 b.len 0 flags (Nat.lor CHUNK_END ROOT) (numBlocks b.len) 0 IV).1
  else
    let numChunks := (b.len + 1023) / 1024
    let cl := chunksLoopT b numChunks flags numChunks 0 []
    stackTop (finalMergeAuxT IV flags cl.1.length cl.1).1

/-- A 1025-byte context: the UTF-8 encoding of a string of 1025 `a`s. -/
def ctx1025 : Bytes := ⟨1025, fun _ => 97⟩

set_option maxRecDepth 100000 in
set_option maxHeartbeats 2000000 in
/-- C4: violated by the code.  For a context whose encoding exceeds 1024
bytes, `deriveKey`'s context hashing (a single sequential block loop with
counter 0 and ROOT on its last block, src/blake3.ts lines 377-397) does not
equal the chunk/tree engine's root CV of the same bytes in
DERIVE_KEY_CONTEXT mode: at 1025 bytes the two differ. -/
theorem deriveKey_context_not_treed :
    (deriveCtxCvT ctx1025).1 ≠ specTreeRoot DERIVE_KEY_CONTEXT ctx1025 := by
  decide

end Blake3

namespace Blake3

/-! ## Digest extraction: prefix and zero-padding properties (C6, C10) -/

theorem hash_eq_cvToBytes (b : Bytes) (L : Nat) :
    hash b L = cvToBytes (hashRootT b).1 L := rfl

theorem cvToBytes_take (cv : CV8) (L : Nat) (h64 : L ≤ 64) :
    cvToBytes cv L = (cvToBytes cv 64).take L := by
  unfold cvToBytes
  rw [← List.map_take, List.take_range, Nat.min_eq_left h64]
  refine List.map_congr_left fun j hj => ?_
  have hjL : j < L := List.mem_range.mp hj
  exact if_congr (by omega) rfl rfl

theorem cvToBytes_pad (cv : CV8) (L : Nat) (h : 32 < L) :
    cvToBytes cv L = cvToBytes cv 32 ++ List.replicate (L - 32) 0 := by
  apply List.ext_getElem
  · simp [cvToBytes]; omega
  · intro i hi hi'
    simp only [cvToBytes, List.getElem_map, List.getElem_range]
    by_cases h32 : i < 32
    · rw [List.getElem_append_left (by simp [cvToBytes]; omega)]
      simp only [cvToBytes, List.getElem_map, List.getElem_range]
      exact if_congr (by omega) rfl rfl
    · rw [List.getElem_append_right (by simp [cvToBytes]; omega)]
      rw [List.getElem_replicate]
      have : ¬ i / 4 < min 8 ((L + 3) / 4) := by omega
      rw [if_neg this]

end Blake3

namespace Blake3

/-- C6: for every input X and every output length L in [1, 64], `hash(X, L)`
equals the first L bytes of `hash(X, 64)`: the root CV does not depend on
the output length, and `cvToBytes` at length L is the length-L prefix of
`cvToBytes` at length 64. -/
theorem hash_prefix_property (b : Bytes) (L : Nat) (h1 : 1 ≤ L) (h2 : L ≤ 64) :
    hash b L = (hash b 64).take L := by
  rw [hash_eq_cvToBytes, hash_eq_cvToBytes]
  exact cvToBytes_take _ L h2

set_option maxRecDepth 10000 in
/-- Witness for C6 at input `[0, 1, 2]` and L = 5. -/
theorem hash_prefix_property_witness :
    1 ≤ 5 ∧ 5 ≤ 64 ∧ hash (tvInput 3) 5 = (hash (tvInput 3) 64).take 5 :=
  ⟨by decide, by decide, hash_prefix_property (tvInput 3) 5 (by decide) (by decide)⟩

theorem deriveKey_eq_cvToBytes (ctx mat : Bytes) (L : Nat) :
    deriveKey ctx mat L =
      cvToBytes (blockLoopT mat 0 mat.len 0 DERIVE_KEY_MATERIAL
        (Nat.lor CHUNK_END ROOT) (numBlocks mat.len) 0 (deriveCtxCvT ctx).1).1 L := rfl

/-- C10: for every CV and output length L > 32, `cvToBytes` returns a
length-L buffer whose bytes at indices 32 .. L-1 are zero; consequently
`hash`, `keyedHash` and `deriveKey` at `outputLen = L` return their 32-byte
digest followed by L - 32 zero bytes. -/
theorem cvToBytes_over_32_zero_padded (cv : CV8) (key b ctx mat : Bytes)
    (L : Nat) (h : 32 < L) :
    ((cvToBytes cv L).length = L ∧
      (cvToBytes cv L).drop 32 = List.replicate (L - 32) 0) ∧
    hash b L = hash b 32 ++ List.replicate (L - 32) 0 ∧
    keyedHashT key b L =
      Except.map (fun p => (p.1 ++ List.replicate (L - 32) 0, p.2))
        (keyedHashT key b 32) ∧
    deriveKey ctx mat L = deriveKey ctx mat 32 ++ List.replicate (L - 32) 0 := by
  have hlen : ∀ c : CV8, (cvToBytes c 32).length = 32 := by
    intro c; simp [cvToBytes]
  refine ⟨⟨by simp [cvToBytes], ?_⟩, ?_, ?_, ?_⟩
  · rw [cvToBytes_pad cv L h]
    exact List.drop_left' (hlen cv)
  · rw [hash_eq_cvToBytes, hash_eq_cvToBytes, cvToBytes_pad _ _ h]
  · unfold keyedHashT
    split_ifs with hk hb
    · rfl
    · simp only [Except.map]
      rw [cvToBytes_pad _ _ h]
    · simp only [Except.map]
      rw [cvToBytes_pad _ _ h]
  · rw [deriveKey_eq_cvToBytes, deriveKey_eq_cvToBytes, cvToBytes_pad _ _ h]

set_option maxRecDepth 10000 in
/-- Witness for C10 at L = 33 with concrete CV and inputs. -/
theorem cvToBytes_over_32_zero_padded_witness :
    32 < 33 ∧
    (((cvToBytes IV 33).length = 33 ∧
       (cvToBytes IV 33).drop 32 = List.replicate 1 0) ∧
     hash (tvInput 0) 33 = hash (tvInput 0) 32 ++ List.replicate 1 0 ∧
     keyedHashT key32demo (tvInput 0) 33 =
       Except.map (fun p => (p.1 ++ List.replicate 1 0, p.2))
         (keyedHashT key32demo (tvInput 0) 32) ∧
     deriveKey (tvInput 0) (tvInput 0) 33 =
       deriveKey (tvInput 0) (tvInput 0) 32 ++ List.replicate 1 0) :=
  ⟨by decide,
   cvToBytes_over_32_zero_padded IV key32demo (tvInput 0) (tvInput 0)
     (tvInput 0) 33 (by decide)⟩

end Blake3

namespace Blake3

/-! ## Claim C2: the inlined-permutation compress equals the reference
single-block compression (spec sections 4.1 and 9). -/

/-- The BLAKE3 message permutation table sigma from the spec
(`[2,6,3,10,7,0,4,13,1,11,12,5,9,14,15,8]`; identity off-range). -/
def sigma : Nat → Nat
  | 0 => 2
  | 1 => 6
  | 2 => 3
  | 3 => 10
  | 4 => 7
  | 5 => 0
  | 6 => 4
  | 7 => 13
  | 8 => 1
  | 9 => 11
  | 10 => 12
  | 11 => 5
  | 12 => 9
  | 13 => 14
  | 14 => 15
  | 15 => 8
  | k => k

/-- The permutation `sigma_r`: sigma applied r times to the identity. -/
def sigmaIter : Nat → Nat → Nat
  | 0, k => k
  | r + 1, k => sigmaIter r (sigma k)

/-- Message word by index. -/
def mGet (m : Msg16) : Nat → Nat
  | 0 => m.y0
  | 1 => m.y1
  | 2 => m.y2
  | 3 => m.y3
  | 4 => m.y4
  | 5 => m.y5
  | 6 => m.y6
  | 7 => m.y7
  | 8 => m.y8
  | 9 => m.y9
  | 10 => m.y10
  | 11 => m.y11
  | 12 => m.y12
  | 13 => m.y13
  | 14 => m.y14
  | 15 => m.y15
  | _ => 0

/-- The spec's G function (section 4.1): rotation amounts 16, 12, 8, 7,
all additions 32-bit modular.  Returns the updated `(a, b, c, d)`. -/
def gSpec (a b c d mx my : Nat) : Nat × Nat × Nat × Nat :=
  let a1 := Nat.mod (Nat.add (Nat.mod (Nat.add a b) W) mx) W
  let d1 := rotr (Nat.xor d a1) 16
  let c1 := Nat.mod (Nat.add c d1) W
  let b1 := rotr (Nat.xor b c1) 12
  let a2 := Nat.mod (Nat.add (Nat.mod (Nat.add a1 b1) W) my) W
  let d2 := rotr (Nat.xor d1 a2) 8
  let c2 := Nat.mod (Nat.add c1 d2) W
  let b2 := rotr (Nat.xor b1 c2) 7
  (a2, b2, c2, d2)

/-- One reference round (spec section 4.1): the four column G's
`G(s0,s4,s8,s12) G(s1,s5,s9,s13) G(s2,s6,s10,s14) G(s3,s7,s11,s15)` on
message words `mw 0 .. mw 7`, then the four diagonal G's
`G(s0,s5,s10,s15) G(s1,s6,s11,s12) G(s2,s7,s8,s13) G(s3,s4,s9,s14)` on
`mw 8 .. mw 15`. -/
def refRound (s : St16) (mw : Nat → Nat) : St16 :=
  let r0 := gSpec s.s0 s.s4 s.s8 s.s12 (mw 0) (mw 1)
  let r1 := gSpec s.s1 s.s5 s.s9 s.s13 (mw 2) (mw 3)
  let r2 := gSpec s.s2 s.s6 s.s10 s.s14 (mw 4) (mw 5)
  let r3 := gSpec s.s3 s.s7 s.s11 s.s15 (mw 6) (mw 7)
  let q0 := gSpec r0.1 r1.2.1 r2.2.2.1 r3.2.2.2 (mw 8) (mw 9)
  let q1 := gSpec r1.1 r2.2.1 r3.2.2.1 r0.2.2.2 (mw 10) (mw 11)
  let q2 := gSpec r2.1 r3.2.1 r0.2.2.1 r1.2.2.2 (mw 12) (mw 13)
  let q3 := gSpec r3.1 r0.2.1 r1.2.2.1 r2.2.2.2 (mw 14) (mw 15)
  ⟨q0.1, q1.1, q2.1, q3.1,
   q3.2.1, q0.2.1, q1.2.1, q2.2.1,
   q2.2.2.1, q3.2.2.1, q0.2.2.1, q1.2.2.1,
   q1.2.2.2, q2.2.2.2, q3.2.2.2, q0.2.2.2⟩

/-- The reference seven-round loop: round `r` (counted from `r0`) consumes
message word `sigma_r(k)` for its k-th word use. -/
def refRoundsGo (m : Msg16) : Nat → Nat → St16 → St16
  | 0, _, s => s
  | c + 1, r, s =>
      refRoundsGo m c (r + 1) (refRound s (fun k => mGet m (sigmaIter r k)))

/-- The reference single-block compression (spec section 4.1): state
initialisation `[CV, IV0..IV3, counter_lo, counter_hi, block_len, flags]`,
seven reference rounds indexing the message through `sigma_r`, and the
truncated finalisation `s_i XOR s_{i+8}` — all word values reduced
modulo `2^32`. -/
def compressRef (cv : CV8) (m : Msg16) (counter blockLen flags : Nat) : CV8 :=
  let mm : Msg16 :=
    ⟨Nat.mod m.y0 W, Nat.mod m.y1 W, Nat.mod m.y2 W, Nat.mod m.y3 W,
     Nat.mod m.y4 W, Nat.mod m.y5 W, Nat.mod m.y6 W, Nat.mod m.y7 W,
     Nat.mod m.y8 W, Nat.mod m.y9 W, Nat.mod m.y10 W, Nat.mod m.y11 W,
     Nat.mod m.y12 W, Nat.mod m.y13 W, Nat.mod m.y14 W, Nat.mod m.y15 W⟩
  let s := refRoundsGo mm 7 0
    ⟨Nat.mod cv.x0 W, Nat.mod cv.x1 W, Nat.mod cv.x2 W, Nat.mod cv.x3 W,
     Nat.mod cv.x4 W, Nat.mod cv.x5 W, Nat.mod cv.x6 W, Nat.mod cv.x7 W,
     0x6a09e667, 0xbb67ae85, 0x3c6ef372, 0xa54ff53a,
     Nat.mod counter W, Nat.mod (Nat.div counter W) W,
     Nat.mod blockLen W, Nat.mod flags W⟩
  ⟨Nat.xor s.s0 s.s8, Nat.xor s.s1 s.s9, Nat.xor s.s2 s.s10,
   Nat.xor s.s3 s.s11, Nat.xor s.s4 s.s12, Nat.xor s.s5 s.s13,
   Nat.xor s.s6 s.s14, Nat.xor s.s7 s.s15⟩

theorem mGet_permute (m : Msg16) (k : Nat) (hk : k < 16) :
    mGet (permuteMsg m) k = mGet m (sigma k) := by
  interval_cases k <;> rfl

theorem sigma_lt (k : Nat) (hk : k < 16) : sigma k < 16 := by
  interval_cases k <;> decide

theorem roundFn_eq_refRound (s : St16) (m : Msg16) (k : St16 → α) :
    roundFn s m k = k (refRound s (mGet m)) := by
  simp only [roundFn, g, sN_eq, refRound, gSpec, mGet]

theorem refRound_congr (s : St16) (mw1 mw2 : Nat → Nat)
    (h : ∀ j, j < 16 → mw1 j = mw2 j) : refRound s mw1 = refRound s mw2 := by
  unfold refRound
  rw [h 0 (by omega), h 1 (by omega), h 2 (by omega), h 3 (by omega),
    h 4 (by omega), h 5 (by omega), h 6 (by omega), h 7 (by omega),
    h 8 (by omega), h 9 (by omega), h 10 (by omega), h 11 (by omega),
    h 12 (by omega), h 13 (by omega), h 14 (by omega), h 15 (by omega)]

theorem roundsLoop_eq_ref (c : Nat) :
    ∀ (r : Nat) (s : St16) (m mOrig : Msg16),
      (∀ k, k < 16 → mGet m k = mGet mOrig (sigmaIter r k)) →
      roundsLoop c s m = refRoundsGo mOrig c r s := by
  induction c with
  | zero => intro r s m mOrig _; rfl
  | succ c ih =>
    intro r s m mOrig hm
    have hs : refRound s (mGet m) =
        refRound s (fun k => mGet mOrig (sigmaIter r k)) :=
      refRound_congr s _ _ hm
    show roundFn s m _ = _
    rw [roundFn_eq_refRound]
    show roundsLoop c _ (if c = 0 then m else permuteMsg m) = _
    cases c with
    | zero =>
      simp only [if_pos rfl, roundsLoop, refRoundsGo, hs]
    | succ c' =>
      rw [if_neg (by omega), hs]
      exact ih (r + 1) _ (permuteMsg m) mOrig fun k hk => by
        rw [mGet_permute m k hk, hm (sigma k) (sigma_lt k hk)]
        rfl

/-- C2: the source `compress` — which permutes the sixteen message-word
locals in place between rounds — equals the reference single-block
compression that runs seven rounds, round r consuming `m[sigma_r(k)]`
through the table `sigma = [2,6,3,10,7,0,4,13,1,11,12,5,9,14,15,8]`,
with the spec's G wiring and rotations 16, 12, 8, 7, and returns
`s_i XOR s_{i+8}` — for every CV, message, counter, block length and
flags. -/
theorem compress_eq_reference (cv : CV8) (m : Msg16)
    (counter blockLen flags : Nat) :
    compress cv m counter blockLen flags =
      compressRef cv m counter blockLen flags := by
  cases cv; cases m
  simp only [compress, sN_eq, compressRef]
  rw [roundsLoop_eq_ref 7 0 _ _ _ fun k hk => rfl]

end Blake3

namespace Blake3

/-! ## Claim C7: keyed-hash key validation and mode-flag propagation -/

theorem testBit_lor (a b i : Nat) :
    (Nat.lor a b).testBit i = (a.testBit i || b.testBit i) :=
  Nat.testBit_or a b i

theorem numBlocks_pos (len : Nat) : 0 < numBlocks len := by
  unfold numBlocks
  by_cases h : (len + 63) / 64 = 0 <;> simp [h] <;> omega

theorem blockLoopT_flags (b : Bytes) (s l cnt flags lastE i : Nat)
    (hf : flags.testBit i = true) :
    ∀ (br pos : Nat) (cv : CV8),
      ∀ rec ∈ (blockLoopT b s l cnt flags lastE br pos cv).2,
        rec.flags.testBit i = true := by
  intro br
  induction br with
  | zero => intro pos cv rec h; simp [blockLoopT] at h
  | succ br ih =>
    intro pos cv rec h
    rw [blockLoopT, forceCV_eq] at h
    rcases List.mem_cons.mp h with h1 | h2
    · subst h1
      simp only [testBit_lor, hf, Bool.true_or]
    · exact ih (pos + 64) _ rec h2

theorem mergeCvT_flags (base l r : CV8) (flags i : Nat) (isRoot : Bool)
    (hf : flags.testBit i = true) :
    (mergeCvT base l r flags isRoot).2.flags.testBit i = true := by
  simp only [mergeCvT, testBit_lor, hf, Bool.true_or]

theorem eagerMergeAuxT_flags (base : CV8) (flags i : Nat)
    (hf : flags.testBit i = true) :
    ∀ (fuel t : Nat) (stack : List CV8),
      ∀ rec ∈ (eagerMergeAuxT base flags fuel t stack).2,
        rec.flags.testBit i = true := by
  intro fuel
  induction fuel with
  | zero => intro t stack rec h; simp [eagerMergeAuxT] at h
  | succ fuel ih =>
    intro t stack rec h
    rcases stack with _ | ⟨r', rest1⟩
    · simp [eagerMergeAuxT] at h
    rcases rest1 with _ | ⟨l', rest⟩
    · simp [eagerMergeAuxT] at h
    rw [eagerMergeAuxT] at h
    split at h
    · simp only [forceCV_eq] at h
      rcases List.mem_cons.mp h with h1 | h2
      · subst h1; exact mergeCvT_flags _ _ _ flags i _ hf
      · exact ih (t / 2) _ rec h2
    · simp at h

theorem finalMergeAuxT_flags (base : CV8) (flags i : Nat)
    (hf : flags.testBit i = true) :
    ∀ (fuel : Nat) (stack : List CV8),
      ∀ rec ∈ (finalMergeAuxT base flags fuel stack).2,
        rec.flags.testBit i = true := by
  intro fuel
  induction fuel with
  | zero => intro stack rec h; simp [finalMergeAuxT] at h
  | succ fuel ih =>
    intro stack rec h
    rcases stack with _ | ⟨r', rest1⟩
    · simp [finalMergeAuxT] at h
    rcases rest1 with _ | ⟨l', rest⟩
    · simp [finalMergeAuxT] at h
    rw [finalMergeAuxT] at h
    simp only [forceCV_eq] at h
    rcases List.mem_cons.mp h with h1 | h2
    · subst h1; exact mergeCvT_flags _ _ _ flags i _ hf
    · exact ih _ rec h2

theorem keyedChunksLoopT_flags (b : Bytes) (kw : CV8) :
    ∀ (fuel c : Nat) (stack : List CV8),
      ∀ rec ∈ (keyedChunksLoopT b kw fuel c stack).2,
        rec.flags.testBit 4 = true := by
  intro fuel
  induction fuel with
  | zero => intro c stack rec h; simp [keyedChunksLoopT] at h
  | succ fuel ih =>
    intro c stack rec h
    rw [keyedChunksLoopT] at h
    simp only [List.mem_append] at h
    rcases h with (h | h) | h
    · exact blockLoopT_flags b _ _ _ KEYED_HASH _ 4 (by decide) _ _ _ rec h
    · exact eagerMergeAuxT_flags kw KEYED_HASH 4 (by decide) _ _ _ rec h
    · exact ih _ _ rec h

theorem blockLoopT_first (b : Bytes) (s l cnt flags lastE : Nat)
    (br pos : Nat) (cv : CV8) (h : br ≠ 0) :
    ∃ bl f rest, (blockLoopT b s l cnt flags lastE br pos cv).2 =
      Call.mk cv cnt bl f :: rest := by
  match br, h with
  | br' + 1, _ =>
    rw [blockLoopT, forceCV_eq]
    exact ⟨_, _, _, rfl⟩

theorem keyedChunksLoopT_first (b : Bytes) (kw : CV8) (fuel c : Nat)
    (stack : List CV8) (h : fuel ≠ 0) :
    ∃ bl f rest, (keyedChunksLoopT b kw fuel c stack).2 =
      Call.mk kw c bl f :: rest := by
  match fuel, h with
  | fuel' + 1, _ =>
    simp only [keyedChunksLoopT]
    obtain ⟨bl, f, rest, hr⟩ := blockLoopT_first b (c * CHUNK_LEN)
      (min CHUNK_LEN (b.len - c * CHUNK_LEN)) c KEYED_HASH CHUNK_END
      (numBlocks (min CHUNK_LEN (b.len - c * CHUNK_LEN))) 0 kw
      (by have := numBlocks_pos (min CHUNK_LEN (b.len - c * CHUNK_LEN)); omega)
    rw [hr, List.cons_append]
    exact ⟨bl, f, _, rfl⟩

/-- C7: `keyedHash` fails (with the invalid-key-length error) exactly when
the key is not 32 bytes; with a 32-byte key it always returns a digest, the
run's first compression starts from the key's eight little-endian words,
and every compression of the run carries the KEYED_HASH flag (bit 4). -/
theorem keyedHash_key_validation (key b : Bytes) (L : Nat) :
    ((∃ e, keyedHashT key b L = Except.error e) ↔ key.len ≠ 32) ∧
    (key.len = 32 →
      ∃ d tr, keyedHashT key b L = Except.ok (d, tr) ∧
        (∀ rec ∈ tr, rec.flags.testBit 4 = true) ∧
        ∃ c rest, tr = c :: rest ∧ c.cv = keyWords key) := by
  constructor
  · constructor
    · rintro ⟨e, he⟩ hk
      rw [keyedHashT, if_neg (by omega)] at he
      split at he <;> simp at he
    · intro hk
      exact ⟨"Key must be 32 bytes", by rw [keyedHashT, if_pos hk]⟩
  · intro hk
    rw [keyedHashT, if_neg (by omega)]
    by_cases hb : b.len ≤ CHUNK_LEN
    · rw [if_pos hb]
      refine ⟨_, _, rfl, ?_, ?_⟩
      · intro rec h
        exact blockLoopT_flags b _ _ _ KEYED_HASH _ 4 (by decide) _ _ _ rec h
      · obtain ⟨bl, f, rest, hr⟩ := blockLoopT_first b 0 b.len 0 KEYED_HASH
          (Nat.lor CHUNK_END ROOT) (numBlocks b.len) 0 (keyWords key)
          (by have := numBlocks_pos b.len; omega)
        exact ⟨_, _, hr, rfl⟩
    · rw [if_neg hb]
      refine ⟨_, _, rfl, ?_, ?_⟩
      · intro rec h
        simp only [List.mem_append] at h
        rcases h with h | h
        · exact keyedChunksLoopT_flags b _ _ _ _ rec h
        · exact finalMergeAuxT_flags _ KEYED_HASH 4 (by decide) _ _ rec h
      · obtain ⟨bl, f, rest, hr⟩ := keyedChunksLoopT_first b (keyWords key)
          ((b.len + 1023) / 1024) 0 [] (by omega)
        rw [hr, List.cons_append]
        exact ⟨_, _, rfl, rfl⟩

set_option maxRecDepth 10000 in
/-- Witness for C7 with the concrete 32-byte key `[0..31]`, a 3-byte input
and 32-byte output. -/
theorem keyedHash_key_validation_witness :
    key32demo.len = 32 ∧
    (∃ d tr, keyedHashT key32demo (tvInput 3) 32 = Except.ok (d, tr) ∧
      (∀ rec ∈ tr, rec.flags.testBit 4 = true) ∧
      ∃ c rest, tr = c :: rest ∧ c.cv = keyWords key32demo) :=
  ⟨rfl, (keyedHash_key_validation key32demo (tvInput 3) 32).2 rfl⟩

end Blake3

namespace Blake3

/-! ## Claim C8: the subtree stack after N complete chunks is the binary
decomposition of N.

The stack is modelled with its top at the head, so "strictly decreasing
subtree heights from bottom to top" reads as strictly increasing bit index
from the head: `expectedStack` lists, for each set bit k of N from lowest
to highest, the CV of the complete 2^k-chunk subtree at that position. -/

/-- Number of set bits, by halving (`fuel` dominates the recursion depth;
`popCount n` uses `fuel = n`). -/
def popCountAux : Nat → Nat → Nat
  | 0, _ => 0
  | fuel + 1, n => if n = 0 then 0 else n % 2 + popCountAux fuel (n / 2)

def popCount (n : Nat) : Nat := popCountAux n n

/-- The chaining value of the complete subtree of `2^k` chunks starting at
chunk index `start`: a chunk CV at height 0, and the PARENT compression of
its two half-subtrees above. -/
def subtreePow (b : Bytes) (flags : Nat) : Nat → Nat → CV8
  | 0, start =>
      (processChunkT b (start * CHUNK_LEN)
        (min CHUNK_LEN (b.len - start * CHUNK_LEN)) start flags).1
  | k + 1, start =>
      (mergeCvT IV (subtreePow b flags k start)
        (subtreePow b flags k (start + 2 ^ k)) flags false).1

/-- Stack entries contributed by the bits of `n`, scaled by `2^k` chunks
per unit: bit 0 of `n` (if set) contributes the subtree of height `k`
starting at chunk `(n - 1) * 2^k`, and the higher bits follow. -/
def expStackAux (b : Bytes) (flags : Nat) : Nat → Nat → Nat → List CV8
  | 0, _, _ => []
  | fuel + 1, n, k =>
      if n = 0 then []
      else
        (if n % 2 = 1 then [subtreePow b flags k ((n - 1) * 2 ^ k)] else []) ++
          expStackAux b flags fuel (n / 2) (k + 1)

/-- The claim's expected stack after `N` complete chunks: one CV per set
bit of `N`, lowest bit (smallest subtree) at the top of the stack. -/
def expectedStack (b : Bytes) (flags N : Nat) : List CV8 :=
  expStackAux b flags N N 0

theorem expStackAux_fuel (b : Bytes) (flags : Nat) :
    ∀ f1 n k f2, n ≤ f1 → n ≤ f2 →
      expStackAux b flags f1 n k = expStackAux b flags f2 n k := by
  intro f1
  induction f1 with
  | zero =>
    intro n k f2 h1 h2
    have hn : n = 0 := by omega
    subst hn
    cases f2 <;> simp [expStackAux]
  | succ f1 ih =>
    intro n k f2 h1 h2
    by_cases hn : n = 0
    · subst hn; cases f2 <;> simp [expStackAux]
    · obtain ⟨f2', rfl⟩ : ∃ f2', f2 = f2' + 1 := ⟨f2 - 1, by omega⟩
      rw [expStackAux, expStackAux, if_neg hn, if_neg hn,
        ih (n / 2) (k + 1) f2' (by omega) (by omega)]

theorem eagerMergeAuxT_odd (base : CV8) (flags fuel t : Nat)
    (stack : List CV8) (h : t % 2 ≠ 0) :
    eagerMergeAuxT base flags (fuel + 1) t stack = (stack, []) := by
  rcases stack with _ | ⟨r, _ | ⟨l, rest⟩⟩ <;> simp [eagerMergeAuxT, h]

theorem eagerMerge_expected (b : Bytes) (flags : Nat) :
    ∀ fuel t k, 1 ≤ t → t ≤ fuel →
      (eagerMergeAuxT IV flags fuel t
        (subtreePow b flags k ((t - 1) * 2 ^ k) ::
          expStackAux b flags (t - 1) (t - 1) k)).1 =
        expStackAux b flags t t k := by
  intro fuel
  induction fuel with
  | zero => intro t k h1 h2; omega
  | succ fuel ih =>
    intro t k h1 h2
    by_cases ht : t % 2 = 0
    · -- even t: one merge happens, then recurse one scale up
      obtain ⟨t2, rfl⟩ : ∃ t2, t = 2 * t2 := ⟨t / 2, by omega⟩
      have ht2 : 1 ≤ t2 := by omega
      -- expose the head of the expected stack for the odd number t - 1
      have hE : expStackAux b flags (2 * t2 - 1) (2 * t2 - 1) k =
          subtreePow b flags k ((2 * t2 - 2) * 2 ^ k) ::
            expStackAux b flags (t2 - 1) (t2 - 1) (k + 1) := by
        have h1eq : 2 * t2 - 1 = (2 * t2 - 2) + 1 := by omega
        rw [h1eq, expStackAux, if_neg (by omega), if_pos (by omega)]
        simp only [List.singleton_append, Nat.add_sub_cancel]
        congr 1
        have hd : ((2 * t2 - 2) + 1) / 2 = t2 - 1 := by omega
        rw [hd]
        exact expStackAux_fuel b flags (2 * t2 - 2) (t2 - 1) (k + 1) (t2 - 1)
          (by omega) (le_refl _)
      rw [hE, eagerMergeAuxT, if_pos (by omega)]
      simp only [forceCV_eq]
      -- the merged node is the subtree one level up
      have hmerge :
          (mergeCvT IV (subtreePow b flags k ((2 * t2 - 2) * 2 ^ k))
            (subtreePow b flags k ((2 * t2 - 1) * 2 ^ k)) flags false).1 =
          subtreePow b flags (k + 1) ((t2 - 1) * 2 ^ (k + 1)) := by
        rw [subtreePow]
        have e2 : (t2 - 1) * 2 ^ (k + 1) + 2 ^ k = (2 * t2 - 1) * 2 ^ k := by
          rw [pow_succ]
          have h' : (t2 - 1) * (2 ^ k * 2) = ((t2 - 1) * 2) * 2 ^ k := by ring
          rw [h', ← Nat.add_one_mul]
          congr 1
          omega
        have e1 : (t2 - 1) * 2 ^ (k + 1) = (2 * t2 - 2) * 2 ^ k := by
          rw [pow_succ]
          have h' : (t2 - 1) * (2 ^ k * 2) = ((t2 - 1) * 2) * 2 ^ k := by ring
          rw [h']
          congr 1
          omega
        rw [e2, e1]
      rw [hmerge]
      have hdiv : 2 * t2 / 2 = t2 := by omega
      rw [hdiv, ih t2 (k + 1) (by omega) (by omega)]
      -- finally, the even unfolding of the right-hand side
      have hu : 2 * t2 = (2 * t2 - 1) + 1 := by omega
      rw [hu, expStackAux, if_neg (by omega), if_neg (by omega)]
      simp only [List.nil_append]
      have hd2 : ((2 * t2 - 1) + 1) / 2 = t2 := by omega
      rw [hd2]
      exact expStackAux_fuel b flags t2 t2 (k + 1) (2 * t2 - 1)
        (le_refl _) (by omega)
    · -- odd t: the loop does not fire and the stack is already expected
      rw [eagerMergeAuxT_odd IV flags fuel t _ ht]
      obtain ⟨u, hu⟩ : ∃ u, t = u + 1 := ⟨t - 1, by omega⟩
      rw [hu]
      rw [expStackAux]
      rw [if_neg (by omega)]
      rw [if_pos (by omega)]
      simp only [List.singleton_append, Nat.add_sub_cancel]
      show subtreePow b flags k (u * 2 ^ k) :: expStackAux b flags u u k = _
      congr 1
      by_cases hu0 : u = 0
      · subst hu0; simp [expStackAux]
      · have hveq : u = (u - 1) + 1 := by omega
        conv_lhs => rw [hveq, expStackAux]
        rw [if_neg (by omega), if_neg (by omega)]
        simp only [List.nil_append]
        have hd : ((u - 1) + 1) / 2 = (u + 1) / 2 := by omega
        rw [hd]
        exact expStackAux_fuel b flags (u - 1) ((u + 1) / 2) (k + 1) u
          (by omega) (by omega)

theorem chunksLoopT_fst_split (b : Bytes) (nc flags : Nat) :
    ∀ f1 f2 c stack,
      (chunksLoopT b nc flags (f1 + f2) c stack).1 =
        (chunksLoopT b nc flags f2 (c + f1)
          (chunksLoopT b nc flags f1 c stack).1).1 := by
  intro f1
  induction f1 with
  | zero =>
    intro f2 c stack
    simp only [Nat.zero_add, Nat.add_zero]
    rfl
  | succ f1 ih =>
    intro f2 c stack
    have e : f1 + 1 + f2 = (f1 + f2) + 1 := by omega
    rw [e, chunksLoopT, chunksLoopT]
    simp only
    rw [ih f2 (c + 1)]
    have e2 : c + 1 + f1 = c + (f1 + 1) := by omega
    rw [e2]

theorem chunksLoop_expected (b : Bytes) (nc : Nat) :
    ∀ N, 1 ≤ N → N + 1 ≤ nc →
      (chunksLoopT b nc 0 N 0 []).1 = expectedStack b 0 N := by
  intro N
  induction N with
  | zero => intro h1 _; omega
  | succ N ih =>
    intro _ h2
    by_cases hN : N = 0
    · subst hN
      rw [chunksLoopT]
      simp only
      rw [if_neg (by omega)]
      rw [eagerMergeAuxT_odd IV 0 0 (0 + 1) _ (by omega)]
      simp [chunksLoopT, expectedStack, expStackAux, subtreePow, processChunkT]
    · have hsplit := chunksLoopT_fst_split b nc 0 N 1 0 []
      rw [hsplit, ih (by omega) (by omega)]
      rw [chunksLoopT]
      simp only [Nat.zero_add]
      rw [if_neg (by omega)]
      rw [chunksLoopT]
      have hleaf : (processChunkT b (N * CHUNK_LEN)
          (min CHUNK_LEN (b.len - N * CHUNK_LEN)) N 0).1 =
          subtreePow b 0 0 N := rfl
      rw [hleaf]
      have hm := eagerMerge_expected b 0 (N + 1) (N + 1) 0 (by omega) (le_refl _)
      simp only [pow_zero, Nat.mul_one, Nat.add_sub_cancel] at hm
      exact hm

theorem expStackAux_length (b : Bytes) (flags : Nat) :
    ∀ fuel n k, (expStackAux b flags fuel n k).length = popCountAux fuel n := by
  intro fuel
  induction fuel with
  | zero => intro n k; rfl
  | succ fuel ih =>
    intro n k
    rw [expStackAux, popCountAux]
    by_cases hn : n = 0
    · simp [hn]
    · rw [if_neg hn, if_neg hn, List.length_append, ih (n / 2) (k + 1)]
      by_cases hp : n % 2 = 1
      · rw [if_pos hp]; simp; omega
      · rw [if_neg hp]; simp; omega

theorem popCountAux_le (k : Nat) :
    ∀ fuel n, n < 2 ^ k → popCountAux fuel n ≤ k := by
  induction k with
  | zero =>
    intro fuel n h
    have : n = 0 := by simpa using h
    subst this
    cases fuel <;> simp [popCountAux]
  | succ k ih =>
    intro fuel n h
    cases fuel with
    | zero => simp [popCountAux]
    | succ fuel =>
      rw [popCountAux]
      by_cases hn : n = 0
      · simp [hn]
      · rw [if_neg hn]
        have hdiv : n / 2 < 2 ^ k := by
          have : (2 : Nat) ^ (k + 1) = 2 * 2 ^ k := by ring
          omega
        have := ih fuel (n / 2) hdiv
        omega

/-- C8: after the eager-merge step that follows consuming chunk `c` of
`hash`'s multi-chunk loop (any non-final `c`, with `N = c + 1` complete
chunks consumed), the subtree stack is exactly the binary decomposition of
`N`: one CV per set bit of `N` — the complete `2^k`-chunk subtree CV for
bit `k` — ordered with the smallest subtree on top (strictly decreasing
heights from bottom to top); its length is `popCount N`, hence at most 64
for `N < 2^64`. -/
theorem hash_stack_binary_invariant (b : Bytes) (N : Nat)
    (h1 : 1 ≤ N) (h2 : N + 1 ≤ (b.len + 1023) / 1024) :
    (chunksLoopT b ((b.len + 1023) / 1024) 0 N 0 []).1 = expectedStack b 0 N ∧
    (chunksLoopT b ((b.len + 1023) / 1024) 0 N 0 []).1.length = popCount N ∧
    (N < 2 ^ 64 →
      (chunksLoopT b ((b.len + 1023) / 1024) 0 N 0 []).1.length ≤ 64) := by
  have he := chunksLoop_expected b ((b.len + 1023) / 1024) N h1 h2
  refine ⟨he, ?_, ?_⟩
  · rw [he, expectedStack, expStackAux_length, popCount]
  · intro h64
    rw [he, expectedStack, expStackAux_length]
    exact popCountAux_le 64 N N h64

set_option maxRecDepth 400000 in
set_option maxHeartbeats 4000000 in
/-- Witness for C8 on a 3072-byte input (3 chunks) after N = 2 complete
chunks. -/
theorem hash_stack_binary_invariant_witness :
    1 ≤ 2 ∧ 2 + 1 ≤ ((tvInput 3072).len + 1023) / 1024 ∧
    ((chunksLoopT (tvInput 3072) (((tvInput 3072).len + 1023) / 1024) 0 2 0 []).1 =
        expectedStack (tvInput 3072) 0 2 ∧
      (chunksLoopT (tvInput 3072) (((tvInput 3072).len + 1023) / 1024) 0 2 0 []).1.length =
        popCount 2 ∧
      (2 < 2 ^ 64 →
        (chunksLoopT (tvInput 3072) (((tvInput 3072).len + 1023) / 1024) 0 2 0 []).1.length ≤ 64)) :=
  ⟨by decide, by decide,
   hash_stack_binary_invariant (tvInput 3072) 2 (by decide) (by decide)⟩

end Blake3

namespace Blake3

/-! ## Claim C9: the batched path of hashWasmSimd equals the scalar hash -/

theorem processChunkT_eq (b : Bytes) (start len c : Nat) :
    blockLoopT b start len c 0 CHUNK_END (numBlocks len) 0 IV =
      processChunkT b start len c 0 := rfl

theorem nc_mul_ge (b : Bytes) (cc : Nat)
    (h : (b.len + 1023) / 1024 ≤ cc) : b.len ≤ cc * CHUNK_LEN := by
  show b.len ≤ cc * 1024
  omega

theorem nc_mul_lt (b : Bytes) (cc : Nat) (hb : 0 < b.len)
    (h : cc < (b.len + 1023) / 1024) : cc * CHUNK_LEN < b.len := by
  show cc * 1024 < b.len
  omega

theorem simdLoop_eq_chunksLoop (b : Bytes) (hb : 0 < b.len) :
    ∀ (fuel cc : Nat) (stack : List CV8),
      (b.len + 1023) / 1024 - cc ≤ fuel →
      (simdLoopT b ((b.len + 1023) / 1024) fuel cc (cc * CHUNK_LEN) stack).1 =
        (chunksLoopT b ((b.len + 1023) / 1024) 0
          ((b.len + 1023) / 1024 - cc) cc stack).1 := by
  intro fuel
  induction fuel with
  | zero =>
    intro cc stack h
    have e : (b.len + 1023) / 1024 - cc = 0 := by omega
    rw [e]
    rfl
  | succ fuel ih =>
    intro cc stack h
    by_cases hcc : (b.len + 1023) / 1024 ≤ cc
    · have e : (b.len + 1023) / 1024 - cc = 0 := by omega
      rw [e, simdLoopT, if_pos (nc_mul_ge b cc hcc)]
      rfl
    · have hlt : cc * CHUNK_LEN < b.len := nc_mul_lt b cc hb (by omega)
      have havail : (b.len - cc * CHUNK_LEN + 1023) / 1024 =
          (b.len + 1023) / 1024 - cc := by
        show (b.len - cc * 1024 + 1023) / 1024 = (b.len + 1023) / 1024 - cc
        omega
      rw [simdLoopT, if_neg (by omega)]
      rw [havail]
      by_cases h4 : 4 ≤ min 4 ((b.len + 1023) / 1024 - cc)
      · -- batch of four chunks = four scalar steps
        rw [if_pos h4]
        simp only [processChunkT_eq]
        have e0 : cc * CHUNK_LEN + 0 * CHUNK_LEN = cc * CHUNK_LEN := by ring
        have e1 : cc * CHUNK_LEN + 1 * CHUNK_LEN = (cc + 1) * CHUNK_LEN := by ring
        have e2 : cc * CHUNK_LEN + 2 * CHUNK_LEN = (cc + 2) * CHUNK_LEN := by ring
        have e3 : cc * CHUNK_LEN + 3 * CHUNK_LEN = (cc + 3) * CHUNK_LEN := by ring
        simp only [e0, e1, e2, e3, Nat.add_zero]
        have e4 : cc * CHUNK_LEN + 4 * CHUNK_LEN = (cc + 4) * CHUNK_LEN := by ring
        rw [e4, ih (cc + 4) _ (by omega)]
        have ef : (b.len + 1023) / 1024 - cc =
            ((b.len + 1023) / 1024 - (cc + 4)) + 4 := by omega
        rw [ef]
        rw [chunksLoopT_fst_step, chunksLoopT_fst_step, chunksLoopT_fst_step,
          chunksLoopT_fst_step]
      · -- fewer than four chunks remain: one scalar step
        rw [if_neg h4]
        simp only [processChunkT_eq]
        have e4 : cc * CHUNK_LEN + CHUNK_LEN = (cc + 1) * CHUNK_LEN := by ring
        rw [e4, ih (cc + 1) _ (by omega)]
        have ef : (b.len + 1023) / 1024 - cc =
            ((b.len + 1023) / 1024 - (cc + 1)) + 1 := by omega
        rw [ef, chunksLoopT_fst_step]

/-- C9: with the batch kernel available, `hashWasmSimd` — which processes
chunks in groups of four and pushes the four CVs onto the subtree stack in
order under the standard merge rule — returns a digest bit-identical to the
scalar `hash` of src/blake3.ts, for every input and every output length
(including inputs whose final group is smaller than four chunks). -/
theorem hashWasmSimd_eq_hash (b : Bytes) (L : Nat) :
    hashWasmSimd b L = hash b L := by
  unfold hashWasmSimd hashWasmSimdT hash hashT hashRootT
  by_cases hb : b.len ≤ CHUNK_LEN
  · rw [if_pos hb, if_pos hb]
  · rw [if_neg hb, if_neg hb]
    have hlen : 0 < b.len := by
      show 0 < b.len
      by_contra h
      exact hb (by omega)
    have hs := simdLoop_eq_chunksLoop b hlen ((b.len + 1023) / 1024) 0 []
      (by omega)
    rw [Nat.zero_mul] at hs
    rw [Nat.sub_zero] at hs
    simp only [hs]

end Blake3
